import Mathlib

/-!
Verification model of the ticket inventory allocation and reservation
lifecycle engine of `ticketbot` (source: `src/ticketbot/database.py`).

Modelling conventions, stated once:
* SQLite `REAL` price columns are modelled as `ℚ` (exact arithmetic),
  `INTEGER` columns as `Int`, `TEXT` as `String`.
* The string tier keys `"early" / "tier1" / "tier2"` are modelled by the
  closed type `Tier`; an attendee or reservation tier string that is not
  one of the three keys (for instance the empty string) is modelled as
  `none : Option Tier`, matching every place the source filters on
  membership in `{"early", "tier1", "tier2"}`.
* Gender strings `"boy" / "girl"` and anything else are modelled by
  `Gender` with `Gender.unknown` for the rest.
* The store is modelled with a single event (each operation only ever
  reads and writes the event referenced by the reservation at hand),
  a list of reservation rows, a list of attendee rows, and fresh-id
  counters standing for the AUTOINCREMENT primary keys.
* A SQL transaction is modelled by state passing: each mutating
  operation returns the new store state together with its result; the
  explicit `conn.rollback()` calls of the source are modelled by
  returning the original input state on those error paths.
-/

inductive Tier where
  | early : Tier
  | tier1 : Tier
  | tier2 : Tier
deriving DecidableEq, Repr

inductive Gender where
  | boy : Gender
  | girl : Gender
  | unknown : Gender
deriving DecidableEq, Repr

/-- The tier-relevant columns of an `events` row
(`early_bird_price`, `early_bird_price_girl`, `early_bird_qty`, ...). -/
structure Event where
  early_bird_price : ℚ
  early_bird_price_girl : ℚ
  early_bird_qty : Int
  regular_tier1_price : ℚ
  regular_tier1_price_girl : ℚ
  regular_tier1_qty : Int
  regular_tier2_price : ℚ
  regular_tier2_price_girl : ℚ
  regular_tier2_qty : Int
deriving DecidableEq, Repr

/-- Remaining quantity of a tier (the `remaining` entries built by
`Database._tier_sequence`). -/
def Event.tierQty (e : Event) : Tier → Int
  | Tier.early => e.early_bird_qty
  | Tier.tier1 => e.regular_tier1_qty
  | Tier.tier2 => e.regular_tier2_qty

/-- Boy price of a tier (first component of `Database._tier_prices`). -/
def Event.boyPrice (e : Event) : Tier → ℚ
  | Tier.early => e.early_bird_price
  | Tier.tier1 => e.regular_tier1_price
  | Tier.tier2 => e.regular_tier2_price

/-- Girl price of a tier (second component of `Database._tier_prices`). -/
def Event.girlPrice (e : Event) : Tier → ℚ
  | Tier.early => e.early_bird_price_girl
  | Tier.tier1 => e.regular_tier1_price_girl
  | Tier.tier2 => e.regular_tier2_price_girl

/-- Write a tier's quantity column (the `UPDATE events SET {qty_column} = ...`
statements; `_tier_qty_column` maps each tier key to its column). -/
def Event.setTierQty (e : Event) : Tier → Int → Event
  | Tier.early, v => { e with early_bird_qty := v }
  | Tier.tier1, v => { e with regular_tier1_qty := v }
  | Tier.tier2, v => { e with regular_tier2_qty := v }

/-- `Database.total_remaining`. -/
def total_remaining (e : Event) : Int :=
  e.early_bird_qty + e.regular_tier1_qty + e.regular_tier2_qty

/-- The fixed tier order of `Database._tier_sequence`:
Early Bird, Regular Tier-1, Regular Tier-2. -/
def tier_order : List Tier := [Tier.early, Tier.tier1, Tier.tier2]

/-- The inner scan of `_allocate_tier_plan`: the first tier in the fixed
order whose remaining count (in the local planning copy `rem`) is
positive, `none` when every tier is exhausted. -/
def first_available (rem : Tier → Int) : Option Tier :=
  tier_order.find? (fun t => decide (0 < rem t))

/-- Unit price of one attendee:
`boy_price if gender == "boy" else girl_price`. -/
def unit_price_for (e : Event) (t : Tier) (g : Gender) : ℚ :=
  if g = Gender.boy then e.boyPrice t else e.girlPrice t

/-- One entry of the `attendee_allocations` list of `_allocate_tier_plan`. -/
structure Alloc where
  tier : Tier
  gender : Gender
  unit_price : ℚ
deriving DecidableEq, Repr

/-- Decrement the local planning copy of one tier's remaining count
(`tier_remaining[key] -= 1`). -/
def decr (rem : Tier → Int) (t : Tier) : Tier → Int :=
  fun u => if u = t then rem t - 1 else rem u

/-- The allocation loop of `_allocate_tier_plan`: for each gender tag in
order, assign the first tier with positive local remaining count and
decrement it; `none` models the `raise ValueError("Event is sold out")`
path. -/
def alloc_go (e : Event) : List Gender → (Tier → Int) → Option (List Alloc)
  | [], _ => some []
  | g :: gs, rem =>
    (first_available rem).bind (fun t =>
      (alloc_go e gs (decr rem t)).map (fun rest =>
        { tier := t, gender := g, unit_price := unit_price_for e t g } :: rest))

/-- Number of allocations routed to tier `t`; this is the per-tier
`usage["count"]` accumulated by `_allocate_tier_plan`, read off from the
allocation list (the loop increments the tier's count once per
allocation placed in it). -/
def tier_count (allocs : List Alloc) (t : Tier) : Nat :=
  (allocs.filter (fun a => a.tier = t)).length

/-- The tiers present in the `tier_usage` dict, in the order of the
returned `breakdown` list (the source filters `tiers` - the fixed
canonical order - on membership in `tier_usage`). -/
def used_tiers (allocs : List Alloc) : List Tier :=
  tier_order.filter (fun t => decide (0 < tier_count allocs t))

/-- The `hold_counts` map of the plan as an association list in
breakdown order: one entry per used tier, carrying its count. -/
def hold_counts_list (allocs : List Alloc) : List (Tier × Nat) :=
  (used_tiers allocs).map (fun t => (t, tier_count allocs t))

/-- The accumulated `total_price` of the plan: the sum of the
per-attendee unit prices, in list order. -/
def sum_prices (allocs : List Alloc) : ℚ :=
  (allocs.map (fun a => a.unit_price)).sum

/-- Error outcomes of the store operations (each `raise ValueError(msg)`
of the source keyed by its message, plus the reported failures). -/
inductive DbErr where
  | atLeastOneAttendee : DbErr
  | insufficientInventory : DbErr
  | soldOut : DbErr
  | attendeeCountMismatch : DbErr
  | eventNotFound : DbErr
deriving DecidableEq, Repr

/-- The plan returned by `_allocate_tier_plan`. -/
structure Plan where
  quantity : Nat
  total_price : ℚ
  primary_tier_key : Tier
  attendee_allocations : List Alloc
deriving DecidableEq, Repr

/-- `Database._allocate_tier_plan`. The pre-checks are
`quantity <= 0` (`"At least one attendee is required"`) and
`quantity > total_remaining` (`"Not enough tickets remaining across all
tiers"`); then the greedy loop runs on a local copy of the tier
quantities.  `primary_tier_key` is the tier of the first allocation,
`"early"` when the list is empty (unreachable here since quantity is
positive). -/
def allocate_tier_plan (e : Event) (boys girls : Nat) : Except DbErr Plan :=
  let quantity := boys + girls
  if quantity = 0 then Except.error DbErr.atLeastOneAttendee
  else if (quantity : Int) > total_remaining e then
    Except.error DbErr.insufficientInventory
  else
    let genders := List.replicate boys Gender.boy ++ List.replicate girls Gender.girl
    match alloc_go e genders e.tierQty with
    | none => Except.error DbErr.soldOut
    | some allocs =>
      Except.ok
        { quantity := quantity
          total_price := sum_prices allocs
          primary_tier_key := ((allocs.head?).map (fun a => a.tier)).getD Tier.early
          attendee_allocations := allocs }

/-- `Database.quote_booking` restricted to its allocation content (the
event lookup is the single modelled event; the returned dict carries the
plan's quantity, total price and breakdown). -/
def quote_booking (e : Event) (boys girls : Nat) : Except DbErr Plan :=
  allocate_tier_plan e boys girls

/-- The status string constants of the source. -/
def STATUS_PENDING : String := "pending_payment_review"

/-- `STATUS_APPROVED` of the source. -/
def STATUS_APPROVED : String := "approved"

/-- `STATUS_REJECTED` of the source. -/
def STATUS_REJECTED : String := "rejected"

/-- `STATUS_CANCELLED` of the source. -/
def STATUS_CANCELLED : String := "cancelled"

/-- Python `str.strip()` modelled on the character list: drop leading
and trailing whitespace. -/
def strip_chars (l : List Char) : List Char :=
  ((l.dropWhile Char.isWhitespace).reverse.dropWhile Char.isWhitespace).reverse

/-- Python `.strip().lower()` as used on status strings, modelled on the
character list so that it evaluates inside the kernel. -/
def normalize_status (s : String) : String :=
  String.mk ((strip_chars s.data).map Char.toLower)

/-- `Database._is_admin_mutable_reservation_status`: the status,
stripped and lowercased, is one of the pending/approved spellings
(canonical plus recognized legacy aliases). -/
def is_admin_mutable_reservation_status (status : String) : Bool :=
  let normalized := normalize_status status
  normalized = STATUS_PENDING || normalized = STATUS_APPROVED ||
  normalized = "pending" || normalized = "pending_payment" ||
  normalized = "pending_review" || normalized = "pending_payment_approval"

/-- A `reservations` row (the columns the lifecycle operations read or
write; `hold_applied INTEGER` holding 0/1 is modelled as `Bool`, the
`reviewed_at` timestamp as an abstract `Option Nat` clock value). -/
structure Reservation where
  rid : Nat
  user_id : Nat
  ticket_type : Option Tier
  quantity : Int
  total_price : ℚ
  boys : Int
  girls : Int
  status : String
  admin_note : String
  reviewed_at : Option Nat
  reviewed_by_tg_id : Option Nat
  hold_applied : Bool
deriving DecidableEq, Repr

/-- An `attendees` row. -/
structure Attendee where
  aid : Nat
  reservation_id : Nat
  full_name : String
  gender : Gender
  ticket_tier : Option Tier
deriving DecidableEq, Repr

/-- The store state: the single modelled event, the reservation and
attendee tables, and the AUTOINCREMENT counters. -/
structure St where
  ev : Event
  ress : List Reservation
  atts : List Attendee
  next_rid : Nat
  next_aid : Nat
deriving DecidableEq, Repr

/-- Row lookup `SELECT * FROM reservations WHERE id = ?`. -/
def findRes (st : St) (rid : Nat) : Option Reservation :=
  st.ress.find? (fun r => r.rid = rid)

/-- In-place update of one reservation row. -/
def updateRes (st : St) (rid : Nat) (f : Reservation → Reservation) : St :=
  { st with ress := st.ress.map (fun r => if r.rid = rid then f r else r) }

/-- The attendee rows of one reservation
(`SELECT ... FROM attendees WHERE reservation_id = ?`). -/
def atts_of (st : St) (rid : Nat) : List Attendee :=
  st.atts.filter (fun a => a.reservation_id = rid)

/-- `Database._reservation_hold_counts`: group the reservation's current
attendee rows by their recorded `ticket_tier`, keeping only the valid
tier keys (`none`, the model of a non-tier string, is dropped). -/
def reservation_hold_counts (st : St) (rid : Nat) : Tier → Nat :=
  fun t =>
    (st.atts.filter (fun a => a.reservation_id = rid && a.ticket_tier = some t)).length

/-- `not hold_counts` in `_release_hold`: no attendee of the reservation
carries a valid tier key. -/
def hold_counts_empty (st : St) (rid : Nat) : Bool :=
  tier_order.all (fun t => reservation_hold_counts st rid t = 0)

/-- The increment loop of `_release_hold`
(`UPDATE events SET {qty_column} = {qty_column} + ?` once per map entry;
entries with `qty <= 0` are skipped, and each tier occurs at most once
in the map, so the loop adds each tier's count to its column). -/
def add_to_tiers (e : Event) (counts : Tier → Nat) : Event :=
  { e with
    early_bird_qty := e.early_bird_qty + (counts Tier.early : Int)
    regular_tier1_qty := e.regular_tier1_qty + (counts Tier.tier1 : Int)
    regular_tier2_qty := e.regular_tier2_qty + (counts Tier.tier2 : Int) }

/-- `Database._release_hold`: a no-op unless `hold_applied`; otherwise
credit back, per tier, the count of the reservation's current attendees
recorded in that tier; when no attendee has a valid tier, fall back to
the reservation's own `ticket_type` with its full `quantity`
(`int(quantity or 0)` clamped by the `qty <= 0: continue` guard, hence
`Int.toNat`). -/
def release_hold (st : St) (r : Reservation) : St :=
  if r.hold_applied = false then st
  else
    let counts : Tier → Nat :=
      if hold_counts_empty st r.rid then
        match r.ticket_type with
        | some t => fun u => if u = t then r.quantity.toNat else 0
        | none => fun _ => 0
      else reservation_hold_counts st r.rid
    { st with ev := add_to_tiers st.ev counts }

/-- The guarded hold-commit loop of `create_pending_reservation`:
`UPDATE events SET {qty_column} = {qty_column} - ? WHERE ... AND
{qty_column} >= ?`, one entry at a time; `none` models the
`rowcount <= 0` path that rolls the transaction back. -/
def apply_hold_counts (e : Event) : List (Tier × Nat) → Option Event
  | [] => some e
  | (t, n) :: rest =>
    if (n : Int) ≤ e.tierQty t then
      apply_hold_counts (e.setTierQty t (e.tierQty t - (n : Int))) rest
    else none

/-- The attendee-row insertion loop of `create_pending_reservation`:
one row per (name, allocation) pair, ids assigned consecutively. -/
def mk_attendees (rid : Nat) : Nat → List (String × Alloc) → List Attendee
  | _, [] => []
  | aid, (nm, al) :: rest =>
    { aid := aid
      reservation_id := rid
      full_name := nm
      gender := al.gender
      ticket_tier := some al.tier } :: mk_attendees rid (aid + 1) rest

/-- The reservation row inserted by `create_pending_reservation`
(`status = pending`, `hold_applied = 1`, `ticket_type` = the plan's
primary tier, aggregates from the plan and the request). -/
def pending_res_row (st : St) (user_id : Nat) (boys girls : Nat)
    (plan : Plan) : Reservation :=
  { rid := st.next_rid
    user_id := user_id
    ticket_type := some plan.primary_tier_key
    quantity := (plan.quantity : Int)
    total_price := plan.total_price
    boys := (boys : Int)
    girls := (girls : Int)
    status := STATUS_PENDING
    admin_note := ""
    reviewed_at := none
    reviewed_by_tg_id := none
    hold_applied := true }

/-- `Database.create_pending_reservation`: quote the plan, check the
names count, insert the reservation row, insert one attendee row per
allocation, then commit the hold tier by tier with the guarded
decrement; a failed guard rolls the whole transaction back (original
state returned, `"Not enough tickets remaining across all tiers"`
re-raised). Returns the new reservation's id. -/
def create_pending_reservation (st : St) (user_id : Nat) (boys girls : Nat)
    (attendees : List String) : St × Except DbErr Nat :=
  match allocate_tier_plan st.ev boys girls with
  | Except.error err => (st, Except.error err)
  | Except.ok plan =>
    if attendees.length ≠ plan.quantity then
      (st, Except.error DbErr.attendeeCountMismatch)
    else
      let res : Reservation := pending_res_row st user_id boys girls plan
      let newAtts := mk_attendees st.next_rid st.next_aid
        (attendees.zip plan.attendee_allocations)
      match apply_hold_counts st.ev (hold_counts_list plan.attendee_allocations) with
      | none => (st, Except.error DbErr.insufficientInventory)
      | some ev2 =>
        ({ ev := ev2
           ress := st.ress ++ [res]
           atts := st.atts ++ newAtts
           next_rid := st.next_rid + 1
           next_aid := st.next_aid + newAtts.length }, Except.ok st.next_rid)

/-- `Database.approve_reservation` (with the review timestamp passed in
as `now`): a non-pending status is reported idempotently with the
current row returned unchanged; a pending row moves to approved with
reviewer and timestamp recorded and no inventory touched. -/
def approve_reservation (st : St) (rid : Nat) (admin_tg_id : Nat) (now : Nat) :
    St × Bool × String × Option Reservation :=
  match findRes st rid with
  | none => (st, false, "Reservation not found.", none)
  | some r =>
    if r.status ≠ STATUS_PENDING then
      (st, false, "Reservation is already " ++ r.status ++ ".", some r)
    else
      let r2 := { r with status := STATUS_APPROVED, reviewed_at := some now,
                         reviewed_by_tg_id := some admin_tg_id }
      (updateRes st rid (fun _ => r2), true, "Reservation approved.", some r2)

/-- `Database.reject_reservation`: pending only; releases the hold, then
records status, note, reviewer, timestamp and `hold_applied = 0`. -/
def reject_reservation (st : St) (rid : Nat) (admin_tg_id : Nat)
    (admin_note : String) (now : Nat) : St × Bool × String × Option Reservation :=
  match findRes st rid with
  | none => (st, false, "Reservation not found.", none)
  | some r =>
    if r.status ≠ STATUS_PENDING then
      (st, false, "Reservation is already " ++ r.status ++ ".", some r)
    else
      let st1 := release_hold st r
      let r2 := { r with status := STATUS_REJECTED, admin_note := admin_note,
                         reviewed_at := some now,
                         reviewed_by_tg_id := some admin_tg_id,
                         hold_applied := false }
      (updateRes st1 rid (fun _ => r2), true, "Reservation rejected.", some r2)

/-- `Database.cancel_reservation_for_user` (the reservation resolved by
id instead of its display code): callable by the owning user while the
status is not already cancelled/rejected; releases the hold and moves to
cancelled with `hold_applied = 0`. -/
def cancel_reservation_for_user (st : St) (user_id : Nat) (rid : Nat) :
    St × Bool × String × Option Reservation :=
  match st.ress.find? (fun r => r.rid = rid && r.user_id = user_id) with
  | none => (st, false, "Reservation not found for your account.", none)
  | some r =>
    if r.status = STATUS_CANCELLED || r.status = STATUS_REJECTED then
      (st, false, "Reservation is already inactive.", some r)
    else
      let st1 := release_hold st r
      let r2 := { r with status := STATUS_CANCELLED, hold_applied := false }
      (updateRes st1 rid (fun _ => r2), true,
       "Reservation cancelled. Please text admin for payment resolution.",
       some r2)

/-- `Database._reservation_unit_price`: tier key = the attendee's own
tier when valid, else the reservation's `ticket_type`; boy/girl prices
looked up for a valid key, `(0, 0)` otherwise; a boy or girl gender
picks the tier price, any other gender falls back to the reservation's
average price `total_price / quantity` (0 when the quantity is 0). -/
def reservation_unit_price (r : Reservation) (e : Event) (gender : Gender)
    (attendee_tier : Option Tier) : ℚ :=
  let tier_key : Option Tier :=
    match attendee_tier with
    | some t => some t
    | none => r.ticket_type
  let prices : ℚ × ℚ :=
    match tier_key with
    | some t => (e.boyPrice t, e.girlPrice t)
    | none => (0, 0)
  if gender = Gender.boy then prices.1
  else if gender = Gender.girl then prices.2
  else if 0 < r.quantity then r.total_price / (r.quantity : ℚ) else 0

/-- `Database.admin_add_guest` (the reservation resolved by id instead
of its display code, the gender already normalized: `Gender.unknown`
stands for every string `_normalize_gender` rejects): single-seat
allocation against current inventory, guarded single decrement of the
chosen tier when the hold is applied, aggregate increments, one new
attendee row tagged with the chosen tier. -/
def admin_add_guest (st : St) (rid : Nat) (full_name : String) (gender : Gender) :
    St × Bool × String × Option Reservation :=
  if gender = Gender.unknown then
    (st, false, "Gender must be boy or girl.", none)
  else
    match findRes st rid with
    | none => (st, false, "Reservation code not found.", none)
    | some r =>
      if is_admin_mutable_reservation_status r.status = false then
        (st, false, "Guest can be added only to pending/approved reservations.", none)
      else
        match allocate_tier_plan st.ev (if gender = Gender.boy then 1 else 0)
            (if gender = Gender.girl then 1 else 0) with
        | Except.error _ =>
          (st, false, "No tickets left across all tiers for adding guest.", none)
        | Except.ok add_plan =>
          let al := add_plan.attendee_allocations.headD
            { tier := Tier.early, gender := gender, unit_price := 0 }
          let attendee_tier := al.tier
          let add_price := al.unit_price
          let dec : Option Event :=
            if r.hold_applied then
              if 0 < st.ev.tierQty attendee_tier then
                some (st.ev.setTierQty attendee_tier (st.ev.tierQty attendee_tier - 1))
              else none
            else some st.ev
          match dec with
          | none =>
            (st, false, "No tickets left across all tiers for adding guest.", none)
          | some ev2 =>
            let r2 := { r with quantity := r.quantity + 1,
                               boys := r.boys + (if gender = Gender.boy then 1 else 0),
                               girls := r.girls + (if gender = Gender.girl then 1 else 0),
                               total_price := r.total_price + add_price }
            let newAtt : Attendee :=
              { aid := st.next_aid, reservation_id := rid, full_name := full_name,
                gender := gender, ticket_tier := some attendee_tier }
            ({ ev := ev2
               ress := st.ress.map (fun x => if x.rid = rid then r2 else x)
               atts := st.atts ++ [newAtt]
               next_rid := st.next_rid
               next_aid := st.next_aid + 1 },
             true, "Guest added successfully.", some r2)

/-- `Database.admin_remove_guest`: resolve the attendee and its owning
reservation, require a mutable status, compute the removed unit price
from the attendee's own tier and gender, delete the row, credit one unit
back to that tier when the hold is applied (falling back to the
reservation's `ticket_type`; the source would raise on a reservation
whose `ticket_type` is not a tier key, modelled as the failure return),
then either cascade to cancelled at quantity zero or update the
aggregates. -/
def admin_remove_guest (st : St) (aid : Nat) :
    St × Bool × String × Option Reservation :=
  match st.atts.find? (fun a => a.aid = aid) with
  | none => (st, false, "Attendee not found.", none)
  | some a =>
    match st.ress.find? (fun r => r.rid = a.reservation_id) with
    | none => (st, false, "Attendee not found.", none)
    | some r =>
      if is_admin_mutable_reservation_status r.status = false then
        (st, false, "Guest can be removed only from pending/approved reservations.", none)
      else
        let gender := if a.gender = Gender.boy || a.gender = Gender.girl
          then a.gender else Gender.unknown
        let unit_price := reservation_unit_price r st.ev gender a.ticket_tier
        let new_quantity := r.quantity - 1
        let new_boys : Int :=
          if gender = Gender.boy then max 0 (r.boys - 1)
          else if gender = Gender.girl then r.boys
          else if 0 < r.boys then r.boys - 1
          else r.boys
        let new_girls : Int :=
          if gender = Gender.boy then r.girls
          else if gender = Gender.girl then max 0 (r.girls - 1)
          else if 0 < r.boys then r.girls
          else max 0 (r.girls - 1)
        let new_total : ℚ := max 0 (r.total_price - unit_price)
        let release_tier : Option Tier :=
          match a.ticket_tier with
          | some t => some t
          | none => r.ticket_type
        let evStep : Option Event :=
          if r.hold_applied then
            match release_tier with
            | some t => some (st.ev.setTierQty t (st.ev.tierQty t + 1))
            | none => none
          else some st.ev
        match evStep with
        | none => (st, false, "Unknown ticket type", none)
        | some ev2 =>
          let st1 : St :=
            { st with
              ev := ev2
              atts := st.atts.filter (fun x => x.aid ≠ aid) }
          if new_quantity ≤ 0 then
            let r2 := { r with quantity := 0, boys := 0, girls := 0,
                               total_price := 0, status := STATUS_CANCELLED,
                               hold_applied := false }
            ({ st1 with ress := st1.ress.map (fun x => if x.rid = r.rid then r2 else x) },
             true, "Guest removed and reservation cancelled.", some r2)
          else
            let r2 := { r with quantity := new_quantity, boys := new_boys,
                               girls := new_girls, total_price := new_total }
            ({ st1 with ress := st1.ress.map (fun x => if x.rid = r.rid then r2 else x) },
             true, "Guest removed successfully.", some r2)

/-- The empty store holding one freshly created event. -/
def initial_st (e : Event) : St :=
  { ev := e, ress := [], atts := [], next_rid := 0, next_aid := 0 }

/-- Store states reachable from a freshly created event through the
reservation-lifecycle and guest-mutation operations (an operation whose
guard fails returns the input state, so failed attempts are covered). -/
inductive Reach (init : Event) : St → Prop where
  | base : Reach init (initial_st init)
  | create (st : St) (u b g : Nat) (names : List String) :
      Reach init st → Reach init (create_pending_reservation st u b g names).1
  | approve (st : St) (rid admin now : Nat) :
      Reach init st → Reach init (approve_reservation st rid admin now).1
  | reject (st : St) (rid admin : Nat) (note : String) (now : Nat) :
      Reach init st → Reach init (reject_reservation st rid admin note now).1
  | cancel (st : St) (u rid : Nat) :
      Reach init st → Reach init (cancel_reservation_for_user st u rid).1
  | addGuest (st : St) (rid : Nat) (nm : String) (g : Gender) :
      Reach init st → Reach init (admin_add_guest st rid nm g).1
  | removeGuest (st : St) (aid : Nat) :
      Reach init st → Reach init (admin_remove_guest st aid).1

/-- A concrete sample event used by witnesses: Early 3 at 2500/2500,
Tier-1 5 at 3500/3500, Tier-2 sold out. -/
def sample_event : Event := ⟨2500, 2500, 3, 3500, 3500, 5, 0, 0, 0⟩

/-- A concrete pending reservation row used by witnesses. -/
def sample_res_pending : Reservation :=
  { rid := 0, user_id := 5, ticket_type := some Tier.early, quantity := 1,
    total_price := 2500, boys := 1, girls := 0, status := STATUS_PENDING,
    admin_note := "", reviewed_at := none, reviewed_by_tg_id := none,
    hold_applied := true }

/-- A concrete store used by witnesses: one pending one-boy reservation
holding one Early unit of `sample_event`. -/
def sample_st_pending : St :=
  { ev := { sample_event with early_bird_qty := 2 }
    ress := [sample_res_pending]
    atts := [{ aid := 0, reservation_id := 0, full_name := "Ann Lee",
               gender := Gender.boy, ticket_tier := some Tier.early }]
    next_rid := 1
    next_aid := 1 }

/-- Attendees of one reservation recorded with gender boy. -/
def boys_of (st : St) (rid : Nat) : Nat :=
  ((atts_of st rid).filter (fun a => a.gender = Gender.boy)).length

/-- Attendees of one reservation recorded with gender girl. -/
def girls_of (st : St) (rid : Nat) : Nat :=
  ((atts_of st rid).filter (fun a => a.gender = Gender.girl)).length

/-- Whether the reservation owning this attendee currently has its hold
applied (false for an orphan row). -/
def ownerHoldApplied (st : St) (a : Attendee) : Bool :=
  match st.ress.find? (fun r => r.rid = a.reservation_id) with
  | some r => r.hold_applied
  | none => false

/-- Number of inventory units of tier `t` currently subtracted from the
event's counter on behalf of hold-applied reservations: one per
attendee recorded in `t` whose owning reservation holds inventory. -/
def held_sum (st : St) (t : Tier) : Nat :=
  (st.atts.filter (fun a => ownerHoldApplied st a && a.ticket_tier = some t)).length

/-- The inductive store invariant maintained by the lifecycle and
guest-mutation operations. -/
structure StoreInv (init : Event) (st : St) : Prop where
  res_status : ∀ r ∈ st.ress, r.status = STATUS_PENDING ∨
    r.status = STATUS_APPROVED ∨ r.status = STATUS_REJECTED ∨
    r.status = STATUS_CANCELLED
  res_boys : ∀ r ∈ st.ress, r.boys = (boys_of st r.rid : Int)
  res_girls : ∀ r ∈ st.ress, r.girls = (girls_of st r.rid : Int)
  res_quantity : ∀ r ∈ st.ress, r.quantity = ((atts_of st r.rid).length : Int)
  cz_total : ∀ r ∈ st.ress, r.status = STATUS_CANCELLED → r.quantity = 0 →
    r.total_price = 0
  hold_mut : ∀ r ∈ st.ress, (r.hold_applied = true ↔
    (r.status = STATUS_PENDING ∨ r.status = STATUS_APPROVED))
  res_pos : ∀ r ∈ st.ress,
    (r.status = STATUS_PENDING ∨ r.status = STATUS_APPROVED) → 1 ≤ r.quantity
  res_rid_lt : ∀ r ∈ st.ress, r.rid < st.next_rid
  res_nodup : (st.ress.map (fun r => r.rid)).Nodup
  att_gender : ∀ a ∈ st.atts, a.gender ≠ Gender.unknown
  att_tier : ∀ a ∈ st.atts, (a.ticket_tier).isSome
  att_owner : ∀ a ∈ st.atts, ∃ r ∈ st.ress, r.rid = a.reservation_id
  att_aid_lt : ∀ a ∈ st.atts, a.aid < st.next_aid
  att_nodup : (st.atts.map (fun a => a.aid)).Nodup
  ev_acct : ∀ t, st.ev.tierQty t = init.tierQty t - (held_sum st t : Int)

/-! ### Schema migration model (`_init_schema` / `_migrate_schema`)

The migration pass is modelled on the three tables it mutates (the
`users` table is never touched by `_migrate_schema`).  A table is a
presence flag (`CREATE TABLE IF NOT EXISTS`), one Boolean per column
that the migration may `ALTER TABLE ... ADD COLUMN` (`PRAGMA
table_info` snapshot), and its rows.  Adding a column writes the
declared default into every existing row.  Row ids are `INTEGER
PRIMARY KEY`, so `ORDER BY id` enumeration is modelled by counting
siblings with a smaller id, and each reservation id owns its attendee
rows at most once. -/

/-- An `events` row (the columns `_migrate_schema` reads or writes,
plus a representative untouched payload column; `regular_price` is the
legacy column whose value is only meaningful when the corresponding
schema flag is set). -/
structure EventRow where
  title : String
  early_bird_price : ℚ
  early_bird_qty : Int
  regular_price : ℚ
  regular_tier1_price : ℚ
  regular_tier1_qty : Int
  regular_tier2_price : ℚ
  regular_tier2_qty : Int
  early_bird_price_girl : ℚ
  regular_tier1_price_girl : ℚ
  regular_tier2_price_girl : ℚ
  caption : String
  photo_file_id : String
deriving DecidableEq, Repr

/-- The `events` table with its column-presence flags. -/
structure EventsTbl where
  present : Bool
  has_caption : Bool
  has_photo_file_id : Bool
  has_regular_price : Bool
  has_regular_tier1_price : Bool
  has_regular_tier1_qty : Bool
  has_regular_tier2_price : Bool
  has_regular_tier2_qty : Bool
  has_early_bird_price_girl : Bool
  has_regular_tier1_price_girl : Bool
  has_regular_tier2_price_girl : Bool
  rows : List EventRow
deriving DecidableEq, Repr

/-- A `reservations` row (migration-relevant columns). -/
structure ResRow where
  id : Nat
  ticket_type : String
  boys : Int
  girls : Int
  status : String
  payment_file_id : String
  payment_file_type : String
  admin_note : String
  reviewed_at : Option String
  reviewed_by_tg_id : Option Int
  hold_applied : Int
deriving DecidableEq, Repr

/-- The `reservations` table with its column-presence flags. -/
structure ResTbl where
  present : Bool
  has_payment_file_id : Bool
  has_payment_file_type : Bool
  has_admin_note : Bool
  has_reviewed_at : Bool
  has_reviewed_by_tg_id : Bool
  has_hold_applied : Bool
  rows : List ResRow
deriving DecidableEq, Repr

/-- An `attendees` row (migration-relevant columns). -/
structure AttRow where
  id : Nat
  reservation_id : Nat
  name : String
  surname : String
  full_name : String
  gender : String
  ticket_tier : String
deriving DecidableEq, Repr

/-- The `attendees` table with its column-presence flags. -/
structure AttTbl where
  present : Bool
  has_full_name : Bool
  has_gender : Bool
  has_ticket_tier : Bool
  rows : List AttRow
deriving DecidableEq, Repr

/-- The store state seen by the migration pass. -/
structure DbState where
  events : EventsTbl
  reservations : ResTbl
  attendees : AttTbl
deriving DecidableEq, Repr

/-- `Database._init_schema`: `CREATE TABLE IF NOT EXISTS` for each
table - an existing table is left untouched, a missing one is created
empty with the modern column set.  The modern `attendees` CREATE
statement declares `full_name` and `ticket_tier` but NO `gender`
column, so a fresh store leaves `has_gender` false until
`_migrate_schema` adds it. -/
def init_schema (s : DbState) : DbState :=
  { events :=
      if s.events.present then s.events
      else { present := true, has_caption := true, has_photo_file_id := true,
             has_regular_price := false, has_regular_tier1_price := true,
             has_regular_tier1_qty := true, has_regular_tier2_price := true,
             has_regular_tier2_qty := true, has_early_bird_price_girl := true,
             has_regular_tier1_price_girl := true,
             has_regular_tier2_price_girl := true, rows := [] }
    reservations :=
      if s.reservations.present then s.reservations
      else { present := true, has_payment_file_id := true,
             has_payment_file_type := true, has_admin_note := true,
             has_reviewed_at := true, has_reviewed_by_tg_id := true,
             has_hold_applied := true, rows := [] }
    attendees :=
      if s.attendees.present then s.attendees
      else { present := true, has_full_name := true, has_gender := false,
             has_ticket_tier := true, rows := [] } }

/-- `ALTER TABLE events ADD COLUMN caption TEXT NOT NULL DEFAULT \'\'`,
guarded by the `PRAGMA table_info` snapshot. -/
def ev_add_caption (e : EventsTbl) : EventsTbl :=
  if e.has_caption then e
  else { e with has_caption := true, rows := e.rows.map (fun r => { r with caption := "" }) }

/-- Guarded `ADD COLUMN photo_file_id`. -/
def ev_add_photo (e : EventsTbl) : EventsTbl :=
  if e.has_photo_file_id then e
  else { e with has_photo_file_id := true, rows := e.rows.map (fun r => { r with photo_file_id := "" }) }

/-- Guarded `ADD COLUMN regular_tier1_price` with the legacy
`regular_price` copy that runs when that column exists. -/
def ev_add_t1p (e : EventsTbl) : EventsTbl :=
  if e.has_regular_tier1_price then e
  else
    let ea : EventsTbl := { e with has_regular_tier1_price := true, rows := e.rows.map (fun r => { r with regular_tier1_price := 0 }) }
    if ea.has_regular_price then
      { ea with rows := ea.rows.map (fun r => { r with regular_tier1_price := r.regular_price }) }
    else ea

/-- Guarded `ADD COLUMN regular_tier1_qty`. -/
def ev_add_t1q (e : EventsTbl) : EventsTbl :=
  if e.has_regular_tier1_qty then e
  else { e with has_regular_tier1_qty := true, rows := e.rows.map (fun r => { r with regular_tier1_qty := 0 }) }

/-- Guarded `ADD COLUMN regular_tier2_price`. -/
def ev_add_t2p (e : EventsTbl) : EventsTbl :=
  if e.has_regular_tier2_price then e
  else { e with has_regular_tier2_price := true, rows := e.rows.map (fun r => { r with regular_tier2_price := 0 }) }

/-- Guarded `ADD COLUMN regular_tier2_qty`. -/
def ev_add_t2q (e : EventsTbl) : EventsTbl :=
  if e.has_regular_tier2_qty then e
  else { e with has_regular_tier2_qty := true, rows := e.rows.map (fun r => { r with regular_tier2_qty := 0 }) }

/-- Guarded `ADD COLUMN early_bird_price_girl` with its unconditional
boy-price seeding (the seeding runs exactly when the column was just
added, so the add-plus-update pair acts once per row). -/
def ev_add_ebg (e : EventsTbl) : EventsTbl :=
  if e.has_early_bird_price_girl then e
  else { e with has_early_bird_price_girl := true, rows := e.rows.map (fun r => { r with early_bird_price_girl := r.early_bird_price }) }

/-- Guarded `ADD COLUMN regular_tier1_price_girl` with its seeding. -/
def ev_add_t1g (e : EventsTbl) : EventsTbl :=
  if e.has_regular_tier1_price_girl then e
  else { e with has_regular_tier1_price_girl := true, rows := e.rows.map (fun r => { r with regular_tier1_price_girl := r.regular_tier1_price }) }

/-- Guarded `ADD COLUMN regular_tier2_price_girl` with its seeding. -/
def ev_add_t2g (e : EventsTbl) : EventsTbl :=
  if e.has_regular_tier2_price_girl then e
  else { e with has_regular_tier2_price_girl := true, rows := e.rows.map (fun r => { r with regular_tier2_price_girl := r.regular_tier2_price }) }

/-- The events section of `_migrate_schema`, in source order. -/
def migrate_events (e : EventsTbl) : EventsTbl :=
  ev_add_t2g (ev_add_t1g (ev_add_ebg (ev_add_t2q (ev_add_t2p (ev_add_t1q
    (ev_add_t1p (ev_add_photo (ev_add_caption e))))))))

/-- Guarded `ADD COLUMN payment_file_id`. -/
def rs_add_pfi (t : ResTbl) : ResTbl :=
  if t.has_payment_file_id then t
  else { t with has_payment_file_id := true, rows := t.rows.map (fun r => { r with payment_file_id := "" }) }

/-- Guarded `ADD COLUMN payment_file_type`. -/
def rs_add_pft (t : ResTbl) : ResTbl :=
  if t.has_payment_file_type then t
  else { t with has_payment_file_type := true, rows := t.rows.map (fun r => { r with payment_file_type := "" }) }

/-- Guarded `ADD COLUMN admin_note`. -/
def rs_add_note (t : ResTbl) : ResTbl :=
  if t.has_admin_note then t
  else { t with has_admin_note := true, rows := t.rows.map (fun r => { r with admin_note := "" }) }

/-- Guarded `ADD COLUMN reviewed_at` (nullable, default NULL). -/
def rs_add_rat (t : ResTbl) : ResTbl :=
  if t.has_reviewed_at then t
  else { t with has_reviewed_at := true, rows := t.rows.map (fun r => { r with reviewed_at := none }) }

/-- Guarded `ADD COLUMN reviewed_by_tg_id` (nullable, default NULL). -/
def rs_add_rby (t : ResTbl) : ResTbl :=
  if t.has_reviewed_by_tg_id then t
  else { t with has_reviewed_by_tg_id := true, rows := t.rows.map (fun r => { r with reviewed_by_tg_id := none }) }

/-- Guarded `ADD COLUMN hold_applied INTEGER NOT NULL DEFAULT 1`. -/
def rs_add_hold (t : ResTbl) : ResTbl :=
  if t.has_hold_applied then t
  else { t with has_hold_applied := true, rows := t.rows.map (fun r => { r with hold_applied := 1 }) }

/-- The unconditional legacy status rewrite
`UPDATE reservations SET status = \'approved\' WHERE status = \'reserved\'`. -/
def rs_status_row (r : ResRow) : ResRow :=
  if r.status = "reserved" then { r with status := "approved" } else r

/-- The reservations section of `_migrate_schema`, in source order. -/
def migrate_reservations (t : ResTbl) : ResTbl :=
  let t6 : ResTbl := rs_add_hold (rs_add_rby (rs_add_rat (rs_add_note
    (rs_add_pft (rs_add_pfi t)))))
  { t6 with rows := t6.rows.map rs_status_row }

/-- Position of an attendee row in the `ORDER BY id` enumeration of
its reservation\'s attendees: the number of sibling rows with a
smaller id (ids are the `INTEGER PRIMARY KEY`, hence distinct). -/
def att_idx (atts : List AttRow) (a : AttRow) : Nat :=
  (atts.filter (fun x => x.reservation_id = a.reservation_id && x.id < a.id)).length

/-- The gender written by `_backfill_attendee_genders` for the
attendee at position `idx`: the first `boys` rows are boys, the next
`girls` rows are girls, the rest are unknown. -/
def gender_for (boys girls : Int) (idx : Nat) : String :=
  if (idx : Int) < boys then "boy"
  else if (idx : Int) < boys + girls then "girl"
  else "unknown"

/-- One attendee row through `_backfill_attendee_genders`: the update
is guarded by `WHERE id = ? AND (gender IS NULL OR gender = \'\' OR
gender = \'unknown\')`, and rows whose reservation is absent from the
reservations table are never selected by the outer loop. -/
def backfill_gender_row (ress : List ResRow) (atts : List AttRow)
    (a : AttRow) : AttRow :=
  match ress.find? (fun r => r.id = a.reservation_id) with
  | none => a
  | some r =>
    if a.gender = "" ∨ a.gender = "unknown" then
      { a with gender := gender_for r.boys r.girls (att_idx atts a) }
    else a

/-- `Database._backfill_attendee_genders`: per reservation (ordered by
id) its attendees (ordered by id) receive index-derived genders under
the guard above.  The per-id updates touch neither the ids nor the
aggregates the indices are computed from, and each attendee row is
visited at most once (reservation ids are unique), so the nested loop
is one pass over the attendee rows. -/
def backfill_attendee_genders (ress : List ResRow) (atts : List AttRow) :
    List AttRow :=
  atts.map (backfill_gender_row ress atts)

/-- Guarded `ADD COLUMN full_name TEXT NOT NULL DEFAULT \'\'`. -/
def at_add_full (t : AttTbl) : AttTbl :=
  if t.has_full_name then t
  else { t with has_full_name := true, rows := t.rows.map (fun a => { a with full_name := "" }) }

/-- Guarded `ADD COLUMN gender TEXT NOT NULL DEFAULT \'unknown\'`
(the modern CREATE TABLE for attendees does NOT declare this column,
so it is added here even for a fresh store). -/
def at_add_gender (t : AttTbl) : AttTbl :=
  if t.has_gender then t
  else { t with has_gender := true, rows := t.rows.map (fun a => { a with gender := "unknown" }) }

/-- Guarded `ADD COLUMN ticket_tier TEXT NOT NULL DEFAULT \'\'`. -/
def at_add_tier (t : AttTbl) : AttTbl :=
  if t.has_ticket_tier then t
  else { t with has_ticket_tier := true, rows := t.rows.map (fun a => { a with ticket_tier := "" }) }

/-- The `full_name` seeding
`TRIM(name || \' \' || COALESCE(surname, \'\')) WHERE full_name = \'\'`
(`surname` is NOT NULL, so the COALESCE is a no-op). -/
def full_name_row (a : AttRow) : AttRow :=
  if a.full_name = "" then
    { a with full_name := String.mk (strip_chars (a.name ++ " " ++ a.surname).data) }
  else a

/-- The `ticket_tier` seeding from the owning reservation\'s
`ticket_type`, `WHERE ticket_tier = \'\'`; an attendee whose
reservation row is missing is modelled with the empty-string tier the
`COALESCE` produces for a NULL scalar subquery. -/
def ticket_tier_row (ress : List ResRow) (a : AttRow) : AttRow :=
  if a.ticket_tier = "" then
    { a with ticket_tier :=
        match ress.find? (fun r => r.id = a.reservation_id) with
        | some r => r.ticket_type
        | none => "" }
  else a

/-- The three row backfills of the attendees section, in source order:
full-name seeding, gender backfill, ticket-tier seeding. -/
def att_backfills (ress : List ResRow) (l : List AttRow) : List AttRow :=
  (backfill_attendee_genders ress (l.map full_name_row)).map
    (ticket_tier_row ress)

/-- The attendees section of `_migrate_schema`, in source order. -/
def migrate_attendees (ress : List ResRow) (t : AttTbl) : AttTbl :=
  let t3 : AttTbl := at_add_tier (at_add_gender (at_add_full t))
  { t3 with rows := att_backfills ress t3.rows }

/-- `Database._migrate_schema`: events section, reservations section
(whose status rewrite runs before the attendee backfills read the
reservation rows), attendees section. -/
def migrate_schema (s : DbState) : DbState :=
  let ev : EventsTbl := migrate_events s.events
  let rs : ResTbl := migrate_reservations s.reservations
  let at2 : AttTbl := migrate_attendees rs.rows s.attendees
  { events := ev, reservations := rs, attendees := at2 }

/-- The schema pass performed by `Database.__init__` on store open:
`_init_schema` followed by `_migrate_schema`. -/
def open_store (s : DbState) : DbState :=
  migrate_schema (init_schema s)

theorem tierQty_setTierQty (e : Event) (t : Tier) (v : Int) (u : Tier) :
    (e.setTierQty t v).tierQty u = if u = t then v else e.tierQty u := by
  cases t <;> cases u <;> simp [Event.setTierQty, Event.tierQty]

theorem first_available_isSome (rem : Tier → Int)
    (h : 0 < rem Tier.early + rem Tier.tier1 + rem Tier.tier2) :
    (first_available rem).isSome := by
  by_cases h1 : 0 < rem Tier.early
  · simp [first_available, tier_order, List.find?, h1]
  · by_cases h2 : 0 < rem Tier.tier1
    · simp [first_available, tier_order, List.find?, h1, h2]
    · by_cases h3 : 0 < rem Tier.tier2
      · simp [first_available, tier_order, List.find?, h1, h2, h3]
      · omega

theorem first_available_pos {rem : Tier → Int} {t : Tier}
    (h : first_available rem = some t) : 0 < rem t := by
  by_cases h1 : 0 < rem Tier.early <;> by_cases h2 : 0 < rem Tier.tier1 <;>
    by_cases h3 : 0 < rem Tier.tier2 <;>
    simp [first_available, tier_order, List.find?, h1, h2, h3] at h <;>
    (try subst h) <;> assumption

theorem tier_count_nil (t : Tier) : tier_count [] t = 0 := rfl

theorem tier_count_cons (a : Alloc) (l : List Alloc) (t : Tier) :
    tier_count (a :: l) t = (if a.tier = t then 1 else 0) + tier_count l t := by
  by_cases h : a.tier = t <;> simp [tier_count, List.filter, h] <;> omega

theorem tier_count_sum (l : List Alloc) :
    tier_count l Tier.early + tier_count l Tier.tier1 + tier_count l Tier.tier2
      = l.length := by
  induction l with
  | nil => rfl
  | cons a l ih =>
    rw [tier_count_cons, tier_count_cons, tier_count_cons]
    cases h : a.tier <;> simp [h] at * <;> omega

theorem alloc_go_nil (e : Event) (rem : Tier → Int) (as' : List Alloc)
    (h : alloc_go e [] rem = some as') : as' = [] := by
  simpa [alloc_go] using h.symm

theorem alloc_go_cons (e : Event) (g : Gender) (gs : List Gender)
    (rem : Tier → Int) (as' : List Alloc)
    (h : alloc_go e (g :: gs) rem = some as') :
    ∃ t rest, first_available rem = some t ∧
      alloc_go e gs (decr rem t) = some rest ∧
      as' = { tier := t, gender := g, unit_price := unit_price_for e t g } :: rest := by
  simp only [alloc_go] at h
  rcases hfa : first_available rem with _ | t
  · rw [hfa] at h; simp at h
  · rw [hfa] at h
    simp only [Option.some_bind] at h
    rcases hgo : alloc_go e gs (decr rem t) with _ | rest
    · rw [hgo] at h; simp at h
    · rw [hgo] at h
      simp only [Option.map_some'] at h
      injection h with h
      exact ⟨t, rest, hfa ▸ rfl, hgo, h.symm⟩


theorem alloc_go_length (e : Event) (gs : List Gender) :
    ∀ (rem : Tier → Int) (as' : List Alloc),
      alloc_go e gs rem = some as' → as'.length = gs.length := by
  induction gs with
  | nil =>
    intro rem as' h
    rw [alloc_go_nil e rem as' h]
    rfl
  | cons g gs ih =>
    intro rem as' h
    obtain ⟨t, rest, hfa, hgo, rfl⟩ := alloc_go_cons e g gs rem as' h
    simp [ih _ _ hgo]

theorem alloc_go_genders (e : Event) (gs : List Gender) :
    ∀ (rem : Tier → Int) (as' : List Alloc),
      alloc_go e gs rem = some as' → as'.map (fun a => a.gender) = gs := by
  induction gs with
  | nil =>
    intro rem as' h
    rw [alloc_go_nil e rem as' h]
    rfl
  | cons g gs ih =>
    intro rem as' h
    obtain ⟨t, rest, hfa, hgo, rfl⟩ := alloc_go_cons e g gs rem as' h
    simp [ih _ _ hgo]

theorem alloc_go_prices (e : Event) (gs : List Gender) :
    ∀ (rem : Tier → Int) (as' : List Alloc),
      alloc_go e gs rem = some as' →
      ∀ a ∈ as', a.unit_price = unit_price_for e a.tier a.gender := by
  induction gs with
  | nil =>
    intro rem as' h
    rw [alloc_go_nil e rem as' h]
    simp
  | cons g gs ih =>
    intro rem as' h
    obtain ⟨t, rest, hfa, hgo, rfl⟩ := alloc_go_cons e g gs rem as' h
    intro a ha
    rcases List.mem_cons.mp ha with h1 | h2
    · subst h1; rfl
    · exact ih _ _ hgo a h2

theorem decr_total (rem : Tier → Int) (t : Tier) :
    decr rem t Tier.early + decr rem t Tier.tier1 + decr rem t Tier.tier2
      = rem Tier.early + rem Tier.tier1 + rem Tier.tier2 - 1 := by
  cases t <;> simp [decr] <;> omega

theorem alloc_go_isSome (e : Event) (gs : List Gender) :
    ∀ (rem : Tier → Int),
      (gs.length : Int) ≤ rem Tier.early + rem Tier.tier1 + rem Tier.tier2 →
      (alloc_go e gs rem).isSome := by
  induction gs with
  | nil => intro rem _; simp [alloc_go]
  | cons g gs ih =>
    intro rem hle
    simp only [List.length_cons] at hle
    have hpos : 0 < rem Tier.early + rem Tier.tier1 + rem Tier.tier2 := by
      have h0 : (0 : Int) ≤ (gs.length : Int) := Int.ofNat_nonneg _
      push_cast at hle
      omega
    have hfa := first_available_isSome rem hpos
    cases hfab : first_available rem with
    | none => rw [hfab] at hfa; simp at hfa
    | some t =>
      have hle2 : (gs.length : Int) ≤
          decr rem t Tier.early + decr rem t Tier.tier1 + decr rem t Tier.tier2 := by
        rw [decr_total]
        push_cast at hle ⊢
        omega
      have hrec := ih (decr rem t) hle2
      cases hgo : alloc_go e gs (decr rem t) with
      | none => rw [hgo] at hrec; simp at hrec
      | some rest => simp [alloc_go, hfab, hgo]

/-- `rem` after the allocations already placed: each tier's local copy is
the starting value minus the number of earlier allocations routed to it. -/
def rem_after (rem : Tier → Int) (allocs : List Alloc) : Tier → Int :=
  fun t => rem t - (tier_count allocs t : Int)

theorem rem_after_nil (rem : Tier → Int) : rem_after rem [] = rem := by
  funext t; simp [rem_after, tier_count_nil]

theorem rem_after_cons (rem : Tier → Int) (a : Alloc) (l : List Alloc) :
    rem_after rem (a :: l) = rem_after (decr rem a.tier) l := by
  funext u
  by_cases h : a.tier = u
  · subst h
    simp only [rem_after, tier_count_cons, decr, if_pos rfl]
    push_cast
    ring
  · have h2 : ¬ u = a.tier := fun hc => h hc.symm
    simp only [rem_after, tier_count_cons, decr, if_neg h, if_neg h2]
    push_cast
    ring

theorem alloc_go_first_available (e : Event) (gs : List Gender) :
    ∀ (rem : Tier → Int) (as' : List Alloc),
      alloc_go e gs rem = some as' →
      ∀ (i : Nat) (h : i < as'.length),
        first_available (rem_after rem (as'.take i)) = some (as'.get ⟨i, h⟩).tier := by
  induction gs with
  | nil =>
    intro rem as' h
    rw [alloc_go_nil e rem as' h]
    intro i hi
    simp at hi
  | cons g gs ih =>
    intro rem as' h
    obtain ⟨t, rest, hfa, hgo, rfl⟩ := alloc_go_cons e g gs rem as' h
    intro i hi
    cases i with
    | zero => simpa [rem_after_nil] using hfa
    | succ j =>
      have hj : j < rest.length := by simpa using hi
      have hih := ih (decr rem t) rest hgo j hj
      simpa [rem_after_cons] using hih

theorem alloc_go_count_le (e : Event) (gs : List Gender) :
    ∀ (rem : Tier → Int) (as' : List Alloc),
      alloc_go e gs rem = some as' →
      ∀ t, tier_count as' t = 0 ∨ (tier_count as' t : Int) ≤ rem t := by
  induction gs with
  | nil =>
    intro rem as' h t
    rw [alloc_go_nil e rem as' h]
    left
    rfl
  | cons g gs ih =>
    intro rem as' h t
    obtain ⟨t0, rest, hfa, hgo, rfl⟩ := alloc_go_cons e g gs rem as' h
    have hpos := first_available_pos hfa
    have hrest := ih (decr rem t0) rest hgo t
    rw [tier_count_cons]
    by_cases ht : t0 = t
    · subst ht
      rw [if_pos rfl]
      right
      have hdec : decr rem t0 t0 = rem t0 - 1 := if_pos rfl
      rcases hrest with h0 | hle
      · rw [h0]; omega
      · rw [hdec] at hle
        push_cast at hle ⊢
        omega
    · rw [if_neg ht, Nat.zero_add]
      have hdec : decr rem t0 t = rem t := if_neg (fun hc : t = t0 => ht hc.symm)
      rcases hrest with h0 | hle
      · left; exact h0
      · right
        rw [hdec] at hle
        exact hle

theorem total_remaining_eq_tiers (e : Event) :
    total_remaining e
      = e.tierQty Tier.early + e.tierQty Tier.tier1 + e.tierQty Tier.tier2 := rfl

theorem hold_counts_sum (as' : List Alloc) :
    ((hold_counts_list as').map (fun p => p.2)).sum = as'.length := by
  have h := tier_count_sum as'
  by_cases h1 : 0 < tier_count as' Tier.early <;>
    by_cases h2 : 0 < tier_count as' Tier.tier1 <;>
    by_cases h3 : 0 < tier_count as' Tier.tier2 <;>
    simp [hold_counts_list, used_tiers, tier_order, h1, h2, h3] <;>
    omega

theorem allocate_tier_plan_ok (e : Event) (boys girls : Nat)
    (hpos : 0 < boys + girls)
    (hle : ((boys + girls : Nat) : Int) ≤ total_remaining e) :
    ∃ as', alloc_go e
        (List.replicate boys Gender.boy ++ List.replicate girls Gender.girl)
        e.tierQty = some as' ∧
      allocate_tier_plan e boys girls = Except.ok
        { quantity := boys + girls
          total_price := sum_prices as'
          primary_tier_key := ((as'.head?).map (fun a => a.tier)).getD Tier.early
          attendee_allocations := as' } := by
  have hlen : (List.replicate boys Gender.boy
      ++ List.replicate girls Gender.girl).length = boys + girls := by simp
  have hsome := alloc_go_isSome e
    (List.replicate boys Gender.boy ++ List.replicate girls Gender.girl) e.tierQty
    (by rw [hlen, ← total_remaining_eq_tiers]; exact hle)
  rcases hgo : alloc_go e
      (List.replicate boys Gender.boy ++ List.replicate girls Gender.girl)
      e.tierQty with _ | as'
  · rw [hgo] at hsome; simp at hsome
  · refine ⟨as', rfl, ?_⟩
    unfold allocate_tier_plan
    rw [if_neg (by omega), if_neg (by omega)]
    dsimp only
    rw [hgo]

/-- C1: for every event and every pair of non-negative counts with
`0 < boys + girls ≤ total_remaining`, `quote` succeeds and allocates
exactly `boys + girls` attendees; the attendee list is all boys first
then all girls; each attendee is assigned to the first tier, in the
fixed Early, Tier-1, Tier-2 order, whose locally-decremented remaining
capacity is positive; the per-tier counts of the returned breakdown sum
to `boys + girls`; and the total price is the sum of the per-attendee
unit prices (the tier's boy or girl price by that attendee's gender). -/
theorem claim_C1_quote_allocates (e : Event) (boys girls : Nat)
    (hpos : 0 < boys + girls)
    (hle : ((boys + girls : Nat) : Int) ≤ total_remaining e) :
    ∃ plan, quote_booking e boys girls = Except.ok plan ∧
      plan.quantity = boys + girls ∧
      plan.attendee_allocations.length = boys + girls ∧
      plan.attendee_allocations.map (fun a => a.gender)
        = List.replicate boys Gender.boy ++ List.replicate girls Gender.girl ∧
      (∀ (i : Nat) (h : i < plan.attendee_allocations.length),
        first_available (rem_after e.tierQty (plan.attendee_allocations.take i))
          = some ((plan.attendee_allocations.get ⟨i, h⟩).tier)) ∧
      ((hold_counts_list plan.attendee_allocations).map (fun p => p.2)).sum
        = boys + girls ∧
      plan.total_price = (plan.attendee_allocations.map
        (fun a => unit_price_for e a.tier a.gender)).sum := by
  obtain ⟨as', hgo, hplan⟩ := allocate_tier_plan_ok e boys girls hpos hle
  have hlen : as'.length = boys + girls := by
    rw [alloc_go_length e _ _ _ hgo]; simp
  refine ⟨_, hplan, rfl, hlen, ?_, ?_, ?_, ?_⟩
  · exact alloc_go_genders e _ _ _ hgo
  · exact alloc_go_first_available e _ _ _ hgo
  · rw [hold_counts_sum as', hlen]
  · show sum_prices as' = _
    unfold sum_prices
    exact congrArg List.sum
      (List.map_congr_left (alloc_go_prices e _ _ _ hgo))

theorem claim_C1_quote_allocates_witness :
    (0 < 3 + 2) ∧
    (((3 + 2 : Nat) : Int)
      ≤ total_remaining ⟨2500, 2500, 3, 3500, 3500, 5, 0, 0, 0⟩) ∧
    ∃ plan, quote_booking ⟨2500, 2500, 3, 3500, 3500, 5, 0, 0, 0⟩ 3 2
        = Except.ok plan ∧ plan.quantity = 3 + 2 :=
  ⟨by decide, by decide, by
    obtain ⟨plan, h1, h2, _⟩ :=
      claim_C1_quote_allocates ⟨2500, 2500, 3, 3500, 3500, 5, 0, 0, 0⟩ 3 2
        (by decide) (by decide)
    exact ⟨plan, h1, h2⟩⟩

/-- Total units recorded for tier `t` in a tier-count association list. -/
def count_in (l : List (Tier × Nat)) (t : Tier) : Nat :=
  ((l.filter (fun p => p.1 = t)).map (fun p => p.2)).sum

theorem count_in_hold_counts (as' : List Alloc) (t : Tier) :
    count_in (hold_counts_list as') t = tier_count as' t := by
  by_cases h1 : 0 < tier_count as' Tier.early <;>
    by_cases h2 : 0 < tier_count as' Tier.tier1 <;>
    by_cases h3 : 0 < tier_count as' Tier.tier2 <;>
    cases t <;>
    simp [hold_counts_list, used_tiers, tier_order, count_in, h1, h2, h3] <;>
    omega

theorem apply_hold_counts_tierQty (l : List (Tier × Nat)) :
    ∀ (e e2 : Event), apply_hold_counts e l = some e2 →
      ∀ t, e2.tierQty t = e.tierQty t - (count_in l t : Int) := by
  induction l with
  | nil =>
    intro e e2 h t
    simp [apply_hold_counts] at h
    subst h
    simp [count_in]
  | cons p l ih =>
    obtain ⟨t0, n0⟩ := p
    intro e e2 h t
    simp only [apply_hold_counts] at h
    by_cases hg : (n0 : Int) ≤ e.tierQty t0
    · rw [if_pos hg] at h
      have hrec := ih _ _ h t
      rw [hrec, tierQty_setTierQty]
      by_cases ht : t = t0
      · subst ht
        rw [if_pos rfl]
        have : count_in ((t, n0) :: l) t = n0 + count_in l t := by
          simp [count_in, List.filter]
        rw [this]
        push_cast
        ring
      · rw [if_neg ht]
        have hne : ¬ t0 = t := fun hc => ht hc.symm
        have : count_in ((t0, n0) :: l) t = count_in l t := by
          simp [count_in, List.filter, hne]
        rw [this]
    · rw [if_neg hg] at h
      exact absurd h (by simp)

theorem apply_hold_alloc_tierQty (e e2 : Event) (as' : List Alloc)
    (h : apply_hold_counts e (hold_counts_list as') = some e2) (t : Tier) :
    e2.tierQty t = e.tierQty t - (tier_count as' t : Int) := by
  rw [apply_hold_counts_tierQty _ e e2 h t, count_in_hold_counts]

theorem apply_hold_alloc_total (e e2 : Event) (as' : List Alloc)
    (h : apply_hold_counts e (hold_counts_list as') = some e2) :
    total_remaining e2 = total_remaining e - (as'.length : Int) := by
  have h1 := apply_hold_alloc_tierQty e e2 as' h Tier.early
  have h2 := apply_hold_alloc_tierQty e e2 as' h Tier.tier1
  have h3 := apply_hold_alloc_tierQty e e2 as' h Tier.tier2
  have hsum := tier_count_sum as'
  rw [total_remaining_eq_tiers, total_remaining_eq_tiers, h1, h2, h3]
  push_cast
  omega

theorem mk_attendees_length (rid : Nat) (pairs : List (String × Alloc)) :
    ∀ aid, (mk_attendees rid aid pairs).length = pairs.length := by
  induction pairs with
  | nil => intro aid; rfl
  | cons p rest ih =>
    obtain ⟨nm, al⟩ := p
    intro aid
    simp [mk_attendees, ih]

theorem mk_attendees_resId (rid : Nat) (pairs : List (String × Alloc)) :
    ∀ aid, ∀ a ∈ mk_attendees rid aid pairs, a.reservation_id = rid := by
  induction pairs with
  | nil => intro aid a ha; simp [mk_attendees] at ha
  | cons p rest ih =>
    obtain ⟨nm, al⟩ := p
    intro aid a ha
    rcases List.mem_cons.mp ha with h1 | h2
    · subst h1; rfl
    · exact ih (aid + 1) a h2

theorem mk_attendees_filter_tier (rid : Nat) (t : Tier)
    (pairs : List (String × Alloc)) :
    ∀ aid, ((mk_attendees rid aid pairs).filter
        (fun a => a.reservation_id = rid && a.ticket_tier = some t)).length
      = tier_count (pairs.map (fun p => p.2)) t := by
  induction pairs with
  | nil => intro aid; rfl
  | cons p rest ih =>
    obtain ⟨nm, al⟩ := p
    intro aid
    by_cases h : al.tier = t
    · simp [mk_attendees, List.filter, h, tier_count_cons, ih, Nat.add_comm]
    · simp [mk_attendees, List.filter, h, tier_count_cons, ih]

theorem filter_fresh_nil (l : List Attendee) (rid : Nat)
    (hfresh : ∀ a ∈ l, a.reservation_id ≠ rid) (t : Tier) :
    l.filter (fun a => a.reservation_id = rid && a.ticket_tier = some t) = [] := by
  rw [List.filter_eq_nil_iff]
  intro a ha
  simp [hfresh a ha]

theorem hold_counts_after_append (stAtts : List Attendee) (rid aid : Nat)
    (pairs : List (String × Alloc))
    (hfresh : ∀ a ∈ stAtts, a.reservation_id ≠ rid) (t : Tier) :
    ((stAtts ++ mk_attendees rid aid pairs).filter
        (fun a => a.reservation_id = rid && a.ticket_tier = some t)).length
      = tier_count (pairs.map (fun p => p.2)) t := by
  rw [List.filter_append, filter_fresh_nil stAtts rid hfresh t]
  simpa using mk_attendees_filter_tier rid t pairs aid

theorem find?_append_of_none {α} (p : α → Bool) (l1 l2 : List α)
    (h : l1.find? p = none) : (l1 ++ l2).find? p = l2.find? p := by
  rw [List.find?_append, h, Option.none_or]

theorem allocate_ok_pos (e : Event) (boys girls : Nat) (plan : Plan)
    (h : allocate_tier_plan e boys girls = Except.ok plan) :
    0 < boys + girls := by
  by_contra hc
  have hz : boys + girls = 0 := by omega
  unfold allocate_tier_plan at h
  rw [if_pos hz] at h
  exact absurd h (by simp)

theorem allocate_ok_le (e : Event) (boys girls : Nat) (plan : Plan)
    (h : allocate_tier_plan e boys girls = Except.ok plan) :
    ((boys + girls : Nat) : Int) ≤ total_remaining e := by
  by_contra hc
  unfold allocate_tier_plan at h
  by_cases hz : boys + girls = 0
  · rw [if_pos hz] at h
    exact absurd h (by simp)
  · rw [if_neg hz, if_pos (by omega)] at h
    exact absurd h (by simp)

theorem allocate_ok_shape (e : Event) (boys girls : Nat) (plan : Plan)
    (h : allocate_tier_plan e boys girls = Except.ok plan) :
    plan.quantity = boys + girls ∧
    alloc_go e (List.replicate boys Gender.boy ++ List.replicate girls Gender.girl)
      e.tierQty = some plan.attendee_allocations := by
  have hpos := allocate_ok_pos e boys girls plan h
  have hle := allocate_ok_le e boys girls plan h
  obtain ⟨as', hgo, hplan⟩ := allocate_tier_plan_ok e boys girls hpos hle
  rw [h] at hplan
  injection hplan with hplan
  subst hplan
  exact ⟨rfl, hgo⟩

theorem create_ok_inv (st : St) (u boys girls : Nat) (names : List String)
    (st1 : St) (rid : Nat)
    (h : create_pending_reservation st u boys girls names = (st1, Except.ok rid)) :
    ∃ plan ev2,
      allocate_tier_plan st.ev boys girls = Except.ok plan ∧
      names.length = plan.quantity ∧
      apply_hold_counts st.ev (hold_counts_list plan.attendee_allocations)
        = some ev2 ∧
      rid = st.next_rid ∧
      st1 = { ev := ev2
              ress := st.ress ++ [pending_res_row st u boys girls plan]
              atts := st.atts ++ mk_attendees st.next_rid st.next_aid
                (names.zip plan.attendee_allocations)
              next_rid := st.next_rid + 1
              next_aid := st.next_aid + (mk_attendees st.next_rid st.next_aid
                (names.zip plan.attendee_allocations)).length } := by
  unfold create_pending_reservation at h
  rcases halloc : allocate_tier_plan st.ev boys girls with er | plan <;>
    rw [halloc] at h
  · simp at h
  · dsimp only at h
    by_cases hn : names.length ≠ plan.quantity
    · rw [if_pos hn] at h
      simp at h
    · rw [if_neg hn] at h
      push_neg at hn
      rcases happ : apply_hold_counts st.ev
          (hold_counts_list plan.attendee_allocations) with _ | ev2 <;>
        rw [happ] at h
      · simp at h
      · have h1 := congrArg Prod.fst h
        have h2 := congrArg Prod.snd h
        simp only at h1 h2
        injection h2 with h2
        exact ⟨plan, ev2, rfl, hn, happ, h2.symm, h1.symm⟩

/-- C7: a request exceeding the event's total remaining capacity makes
`quote` fail with InsufficientInventory before any assignment; and
whenever `create_pending_reservation` fails (including the guarded
decrement path, which raises the same InsufficientInventory error), the
whole operation aborts with the store state unchanged: no reservation
row, no attendee rows, and no tier counter modified. -/
theorem claim_C7_insufficient_aborts (e : Event) (boys girls : Nat)
    (st st2 : St) (u b2 g2 : Nat) (names : List String) (er : DbErr)
    (hpos : 0 < boys + girls)
    (hgt : total_remaining e < ((boys + girls : Nat) : Int))
    (hcreate : create_pending_reservation st u b2 g2 names
      = (st2, Except.error er)) :
    quote_booking e boys girls = Except.error DbErr.insufficientInventory ∧
    st2 = st := by
  constructor
  · unfold quote_booking allocate_tier_plan
    rw [if_neg (by omega), if_pos (by omega)]
  · unfold create_pending_reservation at hcreate
    rcases halloc : allocate_tier_plan st.ev b2 g2 with er2 | plan <;>
      rw [halloc] at hcreate
    · have h1 := congrArg Prod.fst hcreate
      simp only at h1
      exact h1.symm
    · dsimp only at hcreate
      by_cases hn : names.length ≠ plan.quantity
      · rw [if_pos hn] at hcreate
        have h1 := congrArg Prod.fst hcreate
        simp only at h1
        exact h1.symm
      · rw [if_neg hn] at hcreate
        rcases happ : apply_hold_counts st.ev
            (hold_counts_list plan.attendee_allocations) with _ | ev2 <;>
          rw [happ] at hcreate
        · have h1 := congrArg Prod.fst hcreate
          simp only at h1
          exact h1.symm
        · have h2 := congrArg Prod.snd hcreate
          simp only at h2
          exact absurd h2 (by simp)

theorem claim_C7_insufficient_aborts_witness :
    (0 < 1 + 0) ∧
    (total_remaining ⟨10, 10, 0, 20, 20, 0, 30, 30, 0⟩
      < ((1 + 0 : Nat) : Int)) ∧
    quote_booking ⟨10, 10, 0, 20, 20, 0, 30, 30, 0⟩ 1 0
      = Except.error DbErr.insufficientInventory ∧
    (create_pending_reservation
        (initial_st ⟨10, 10, 0, 20, 20, 0, 30, 30, 0⟩) 5 1 0 ["Ann Lee"]).1
      = initial_st ⟨10, 10, 0, 20, 20, 0, 30, 30, 0⟩ :=
  ⟨by decide, by decide, by
    have h := claim_C7_insufficient_aborts ⟨10, 10, 0, 20, 20, 0, 30, 30, 0⟩ 1 0
      (initial_st ⟨10, 10, 0, 20, 20, 0, 30, 30, 0⟩)
      (initial_st ⟨10, 10, 0, 20, 20, 0, 30, 30, 0⟩) 5 1 0 ["Ann Lee"]
      DbErr.insufficientInventory (by decide) (by decide) (by rfl)
    exact ⟨h.1, h.2⟩⟩

theorem find?_update_list (rid : Nat) (f : Reservation → Reservation)
    (hf : ∀ x, x.rid = rid → (f x).rid = rid) (l : List Reservation) (r : Reservation)
    (hfind : l.find? (fun x => x.rid = rid) = some r) :
    (l.map (fun x => if x.rid = rid then f x else x)).find?
        (fun x => x.rid = rid) = some (f r) := by
  induction l with
  | nil => simp at hfind
  | cons a l ih =>
    by_cases h : a.rid = rid
    · rw [List.find?_cons_of_pos l (by simp [h])] at hfind
      injection hfind with hfind
      subst hfind
      simp only [List.map_cons, if_pos h]
      rw [List.find?_cons_of_pos _ (by simp [hf a h])]
    · rw [List.find?_cons_of_neg l (by simp [h])] at hfind
      simp only [List.map_cons, if_neg h]
      rw [List.find?_cons_of_neg _ (by simp [h])]
      exact ih hfind

theorem findRes_rid (st : St) (rid : Nat) (r : Reservation)
    (h : findRes st rid = some r) : r.rid = rid := by
  have h2 := List.find?_some h
  simpa using h2

theorem findRes_updateRes (st : St) (rid : Nat) (f : Reservation → Reservation)
    (r : Reservation) (hfind : findRes st rid = some r)
    (hf : ∀ x, x.rid = rid → (f x).rid = rid) :
    findRes (updateRes st rid f) rid = some (f r) := by
  unfold findRes at hfind
  unfold findRes updateRes
  exact find?_update_list rid f hf st.ress r hfind

theorem updateRes_ev (st : St) (rid : Nat) (f : Reservation → Reservation) :
    (updateRes st rid f).ev = st.ev := rfl

/-- C8: approving a reservation whose status is not pending-review is a
non-error idempotent outcome - success flag false, a message, the
current row returned, the whole store state unchanged; approving a
pending-review reservation sets the status to approved, records the
reviewer identity and timestamp, leaves every other reservation field
(in particular `hold_applied`) unchanged, and touches no tier counter. -/
theorem claim_C8_approve_idempotent (st : St) (rid admin now : Nat)
    (r : Reservation) (hfind : findRes st rid = some r) :
    (r.status ≠ STATUS_PENDING →
      approve_reservation st rid admin now
        = (st, false, "Reservation is already " ++ r.status ++ ".", some r)) ∧
    (r.status = STATUS_PENDING →
      ∃ r2, approve_reservation st rid admin now
          = (updateRes st rid (fun _ => r2), true, "Reservation approved.", some r2) ∧
        r2.status = STATUS_APPROVED ∧
        r2.reviewed_by_tg_id = some admin ∧
        r2.reviewed_at = some now ∧
        r2.hold_applied = r.hold_applied ∧
        r2.quantity = r.quantity ∧
        r2.boys = r.boys ∧
        r2.girls = r.girls ∧
        r2.total_price = r.total_price ∧
        (approve_reservation st rid admin now).1.ev = st.ev ∧
        findRes (approve_reservation st rid admin now).1 rid = some r2) := by
  constructor
  · intro hne
    unfold approve_reservation
    rw [hfind]
    dsimp only
    rw [if_pos hne]
  · intro hp
    refine ⟨{ r with status := STATUS_APPROVED, reviewed_at := some now, reviewed_by_tg_id := some admin }, ?_, rfl, rfl, rfl, rfl, rfl, rfl, rfl, rfl, ?_, ?_⟩
    · unfold approve_reservation
      rw [hfind]
      dsimp only
      rw [if_neg (by simp [hp])]
    · unfold approve_reservation
      rw [hfind]
      dsimp only
      rw [if_neg (by simp [hp])]
      rfl
    · unfold approve_reservation
      rw [hfind]
      dsimp only
      rw [if_neg (by simp [hp])]
      have hr := findRes_rid st rid r hfind
      exact findRes_updateRes st rid _ r hfind (fun x _ => hr)

theorem claim_C8_approve_idempotent_witness :
    findRes sample_st_pending 0 = some sample_res_pending ∧
    ∃ r2, approve_reservation sample_st_pending 0 9 3
        = (updateRes sample_st_pending 0 (fun _ => r2), true,
           "Reservation approved.", some r2) ∧
      r2.status = STATUS_APPROVED :=
  ⟨rfl, by
    obtain ⟨r2, heq, hstat, _⟩ :=
      (claim_C8_approve_idempotent sample_st_pending 0 9 3
        sample_res_pending rfl).2 rfl
    exact ⟨r2, heq, hstat⟩⟩

theorem total_add_to_tiers (e : Event) (c : Tier → Nat) :
    total_remaining (add_to_tiers e c)
      = total_remaining e + (c Tier.early : Int) + (c Tier.tier1 : Int)
        + (c Tier.tier2 : Int) := by
  simp only [add_to_tiers, total_remaining]
  ring

theorem approve_ev (st : St) (rid a n : Nat) :
    (approve_reservation st rid a n).1.ev = st.ev := by
  unfold approve_reservation
  rcases hf : findRes st rid with _ | r
  · rfl
  · dsimp only
    by_cases h : r.status ≠ STATUS_PENDING
    · rw [if_pos h]
    · rw [if_neg h]
      rfl

/-- C2: creating a pending reservation for `N = boys + girls` tickets
decreases the event's total remaining capacity by exactly `N`;
subsequently rejecting or cancelling that reservation restores the total
to its pre-creation value; approving it leaves the total unchanged from
its post-creation value.  The freshness hypotheses say the
AUTOINCREMENT counter is ahead of every stored row, which holds in every
store the operations build. -/
theorem claim_C2_hold_release_roundtrip (st st1 : St) (u boys girls : Nat)
    (names : List String) (rid admin now : Nat) (note : String)
    (hfreshR : ∀ r ∈ st.ress, r.rid ≠ st.next_rid)
    (hfreshA : ∀ a ∈ st.atts, a.reservation_id ≠ st.next_rid)
    (hcreate : create_pending_reservation st u boys girls names
      = (st1, Except.ok rid)) :
    total_remaining st1.ev
        = total_remaining st.ev - ((boys + girls : Nat) : Int) ∧
    total_remaining (reject_reservation st1 rid admin note now).1.ev
        = total_remaining st.ev ∧
    total_remaining (cancel_reservation_for_user st1 u rid).1.ev
        = total_remaining st.ev ∧
    total_remaining (approve_reservation st1 rid admin now).1.ev
        = total_remaining st1.ev := by
  obtain ⟨plan, ev2, halloc, hn, happ, hr, hst1⟩ :=
    create_ok_inv st u boys girls names st1 rid hcreate
  subst hr
  obtain ⟨hq, hgo⟩ := allocate_ok_shape st.ev boys girls plan halloc
  have hpos := allocate_ok_pos st.ev boys girls plan halloc
  have hlen : plan.attendee_allocations.length = boys + girls := by
    rw [alloc_go_length st.ev _ _ _ hgo]
    simp
  have hnames : plan.attendee_allocations.length ≤ names.length := by
    rw [hn, hq, hlen]
  have hzip : (names.zip plan.attendee_allocations).map (fun p => p.2)
      = plan.attendee_allocations := by
    have h2 := List.map_snd_zip names plan.attendee_allocations hnames
    calc (names.zip plan.attendee_allocations).map (fun p => p.2)
        = (names.zip plan.attendee_allocations).map Prod.snd :=
          List.map_congr_left (fun a _ => rfl)
      _ = plan.attendee_allocations := h2
  have hst1ev : st1.ev = ev2 := by rw [hst1]
  have h1 : total_remaining st1.ev
      = total_remaining st.ev - ((boys + girls : Nat) : Int) := by
    rw [hst1ev, apply_hold_alloc_total st.ev ev2 _ happ, hlen]
  have hfind0 : st.ress.find? (fun x => decide (x.rid = st.next_rid)) = none := by
    rw [List.find?_eq_none]
    intro x hx
    simp [hfreshR x hx]
  have hfind : findRes st1 st.next_rid
      = some (pending_res_row st u boys girls plan) := by
    rw [hst1]
    unfold findRes
    dsimp only
    rw [find?_append_of_none _ _ _ hfind0]
    rw [List.find?_cons_of_pos _ (by simp [pending_res_row])]
  have hcounts : ∀ t, reservation_hold_counts st1 st.next_rid t
      = tier_count plan.attendee_allocations t := by
    intro t
    rw [hst1]
    unfold reservation_hold_counts
    dsimp only
    rw [hold_counts_after_append st.atts st.next_rid st.next_aid _ hfreshA t]
    rw [hzip]
  have hsum := tier_count_sum plan.attendee_allocations
  have hempty : hold_counts_empty st1 st.next_rid = false := by
    cases hemp : hold_counts_empty st1 st.next_rid
    · rfl
    · exfalso
      unfold hold_counts_empty at hemp
      rw [List.all_eq_true] at hemp
      have he := hemp Tier.early (by simp [tier_order])
      have ht1 := hemp Tier.tier1 (by simp [tier_order])
      have ht2 := hemp Tier.tier2 (by simp [tier_order])
      simp only [decide_eq_true_eq] at he ht1 ht2
      rw [hcounts] at he ht1 ht2
      rw [hlen] at hsum
      omega
  have hrid : (pending_res_row st u boys girls plan).rid = st.next_rid := rfl
  have hrel : total_remaining
      (release_hold st1 (pending_res_row st u boys girls plan)).ev
      = total_remaining st.ev := by
    unfold release_hold
    rw [if_neg (by simp [pending_res_row])]
    dsimp only
    have hemp2 : hold_counts_empty st1
        (pending_res_row st u boys girls plan).rid = false := hempty
    rw [if_neg (by simp [hemp2])]
    rw [total_add_to_tiers]
    rw [hrid, hcounts, hcounts, hcounts]
    rw [hlen] at hsum
    rw [h1]
    push_cast
    omega
  refine ⟨h1, ?_, ?_, ?_⟩
  · unfold reject_reservation
    rw [hfind]
    dsimp only
    rw [if_neg (by simp [pending_res_row])]
    exact hrel
  · unfold cancel_reservation_for_user
    have hfindc : st1.ress.find?
        (fun x => x.rid = st.next_rid && x.user_id = u)
        = some (pending_res_row st u boys girls plan) := by
      rw [hst1]
      dsimp only
      rw [find?_append_of_none _ _ _ (by
        rw [List.find?_eq_none]
        intro x hx
        simp [hfreshR x hx])]
      rw [List.find?_cons_of_pos _ (by simp [pending_res_row])]
    rw [hfindc]
    dsimp only
    rw [if_neg (by simp [pending_res_row, STATUS_PENDING, STATUS_CANCELLED,
      STATUS_REJECTED])]
    exact hrel
  · rw [approve_ev]

theorem claim_C2_hold_release_roundtrip_witness :
    total_remaining (create_pending_reservation (initial_st sample_event) 5 1 1
        ["Ann Lee", "Bea Cruz"]).1.ev
      = total_remaining (initial_st sample_event).ev - ((1 + 1 : Nat) : Int) ∧
    total_remaining (reject_reservation (create_pending_reservation
        (initial_st sample_event) 5 1 1 ["Ann Lee", "Bea Cruz"]).1 0 9 "no" 3).1.ev
      = total_remaining (initial_st sample_event).ev ∧
    total_remaining (cancel_reservation_for_user (create_pending_reservation
        (initial_st sample_event) 5 1 1 ["Ann Lee", "Bea Cruz"]).1 5 0).1.ev
      = total_remaining (initial_st sample_event).ev := by
  have h := claim_C2_hold_release_roundtrip (initial_st sample_event)
    (create_pending_reservation (initial_st sample_event) 5 1 1
      ["Ann Lee", "Bea Cruz"]).1
    5 1 1 ["Ann Lee", "Bea Cruz"] 0 9 3 "no"
    (by intro x hx; simp [initial_st] at hx)
    (by intro x hx; simp [initial_st] at hx)
    rfl
  exact ⟨h.1, h.2.1, h.2.2.1⟩

theorem tierQty_add_to_tiers (e : Event) (c : Tier → Nat) (t : Tier) :
    (add_to_tiers e c).tierQty t = e.tierQty t + (c t : Int) := by
  cases t <;> rfl

/-- C4: hold release recomputes the tier-to-count map by grouping the
reservation's current attendee rows by their recorded `ticket_tier`
(whenever at least one current attendee carries a valid tier key, as is
the case for every reservation touched only by creation and guest
mutation): each tier's counter is incremented by exactly the number of
current attendees recorded in that tier, and the result does not depend
on the reservation's original `ticket_type` field at all. -/
theorem claim_C4_release_from_attendees (st : St) (r : Reservation) (t : Tier)
    (hhold : r.hold_applied = true)
    (hne : hold_counts_empty st r.rid = false) :
    (release_hold st r).ev.tierQty t
      = st.ev.tierQty t + (reservation_hold_counts st r.rid t : Int) ∧
    (∀ tt : Option Tier,
      release_hold st { r with ticket_type := tt } = release_hold st r) := by
  constructor
  · unfold release_hold
    rw [if_neg (by simp [hhold])]
    dsimp only
    rw [if_neg (by simp [hne])]
    exact tierQty_add_to_tiers st.ev _ t
  · intro tt
    unfold release_hold
    dsimp only
    rw [if_neg (by simp [hhold])]
    rw [if_neg (by simp [hne])]
    rw [if_neg (by simp [hhold])]
    rw [if_neg (by simp [hne])]

theorem claim_C4_release_from_attendees_witness :
    (sample_res_pending.hold_applied = true) ∧
    (hold_counts_empty sample_st_pending sample_res_pending.rid = false) ∧
    (release_hold sample_st_pending sample_res_pending).ev.tierQty Tier.early
      = sample_st_pending.ev.tierQty Tier.early
        + (reservation_hold_counts sample_st_pending sample_res_pending.rid
            Tier.early : Int) ∧
    release_hold sample_st_pending
        { sample_res_pending with ticket_type := some Tier.tier2 }
      = release_hold sample_st_pending sample_res_pending :=
  ⟨rfl, by decide, by
    have h := claim_C4_release_from_attendees sample_st_pending
      sample_res_pending Tier.early rfl (by decide)
    exact ⟨h.1, h.2 (some Tier.tier2)⟩⟩

/-- C6: removing the only remaining attendee of a held, mutable
reservation cascades it to cancelled - status becomes cancelled,
quantity, boys, girls and total price are reset to zero, the hold flag
is cleared, the attendee row is deleted, and one unit is credited back
to that attendee's own recorded tier (and to no other tier), so no
inventory stays held for the now-empty reservation. -/
theorem claim_C6_remove_last_cancels (st : St) (aid : Nat) (a : Attendee)
    (r : Reservation) (t : Tier)
    (hfindA : st.atts.find? (fun x => x.aid = aid) = some a)
    (hfindR : st.ress.find? (fun x => x.rid = a.reservation_id) = some r)
    (hmut : is_admin_mutable_reservation_status r.status = true)
    (hq : r.quantity = 1)
    (htier : a.ticket_tier = some t)
    (hhold : r.hold_applied = true) :
    ∃ st2 r2, admin_remove_guest st aid
        = (st2, true, "Guest removed and reservation cancelled.", some r2) ∧
      st2.ev.tierQty t = st.ev.tierQty t + 1 ∧
      (∀ u, u ≠ t → st2.ev.tierQty u = st.ev.tierQty u) ∧
      st2.atts = st.atts.filter (fun x => x.aid ≠ aid) ∧
      r2.status = STATUS_CANCELLED ∧ r2.quantity = 0 ∧ r2.boys = 0 ∧
      r2.girls = 0 ∧ r2.total_price = 0 ∧ r2.hold_applied = false ∧
      findRes st2 a.reservation_id = some r2 := by
  have hrr : r.rid = a.reservation_id := by
    have h2 := List.find?_some hfindR
    simpa using h2
  unfold admin_remove_guest
  rw [hfindA]
  dsimp only
  rw [hfindR]
  dsimp only
  rw [if_neg (by simp [hmut])]
  simp only [htier, hhold, hq]
  rw [if_pos (by norm_num)]
  refine ⟨_, _, rfl, ?_, ?_, rfl, rfl, rfl, rfl, rfl, rfl, rfl, ?_⟩
  · rw [tierQty_setTierQty]
    simp
  · intro u hu
    rw [tierQty_setTierQty, if_neg hu]
  · unfold findRes
    dsimp only
    rw [hrr]
    exact find?_update_list a.reservation_id _ (fun x _ => rfl) st.ress r hfindR

theorem claim_C6_remove_last_cancels_witness :
    (sample_st_pending.atts.find? (fun x => x.aid = 0)
      = some { aid := 0, reservation_id := 0, full_name := "Ann Lee", gender := Gender.boy, ticket_tier := some Tier.early }) ∧
    ∃ st2 r2, admin_remove_guest sample_st_pending 0
        = (st2, true, "Guest removed and reservation cancelled.", some r2) ∧
      st2.ev.tierQty Tier.early
        = sample_st_pending.ev.tierQty Tier.early + 1 ∧
      r2.status = STATUS_CANCELLED :=
  ⟨rfl, by
    obtain ⟨st2, r2, heq, ht, _, _, hstat, _, _, _, _, _, _⟩ :=
      claim_C6_remove_last_cancels sample_st_pending 0
        { aid := 0, reservation_id := 0, full_name := "Ann Lee", gender := Gender.boy, ticket_tier := some Tier.early }
        sample_res_pending Tier.early rfl rfl (by decide) rfl rfl rfl
    exact ⟨st2, r2, heq, ht, hstat⟩⟩

/-- C10: removing an attendee whose recorded gender is neither boy nor
girl decrements the boys count when it is positive and otherwise the
girls count (each floored at zero), preserving
`quantity = boys + girls`; and the price subtracted for such an
attendee is the reservation's average price `total_price / quantity`
(the unit-price helper returns that average for an unknown gender even
when the attendee's tier is a valid key), not a tier price lookup. -/
theorem claim_C10_remove_unknown_gender (st : St) (aid : Nat) (a : Attendee)
    (r : Reservation) (t : Tier)
    (hfindA : st.atts.find? (fun x => x.aid = aid) = some a)
    (hfindR : st.ress.find? (fun x => x.rid = a.reservation_id) = some r)
    (hmut : is_admin_mutable_reservation_status r.status = true)
    (hgen : a.gender = Gender.unknown)
    (htier : a.ticket_tier = some t)
    (hq2 : 2 ≤ r.quantity)
    (hbg : r.quantity = r.boys + r.girls)
    (hb : 0 ≤ r.boys) (hg : 0 ≤ r.girls)
    (htot : 0 ≤ r.total_price) :
    reservation_unit_price r st.ev Gender.unknown (some t)
        = r.total_price / (r.quantity : ℚ) ∧
    ∃ st2 r2, admin_remove_guest st aid
        = (st2, true, "Guest removed successfully.", some r2) ∧
      (0 < r.boys → r2.boys = r.boys - 1 ∧ r2.girls = r.girls) ∧
      (r.boys ≤ 0 → r2.boys = r.boys ∧ r2.girls = r.girls - 1) ∧
      r2.quantity = r2.boys + r2.girls ∧
      r2.total_price = r.total_price - r.total_price / (r.quantity : ℚ) := by
  have hup : reservation_unit_price r st.ev Gender.unknown (some t)
      = r.total_price / (r.quantity : ℚ) := by
    unfold reservation_unit_price
    dsimp only
    rw [if_neg (by simp), if_neg (by simp), if_pos (by omega)]
  have hqcast : (1 : ℚ) ≤ ((r.quantity : Int) : ℚ) := by
    have h1 : (1 : Int) ≤ r.quantity := by omega
    exact_mod_cast h1
  have hdivle : r.total_price / (r.quantity : ℚ) ≤ r.total_price :=
    div_le_self htot hqcast
  have htotmax : max 0 (r.total_price - r.total_price / (r.quantity : ℚ))
      = r.total_price - r.total_price / (r.quantity : ℚ) :=
    max_eq_right (by linarith)
  refine ⟨hup, ?_⟩
  unfold admin_remove_guest
  rw [hfindA]
  dsimp only
  rw [hfindR]
  dsimp only
  rw [if_neg (by simp [hmut])]
  simp only [hgen, htier]
  have hgb : ¬ (Gender.unknown = Gender.boy) := by decide
  have hgg : ¬ (Gender.unknown = Gender.girl) := by decide
  by_cases hha : r.hold_applied = true
  all_goals simp only [hha]
  all_goals simp only [show ((true : Bool) = true) = True from by simp,
    show ((false : Bool) = true) = False from by simp, if_true, if_false]
  all_goals simp only [show ((decide (Gender.unknown = Gender.boy)
      || decide (Gender.unknown = Gender.girl)) = true) = False by decide,
    if_false]
  all_goals try dsimp only
  all_goals simp only [if_neg hgb, if_neg hgg]
  all_goals rw [hup, htotmax, if_neg (show ¬ (r.quantity - 1 ≤ 0) by omega)]
  all_goals
    by_cases hbp : 0 < r.boys
    · simp only [if_pos hbp]
      refine ⟨_, _, rfl, fun _ => ⟨rfl, rfl⟩,
        fun hle => absurd hbp (by omega), ?_, rfl⟩
      dsimp only
      omega
    · simp only [if_neg hbp]
      have hg1 : 1 ≤ r.girls := by omega
      have hmaxg : max 0 (r.girls - 1) = r.girls - 1 := max_eq_right (by omega)
      rw [hmaxg]
      refine ⟨_, _, rfl, fun hp => absurd hp hbp, fun _ => ⟨rfl, rfl⟩, ?_, rfl⟩
      dsimp only
      omega

theorem claim_C10_remove_unknown_gender_witness :
    reservation_unit_price { rid := 0, user_id := 5, ticket_type := some Tier.early, quantity := 2, total_price := 5000, boys := 1, girls := 1, status := STATUS_PENDING, admin_note := "", reviewed_at := none, reviewed_by_tg_id := none, hold_applied := true } sample_event Gender.unknown (some Tier.early)
      = (5000 : ℚ) / ((2 : Int) : ℚ) ∧
    ∃ st2 r2, admin_remove_guest { ev := sample_event, ress := [{ rid := 0, user_id := 5, ticket_type := some Tier.early, quantity := 2, total_price := 5000, boys := 1, girls := 1, status := STATUS_PENDING, admin_note := "", reviewed_at := none, reviewed_by_tg_id := none, hold_applied := true }], atts := [{ aid := 0, reservation_id := 0, full_name := "Una Voss", gender := Gender.unknown, ticket_tier := some Tier.early }, { aid := 1, reservation_id := 0, full_name := "Ann Lee", gender := Gender.boy, ticket_tier := some Tier.early }], next_rid := 1, next_aid := 2 } 0
        = (st2, true, "Guest removed successfully.", some r2) ∧
      r2.quantity = r2.boys + r2.girls := by
  obtain ⟨hup, st2, r2, heq, _, _, hsum, _⟩ :=
    claim_C10_remove_unknown_gender
      { ev := sample_event, ress := [{ rid := 0, user_id := 5, ticket_type := some Tier.early, quantity := 2, total_price := 5000, boys := 1, girls := 1, status := STATUS_PENDING, admin_note := "", reviewed_at := none, reviewed_by_tg_id := none, hold_applied := true }], atts := [{ aid := 0, reservation_id := 0, full_name := "Una Voss", gender := Gender.unknown, ticket_tier := some Tier.early }, { aid := 1, reservation_id := 0, full_name := "Ann Lee", gender := Gender.boy, ticket_tier := some Tier.early }], next_rid := 1, next_aid := 2 }
      0
      { aid := 0, reservation_id := 0, full_name := "Una Voss", gender := Gender.unknown, ticket_tier := some Tier.early }
      { rid := 0, user_id := 5, ticket_type := some Tier.early, quantity := 2, total_price := 5000, boys := 1, girls := 1, status := STATUS_PENDING, admin_note := "", reviewed_at := none, reviewed_by_tg_id := none, hold_applied := true }
      Tier.early rfl rfl (by decide) rfl rfl (by decide) (by decide)
      (by decide) (by decide) (by decide)
  exact ⟨hup, st2, r2, heq, hsum⟩

theorem boyPrice_setTierQty (e : Event) (t : Tier) (v : Int) (u : Tier) :
    (e.setTierQty t v).boyPrice u = e.boyPrice u := by
  cases t <;> cases u <;> rfl

theorem girlPrice_setTierQty (e : Event) (t : Tier) (v : Int) (u : Tier) :
    (e.setTierQty t v).girlPrice u = e.girlPrice u := by
  cases t <;> cases u <;> rfl

theorem unit_price_for_setTierQty (e : Event) (t : Tier) (v : Int)
    (u : Tier) (g : Gender) :
    unit_price_for (e.setTierQty t v) u g = unit_price_for e u g := by
  unfold unit_price_for
  rw [boyPrice_setTierQty, girlPrice_setTierQty]

theorem reservation_unit_price_known (r : Reservation) (e : Event)
    (g : Gender) (t : Tier) (hg : g ≠ Gender.unknown) :
    reservation_unit_price r e g (some t) = unit_price_for e t g := by
  cases g with
  | unknown => exact absurd rfl hg
  | boy => rfl
  | girl => rfl

theorem allocate_single_seat (e : Event) (g : Gender) (hg : g ≠ Gender.unknown)
    (hrem : 1 ≤ total_remaining e) :
    ∃ t plan, first_available e.tierQty = some t ∧
      allocate_tier_plan e (if g = Gender.boy then 1 else 0)
          (if g = Gender.girl then 1 else 0) = Except.ok plan ∧
      plan.quantity = 1 ∧
      plan.total_price = unit_price_for e t g ∧
      plan.attendee_allocations
        = [{ tier := t, gender := g, unit_price := unit_price_for e t g }] := by
  have hfa : (first_available e.tierQty).isSome :=
    first_available_isSome e.tierQty (by
      rw [← total_remaining_eq_tiers]
      omega)
  rcases hfab : first_available e.tierQty with _ | t
  · rw [hfab] at hfa; simp at hfa
  · have hgo : ∀ g2 : Gender, alloc_go e [g2] e.tierQty
        = some [{ tier := t, gender := g2, unit_price := unit_price_for e t g2 }] := by
      intro g2
      simp [alloc_go, hfab]
    cases g with
    | unknown => exact absurd rfl hg
    | boy =>
      refine ⟨t, { quantity := 1, total_price := sum_prices [{ tier := t, gender := Gender.boy, unit_price := unit_price_for e t Gender.boy }], primary_tier_key := t, attendee_allocations := [{ tier := t, gender := Gender.boy, unit_price := unit_price_for e t Gender.boy }] }, rfl, ?_, rfl, ?_, rfl⟩
      · show allocate_tier_plan e 1 0 = _
        unfold allocate_tier_plan
        rw [if_neg (by omega), if_neg (by omega)]
        dsimp only
        rw [show (List.replicate 1 Gender.boy ++ List.replicate 0 Gender.girl)
          = [Gender.boy] from rfl]
        rw [hgo Gender.boy]
        rfl
      · show sum_prices _ = _
        simp [sum_prices]
    | girl =>
      refine ⟨t, { quantity := 1, total_price := sum_prices [{ tier := t, gender := Gender.girl, unit_price := unit_price_for e t Gender.girl }], primary_tier_key := t, attendee_allocations := [{ tier := t, gender := Gender.girl, unit_price := unit_price_for e t Gender.girl }] }, rfl, ?_, rfl, ?_, rfl⟩
      · show allocate_tier_plan e 0 1 = _
        unfold allocate_tier_plan
        rw [if_neg (by omega), if_neg (by omega)]
        dsimp only
        rw [show (List.replicate 0 Gender.boy ++ List.replicate 1 Gender.girl)
          = [Gender.girl] from rfl]
        rw [hgo Gender.girl]
        rfl
      · show sum_prices _ = _
        simp [sum_prices]



/-- C5: on a mutable reservation of an event with at least one remaining
ticket, adding a guest and then removing the attendee just added (with
event prices and the rest of the store unchanged in between) returns the
reservation's quantity, boys, girls and total price to their exact
pre-add values and restores the remaining count of the specific tier the
added guest was allocated to - the first tier with remaining capacity,
which may differ from the reservation's primary tier. -/
theorem claim_C5_add_remove_roundtrip (st : St) (rid : Nat) (r : Reservation)
    (nm : String) (g : Gender)
    (hg : g ≠ Gender.unknown)
    (hfind : findRes st rid = some r)
    (hmut : is_admin_mutable_reservation_status r.status = true)
    (hrem : 1 ≤ total_remaining st.ev)
    (hq : 1 ≤ r.quantity) (hb : 0 ≤ r.boys) (hgl : 0 ≤ r.girls)
    (htot : 0 ≤ r.total_price)
    (hfreshA : ∀ a ∈ st.atts, a.aid ≠ st.next_aid) :
    ∃ st2 r2 st3 r3 t,
      first_available st.ev.tierQty = some t ∧
      admin_add_guest st rid nm g
        = (st2, true, "Guest added successfully.", some r2) ∧
      admin_remove_guest st2 st.next_aid
        = (st3, true, "Guest removed successfully.", some r3) ∧
      r3.quantity = r.quantity ∧ r3.boys = r.boys ∧ r3.girls = r.girls ∧
      r3.total_price = r.total_price ∧
      (∀ u, st3.ev.tierQty u = st.ev.tierQty u) := by
  obtain ⟨t, plan, hfa, halloc, hq1, htp, hallocs⟩ :=
    allocate_single_seat st.ev g hg hrem
  have hrr : r.rid = rid := findRes_rid st rid r hfind
  by_cases hha : r.hold_applied = true
  · cases g with
    | unknown => exact absurd rfl hg
    | boy =>
      have hadd : admin_add_guest st rid nm Gender.boy
          = (({ ev := st.ev.setTierQty t (st.ev.tierQty t - 1), ress := st.ress.map (fun x => if x.rid = rid then { r with quantity := r.quantity + 1, boys := r.boys + 1, girls := r.girls + 0, total_price := r.total_price + unit_price_for st.ev t Gender.boy } else x), atts := st.atts ++ [({ aid := st.next_aid, reservation_id := rid, full_name := nm, gender := Gender.boy, ticket_tier := some t } : Attendee)], next_rid := st.next_rid, next_aid := st.next_aid + 1 } : St), true, "Guest added successfully.", some (({ r with quantity := r.quantity + 1, boys := r.boys + 1, girls := r.girls + 0, total_price := r.total_price + unit_price_for st.ev t Gender.boy }) : Reservation)) := by
        unfold admin_add_guest
        rw [if_neg (by decide)]
        rw [hfind]
        dsimp only
        rw [if_neg (by simp [hmut])]
        rw [halloc]
        dsimp only
        simp only [hallocs]
        dsimp only [List.headD]
        simp only [hha]
        simp only [show ((true : Bool) = true) = True from by simp, if_true]
        rw [if_pos (first_available_pos hfa)]
        rfl
      have hfA2 : (st.atts ++ [(({ aid := st.next_aid, reservation_id := rid, full_name := nm, gender := Gender.boy, ticket_tier := some t }) : Attendee)]).find? (fun x => x.aid = st.next_aid)
          = some (({ aid := st.next_aid, reservation_id := rid, full_name := nm, gender := Gender.boy, ticket_tier := some t }) : Attendee) := by
        rw [find?_append_of_none _ _ _ (by
          rw [List.find?_eq_none]
          intro x hx
          simp [hfreshA x hx])]
        rw [List.find?_cons_of_pos _ (by simp)]
      have hrem2 : admin_remove_guest ({ ev := st.ev.setTierQty t (st.ev.tierQty t - 1), ress := st.ress.map (fun x => if x.rid = rid then { r with quantity := r.quantity + 1, boys := r.boys + 1, girls := r.girls + 0, total_price := r.total_price + unit_price_for st.ev t Gender.boy } else x), atts := st.atts ++ [({ aid := st.next_aid, reservation_id := rid, full_name := nm, gender := Gender.boy, ticket_tier := some t } : Attendee)], next_rid := st.next_rid, next_aid := st.next_aid + 1 } : St) st.next_aid
          = (({ ev := (st.ev.setTierQty t (st.ev.tierQty t - 1)).setTierQty t ((st.ev.setTierQty t (st.ev.tierQty t - 1)).tierQty t + 1), ress := (st.ress.map (fun x => if x.rid = rid then { r with quantity := r.quantity + 1, boys := r.boys + 1, girls := r.girls + 0, total_price := r.total_price + unit_price_for st.ev t Gender.boy } else x)).map (fun x => if x.rid = r.rid then ({ r with quantity := r.quantity + 1 - 1, boys := max 0 (r.boys + 1 - 1), girls := r.girls + 0, total_price := max 0 (r.total_price + unit_price_for st.ev t Gender.boy - unit_price_for st.ev t Gender.boy) } : Reservation) else x), atts := (st.atts ++ [({ aid := st.next_aid, reservation_id := rid, full_name := nm, gender := Gender.boy, ticket_tier := some t } : Attendee)]).filter (fun x => x.aid ≠ st.next_aid), next_rid := st.next_rid, next_aid := st.next_aid + 1 } : St), true, "Guest removed successfully.", some (({ r with quantity := r.quantity + 1 - 1, boys := max 0 (r.boys + 1 - 1), girls := r.girls + 0, total_price := max 0 (r.total_price + unit_price_for st.ev t Gender.boy - unit_price_for st.ev t Gender.boy) }) : Reservation)) := by
        unfold admin_remove_guest
        dsimp only
        rw [hfA2]
        dsimp only
        rw [find?_update_list rid (fun _ => ({ r with quantity := r.quantity + 1, boys := r.boys + 1, girls := r.girls + 0, total_price := r.total_price + unit_price_for st.ev t Gender.boy } : Reservation)) (fun x hx => hrr) st.ress r hfind]
        dsimp only
        rw [if_neg (by simp [hmut])]
        simp only [show ((decide (Gender.boy = Gender.boy) || decide (Gender.boy = Gender.girl)) = true) = True from by decide, if_true]
        simp only [hha]
        simp only [show ((true : Bool) = true) = True from by simp, if_true]
        try dsimp only
        rw [reservation_unit_price_known _ _ _ _ (by decide), unit_price_for_setTierQty]
        rw [if_neg (show ¬ (r.quantity + 1 - 1 ≤ 0) from by omega)]
        simp only [show (Gender.boy = Gender.boy) = True from by simp, show (Gender.boy = Gender.girl) = False from by simp, if_true, if_false]
        rfl
      refine ⟨_, _, _, _, t, hfa, hadd, hrem2, ?_, ?_, ?_, ?_, ?_⟩
      · dsimp only
        omega
      · dsimp only
        omega
      · dsimp only
        omega
      · dsimp only
        rw [add_sub_cancel_right, max_eq_right htot]
      · intro u
        dsimp only
        simp only [tierQty_setTierQty]
        by_cases hu : u = t
        · subst hu
          simp <;> omega
        · simp [hu]
    | girl =>
      have hadd : admin_add_guest st rid nm Gender.girl
          = (({ ev := st.ev.setTierQty t (st.ev.tierQty t - 1), ress := st.ress.map (fun x => if x.rid = rid then { r with quantity := r.quantity + 1, boys := r.boys + 0, girls := r.girls + 1, total_price := r.total_price + unit_price_for st.ev t Gender.girl } else x), atts := st.atts ++ [({ aid := st.next_aid, reservation_id := rid, full_name := nm, gender := Gender.girl, ticket_tier := some t } : Attendee)], next_rid := st.next_rid, next_aid := st.next_aid + 1 } : St), true, "Guest added successfully.", some (({ r with quantity := r.quantity + 1, boys := r.boys + 0, girls := r.girls + 1, total_price := r.total_price + unit_price_for st.ev t Gender.girl }) : Reservation)) := by
        unfold admin_add_guest
        rw [if_neg (by decide)]
        rw [hfind]
        dsimp only
        rw [if_neg (by simp [hmut])]
        rw [halloc]
        dsimp only
        simp only [hallocs]
        dsimp only [List.headD]
        simp only [hha]
        simp only [show ((true : Bool) = true) = True from by simp, if_true]
        rw [if_pos (first_available_pos hfa)]
        rfl
      have hfA2 : (st.atts ++ [(({ aid := st.next_aid, reservation_id := rid, full_name := nm, gender := Gender.girl, ticket_tier := some t }) : Attendee)]).find? (fun x => x.aid = st.next_aid)
          = some (({ aid := st.next_aid, reservation_id := rid, full_name := nm, gender := Gender.girl, ticket_tier := some t }) : Attendee) := by
        rw [find?_append_of_none _ _ _ (by
          rw [List.find?_eq_none]
          intro x hx
          simp [hfreshA x hx])]
        rw [List.find?_cons_of_pos _ (by simp)]
      have hrem2 : admin_remove_guest ({ ev := st.ev.setTierQty t (st.ev.tierQty t - 1), ress := st.ress.map (fun x => if x.rid = rid then { r with quantity := r.quantity + 1, boys := r.boys + 0, girls := r.girls + 1, total_price := r.total_price + unit_price_for st.ev t Gender.girl } else x), atts := st.atts ++ [({ aid := st.next_aid, reservation_id := rid, full_name := nm, gender := Gender.girl, ticket_tier := some t } : Attendee)], next_rid := st.next_rid, next_aid := st.next_aid + 1 } : St) st.next_aid
          = (({ ev := (st.ev.setTierQty t (st.ev.tierQty t - 1)).setTierQty t ((st.ev.setTierQty t (st.ev.tierQty t - 1)).tierQty t + 1), ress := (st.ress.map (fun x => if x.rid = rid then { r with quantity := r.quantity + 1, boys := r.boys + 0, girls := r.girls + 1, total_price := r.total_price + unit_price_for st.ev t Gender.girl } else x)).map (fun x => if x.rid = r.rid then ({ r with quantity := r.quantity + 1 - 1, boys := r.boys + 0, girls := max 0 (r.girls + 1 - 1), total_price := max 0 (r.total_price + unit_price_for st.ev t Gender.girl - unit_price_for st.ev t Gender.girl) } : Reservation) else x), atts := (st.atts ++ [({ aid := st.next_aid, reservation_id := rid, full_name := nm, gender := Gender.girl, ticket_tier := some t } : Attendee)]).filter (fun x => x.aid ≠ st.next_aid), next_rid := st.next_rid, next_aid := st.next_aid + 1 } : St), true, "Guest removed successfully.", some (({ r with quantity := r.quantity + 1 - 1, boys := r.boys + 0, girls := max 0 (r.girls + 1 - 1), total_price := max 0 (r.total_price + unit_price_for st.ev t Gender.girl - unit_price_for st.ev t Gender.girl) }) : Reservation)) := by
        unfold admin_remove_guest
        dsimp only
        rw [hfA2]
        dsimp only
        rw [find?_update_list rid (fun _ => ({ r with quantity := r.quantity + 1, boys := r.boys + 0, girls := r.girls + 1, total_price := r.total_price + unit_price_for st.ev t Gender.girl } : Reservation)) (fun x hx => hrr) st.ress r hfind]
        dsimp only
        rw [if_neg (by simp [hmut])]
        simp only [show ((decide (Gender.girl = Gender.boy) || decide (Gender.girl = Gender.girl)) = true) = True from by decide, if_true]
        simp only [hha]
        simp only [show ((true : Bool) = true) = True from by simp, if_true]
        try dsimp only
        rw [reservation_unit_price_known _ _ _ _ (by decide), unit_price_for_setTierQty]
        rw [if_neg (show ¬ (r.quantity + 1 - 1 ≤ 0) from by omega)]
        simp only [show (Gender.girl = Gender.boy) = False from by simp, show (Gender.girl = Gender.girl) = True from by simp, if_true, if_false]
        rfl
      refine ⟨_, _, _, _, t, hfa, hadd, hrem2, ?_, ?_, ?_, ?_, ?_⟩
      · dsimp only
        omega
      · dsimp only
        omega
      · dsimp only
        omega
      · dsimp only
        rw [add_sub_cancel_right, max_eq_right htot]
      · intro u
        dsimp only
        simp only [tierQty_setTierQty]
        by_cases hu : u = t
        · subst hu
          simp <;> omega
        · simp [hu]
  · cases g with
    | unknown => exact absurd rfl hg
    | boy =>
      have hadd : admin_add_guest st rid nm Gender.boy
          = (({ ev := st.ev, ress := st.ress.map (fun x => if x.rid = rid then { r with quantity := r.quantity + 1, boys := r.boys + 1, girls := r.girls + 0, total_price := r.total_price + unit_price_for st.ev t Gender.boy } else x), atts := st.atts ++ [({ aid := st.next_aid, reservation_id := rid, full_name := nm, gender := Gender.boy, ticket_tier := some t } : Attendee)], next_rid := st.next_rid, next_aid := st.next_aid + 1 } : St), true, "Guest added successfully.", some (({ r with quantity := r.quantity + 1, boys := r.boys + 1, girls := r.girls + 0, total_price := r.total_price + unit_price_for st.ev t Gender.boy }) : Reservation)) := by
        unfold admin_add_guest
        rw [if_neg (by decide)]
        rw [hfind]
        dsimp only
        rw [if_neg (by simp [hmut])]
        rw [halloc]
        dsimp only
        simp only [hallocs]
        dsimp only [List.headD]
        simp only [hha]
        simp only [show ((false : Bool) = true) = False from by simp, if_false]
        rfl
      have hfA2 : (st.atts ++ [(({ aid := st.next_aid, reservation_id := rid, full_name := nm, gender := Gender.boy, ticket_tier := some t }) : Attendee)]).find? (fun x => x.aid = st.next_aid)
          = some (({ aid := st.next_aid, reservation_id := rid, full_name := nm, gender := Gender.boy, ticket_tier := some t }) : Attendee) := by
        rw [find?_append_of_none _ _ _ (by
          rw [List.find?_eq_none]
          intro x hx
          simp [hfreshA x hx])]
        rw [List.find?_cons_of_pos _ (by simp)]
      have hrem2 : admin_remove_guest ({ ev := st.ev, ress := st.ress.map (fun x => if x.rid = rid then { r with quantity := r.quantity + 1, boys := r.boys + 1, girls := r.girls + 0, total_price := r.total_price + unit_price_for st.ev t Gender.boy } else x), atts := st.atts ++ [({ aid := st.next_aid, reservation_id := rid, full_name := nm, gender := Gender.boy, ticket_tier := some t } : Attendee)], next_rid := st.next_rid, next_aid := st.next_aid + 1 } : St) st.next_aid
          = (({ ev := st.ev, ress := (st.ress.map (fun x => if x.rid = rid then { r with quantity := r.quantity + 1, boys := r.boys + 1, girls := r.girls + 0, total_price := r.total_price + unit_price_for st.ev t Gender.boy } else x)).map (fun x => if x.rid = r.rid then ({ r with quantity := r.quantity + 1 - 1, boys := max 0 (r.boys + 1 - 1), girls := r.girls + 0, total_price := max 0 (r.total_price + unit_price_for st.ev t Gender.boy - unit_price_for st.ev t Gender.boy) } : Reservation) else x), atts := (st.atts ++ [({ aid := st.next_aid, reservation_id := rid, full_name := nm, gender := Gender.boy, ticket_tier := some t } : Attendee)]).filter (fun x => x.aid ≠ st.next_aid), next_rid := st.next_rid, next_aid := st.next_aid + 1 } : St), true, "Guest removed successfully.", some (({ r with quantity := r.quantity + 1 - 1, boys := max 0 (r.boys + 1 - 1), girls := r.girls + 0, total_price := max 0 (r.total_price + unit_price_for st.ev t Gender.boy - unit_price_for st.ev t Gender.boy) }) : Reservation)) := by
        unfold admin_remove_guest
        dsimp only
        rw [hfA2]
        dsimp only
        rw [find?_update_list rid (fun _ => ({ r with quantity := r.quantity + 1, boys := r.boys + 1, girls := r.girls + 0, total_price := r.total_price + unit_price_for st.ev t Gender.boy } : Reservation)) (fun x hx => hrr) st.ress r hfind]
        dsimp only
        rw [if_neg (by simp [hmut])]
        simp only [show ((decide (Gender.boy = Gender.boy) || decide (Gender.boy = Gender.girl)) = true) = True from by decide, if_true]
        simp only [hha]
        simp only [show ((false : Bool) = true) = False from by simp, if_false]
        try dsimp only
        rw [reservation_unit_price_known _ _ _ _ (by decide)]
        rw [if_neg (show ¬ (r.quantity + 1 - 1 ≤ 0) from by omega)]
        simp only [show (Gender.boy = Gender.boy) = True from by simp, show (Gender.boy = Gender.girl) = False from by simp, if_true, if_false]
        rfl
      refine ⟨_, _, _, _, t, hfa, hadd, hrem2, ?_, ?_, ?_, ?_, ?_⟩
      · dsimp only
        omega
      · dsimp only
        omega
      · dsimp only
        omega
      · dsimp only
        rw [add_sub_cancel_right, max_eq_right htot]
      · intro u
        rfl
    | girl =>
      have hadd : admin_add_guest st rid nm Gender.girl
          = (({ ev := st.ev, ress := st.ress.map (fun x => if x.rid = rid then { r with quantity := r.quantity + 1, boys := r.boys + 0, girls := r.girls + 1, total_price := r.total_price + unit_price_for st.ev t Gender.girl } else x), atts := st.atts ++ [({ aid := st.next_aid, reservation_id := rid, full_name := nm, gender := Gender.girl, ticket_tier := some t } : Attendee)], next_rid := st.next_rid, next_aid := st.next_aid + 1 } : St), true, "Guest added successfully.", some (({ r with quantity := r.quantity + 1, boys := r.boys + 0, girls := r.girls + 1, total_price := r.total_price + unit_price_for st.ev t Gender.girl }) : Reservation)) := by
        unfold admin_add_guest
        rw [if_neg (by decide)]
        rw [hfind]
        dsimp only
        rw [if_neg (by simp [hmut])]
        rw [halloc]
        dsimp only
        simp only [hallocs]
        dsimp only [List.headD]
        simp only [hha]
        simp only [show ((false : Bool) = true) = False from by simp, if_false]
        rfl
      have hfA2 : (st.atts ++ [(({ aid := st.next_aid, reservation_id := rid, full_name := nm, gender := Gender.girl, ticket_tier := some t }) : Attendee)]).find? (fun x => x.aid = st.next_aid)
          = some (({ aid := st.next_aid, reservation_id := rid, full_name := nm, gender := Gender.girl, ticket_tier := some t }) : Attendee) := by
        rw [find?_append_of_none _ _ _ (by
          rw [List.find?_eq_none]
          intro x hx
          simp [hfreshA x hx])]
        rw [List.find?_cons_of_pos _ (by simp)]
      have hrem2 : admin_remove_guest ({ ev := st.ev, ress := st.ress.map (fun x => if x.rid = rid then { r with quantity := r.quantity + 1, boys := r.boys + 0, girls := r.girls + 1, total_price := r.total_price + unit_price_for st.ev t Gender.girl } else x), atts := st.atts ++ [({ aid := st.next_aid, reservation_id := rid, full_name := nm, gender := Gender.girl, ticket_tier := some t } : Attendee)], next_rid := st.next_rid, next_aid := st.next_aid + 1 } : St) st.next_aid
          = (({ ev := st.ev, ress := (st.ress.map (fun x => if x.rid = rid then { r with quantity := r.quantity + 1, boys := r.boys + 0, girls := r.girls + 1, total_price := r.total_price + unit_price_for st.ev t Gender.girl } else x)).map (fun x => if x.rid = r.rid then ({ r with quantity := r.quantity + 1 - 1, boys := r.boys + 0, girls := max 0 (r.girls + 1 - 1), total_price := max 0 (r.total_price + unit_price_for st.ev t Gender.girl - unit_price_for st.ev t Gender.girl) } : Reservation) else x), atts := (st.atts ++ [({ aid := st.next_aid, reservation_id := rid, full_name := nm, gender := Gender.girl, ticket_tier := some t } : Attendee)]).filter (fun x => x.aid ≠ st.next_aid), next_rid := st.next_rid, next_aid := st.next_aid + 1 } : St), true, "Guest removed successfully.", some (({ r with quantity := r.quantity + 1 - 1, boys := r.boys + 0, girls := max 0 (r.girls + 1 - 1), total_price := max 0 (r.total_price + unit_price_for st.ev t Gender.girl - unit_price_for st.ev t Gender.girl) }) : Reservation)) := by
        unfold admin_remove_guest
        dsimp only
        rw [hfA2]
        dsimp only
        rw [find?_update_list rid (fun _ => ({ r with quantity := r.quantity + 1, boys := r.boys + 0, girls := r.girls + 1, total_price := r.total_price + unit_price_for st.ev t Gender.girl } : Reservation)) (fun x hx => hrr) st.ress r hfind]
        dsimp only
        rw [if_neg (by simp [hmut])]
        simp only [show ((decide (Gender.girl = Gender.boy) || decide (Gender.girl = Gender.girl)) = true) = True from by decide, if_true]
        simp only [hha]
        simp only [show ((false : Bool) = true) = False from by simp, if_false]
        try dsimp only
        rw [reservation_unit_price_known _ _ _ _ (by decide)]
        rw [if_neg (show ¬ (r.quantity + 1 - 1 ≤ 0) from by omega)]
        simp only [show (Gender.girl = Gender.boy) = False from by simp, show (Gender.girl = Gender.girl) = True from by simp, if_true, if_false]
        rfl
      refine ⟨_, _, _, _, t, hfa, hadd, hrem2, ?_, ?_, ?_, ?_, ?_⟩
      · dsimp only
        omega
      · dsimp only
        omega
      · dsimp only
        omega
      · dsimp only
        rw [add_sub_cancel_right, max_eq_right htot]
      · intro u
        rfl

theorem claim_C5_add_remove_roundtrip_witness :
    ∃ st2 r2 st3 r3 t,
      first_available sample_st_pending.ev.tierQty = some t ∧
      admin_add_guest sample_st_pending 0 "Cai Dee" Gender.girl
        = (st2, true, "Guest added successfully.", some r2) ∧
      admin_remove_guest st2 sample_st_pending.next_aid
        = (st3, true, "Guest removed successfully.", some r3) ∧
      r3.total_price = sample_res_pending.total_price ∧
      st3.ev.tierQty Tier.early = sample_st_pending.ev.tierQty Tier.early := by
  obtain ⟨st2, r2, st3, r3, t, hfa, hadd, hrem2, _, _, _, htp, hev⟩ :=
    claim_C5_add_remove_roundtrip sample_st_pending 0 sample_res_pending
      "Cai Dee" Gender.girl (by decide) rfl (by decide) (by decide) (by decide)
      (by decide) (by decide) (by decide) (by decide)
  exact ⟨st2, r2, st3, r3, t, hfa, hadd, hrem2, htp, hev Tier.early⟩

theorem find?_map_pred {α : Type} (p : α → Bool) (g : α → α)
    (hp : ∀ x, p (g x) = p x) (l : List α) :
    (l.map g).find? p = (l.find? p).map g := by
  induction l with
  | nil => rfl
  | cons a l ih =>
    by_cases h : p a = true
    · rw [List.map_cons, List.find?_cons_of_pos _ (by rw [hp]; exact h),
        List.find?_cons_of_pos _ h]
      rfl
    · rw [List.map_cons, List.find?_cons_of_neg _ (by rw [hp]; exact h),
        List.find?_cons_of_neg _ h, ih]

theorem filter_split {α : Type} (p q : α → Bool) (l : List α) :
    (l.filter p).length
      = (l.filter (fun a => q a && p a)).length
        + (l.filter (fun a => !q a && p a)).length := by
  induction l with
  | nil => rfl
  | cons a l ih =>
    by_cases hq : q a = true <;> by_cases hp : p a = true <;>
      simp [List.filter, hq, hp, ih] <;> omega

theorem length_filter_erase (l : List Attendee) (a0 : Attendee)
    (p : Attendee → Bool) (hmem : a0 ∈ l)
    (hnodup : (l.map (fun a => a.aid)).Nodup) :
    ((l.filter (fun x => x.aid ≠ a0.aid)).filter p).length
        + (if p a0 = true then 1 else 0)
      = (l.filter p).length := by
  induction l with
  | nil => simp at hmem
  | cons b l ih =>
    rw [List.map_cons, List.nodup_cons] at hnodup
    by_cases hb : b.aid = a0.aid
    · have hba : b = a0 := by
        rcases List.mem_cons.mp hmem with h | h
        · exact h.symm
        · exact absurd (hb ▸ List.mem_map_of_mem (fun a => a.aid) h) hnodup.1
      subst hba
      have hrest : l.filter (fun x => x.aid ≠ b.aid) = l := by
        rw [List.filter_eq_self]
        intro x hx
        have hne : x.aid ≠ b.aid := by
          intro hc
          exact hnodup.1 (hc ▸ List.mem_map_of_mem (fun a => a.aid) hx)
        simpa using hne
      have hdrop : (b :: l).filter (fun x => x.aid ≠ b.aid) = l := by
        rw [List.filter_cons_of_neg (by simp), hrest]
      rw [hdrop]
      by_cases hp : p b = true <;> simp [List.filter, hp]
    · have hmem2 : a0 ∈ l := by
        rcases List.mem_cons.mp hmem with h | h
        · exact absurd (congrArg (fun x => x.aid) h).symm hb
        · exact h
      have hkeep : (b :: l).filter (fun x => x.aid ≠ a0.aid)
          = b :: l.filter (fun x => x.aid ≠ a0.aid) := by
        rw [List.filter_cons_of_pos (by simpa using hb)]
      rw [hkeep]
      by_cases hp : p b = true <;>
        simp [List.filter, hp, ← ih hmem2 hnodup.2] <;> omega

theorem ownerHold_updateRes (st : St) (rid : Nat) (f : Reservation → Reservation)
    (hf1 : ∀ x, (f x).rid = x.rid)
    (hf2 : ∀ x, (f x).hold_applied = x.hold_applied) (a : Attendee) :
    ownerHoldApplied (updateRes st rid f) a = ownerHoldApplied st a := by
  unfold ownerHoldApplied updateRes
  dsimp only
  rw [find?_map_pred _ _ (fun x => by
    by_cases h : x.rid = rid
    · simp [h, hf1]
    · simp [h]) st.ress]
  cases st.ress.find? (fun r => r.rid = a.reservation_id) with
  | none => rfl
  | some r =>
    dsimp only [Option.map_some']
    by_cases h : r.rid = rid <;> simp [h, hf2]

theorem ownerHold_updateRes_ne (st : St) (rid : Nat)
    (f : Reservation → Reservation) (hf1 : ∀ x, (f x).rid = x.rid)
    (a : Attendee) (hne : a.reservation_id ≠ rid) :
    ownerHoldApplied (updateRes st rid f) a = ownerHoldApplied st a := by
  unfold ownerHoldApplied updateRes
  dsimp only
  rw [find?_map_pred _ _ (fun x => by
    by_cases h : x.rid = rid
    · simp [h, hf1]
    · simp [h]) st.ress]
  cases hfd : st.ress.find? (fun r => r.rid = a.reservation_id) with
  | none => rfl
  | some r =>
    have hr : r.rid = a.reservation_id := by simpa using List.find?_some hfd
    dsimp only [Option.map_some']
    rw [if_neg (by rw [hr]; exact hne)]

theorem atts_of_updateRes (st : St) (rid : Nat) (f : Reservation → Reservation)
    (rid2 : Nat) : atts_of (updateRes st rid f) rid2 = atts_of st rid2 := rfl

theorem boys_of_updateRes (st : St) (rid : Nat) (f : Reservation → Reservation)
    (rid2 : Nat) : boys_of (updateRes st rid f) rid2 = boys_of st rid2 := rfl

theorem girls_of_updateRes (st : St) (rid : Nat) (f : Reservation → Reservation)
    (rid2 : Nat) : girls_of (updateRes st rid f) rid2 = girls_of st rid2 := rfl

theorem held_sum_updateRes (st : St) (rid : Nat) (f : Reservation → Reservation)
    (hf1 : ∀ x, (f x).rid = x.rid)
    (hf2 : ∀ x, (f x).hold_applied = x.hold_applied) (t : Tier) :
    held_sum (updateRes st rid f) t = held_sum st t := by
  unfold held_sum
  show (st.atts.filter _).length = (st.atts.filter _).length
  rw [List.filter_congr (fun a _ => by
    rw [ownerHold_updateRes st rid f hf1 hf2 a])]

theorem mk_attendees_filter_gender (rid : Nat) (G : Gender)
    (pairs : List (String × Alloc)) :
    ∀ aid, ((mk_attendees rid aid pairs).filter (fun a => a.gender = G)).length
      = ((pairs.map (fun p => p.2)).filter (fun al => al.gender = G)).length := by
  induction pairs with
  | nil => intro aid; rfl
  | cons p rest ih =>
    obtain ⟨nm, al⟩ := p
    intro aid
    by_cases h : al.gender = G <;>
      simp [mk_attendees, List.filter, h, ih]

theorem mk_attendees_gender_mem (rid : Nat) (pairs : List (String × Alloc)) :
    ∀ aid, ∀ a ∈ mk_attendees rid aid pairs,
      ∃ al ∈ pairs.map (fun p => p.2), a.gender = al.gender := by
  induction pairs with
  | nil => intro aid a ha; simp [mk_attendees] at ha
  | cons p rest ih =>
    obtain ⟨nm, al⟩ := p
    intro aid a ha
    rcases List.mem_cons.mp ha with h | h
    · exact ⟨al, by simp, by rw [h]⟩
    · obtain ⟨al2, hmem, hgen⟩ := ih (aid + 1) a h
      exact ⟨al2, by simp [hmem], hgen⟩

theorem mk_attendees_tier_isSome (rid : Nat) (pairs : List (String × Alloc)) :
    ∀ aid, ∀ a ∈ mk_attendees rid aid pairs, (a.ticket_tier).isSome := by
  induction pairs with
  | nil => intro aid a ha; simp [mk_attendees] at ha
  | cons p rest ih =>
    obtain ⟨nm, al⟩ := p
    intro aid a ha
    rcases List.mem_cons.mp ha with h | h
    · rw [h]; rfl
    · exact ih (aid + 1) a h

theorem mk_attendees_aid_bounds (rid : Nat) (pairs : List (String × Alloc)) :
    ∀ aid0, ∀ a ∈ mk_attendees rid aid0 pairs,
      aid0 ≤ a.aid ∧ a.aid < aid0 + pairs.length := by
  induction pairs with
  | nil => intro aid0 a ha; simp [mk_attendees] at ha
  | cons p rest ih =>
    obtain ⟨nm, al⟩ := p
    intro aid0 a ha
    rcases List.mem_cons.mp ha with h | h
    · rw [h]; simp
    · have := ih (aid0 + 1) a h
      simp only [List.length_cons]
      omega

theorem mk_attendees_aid_nodup (rid : Nat) (pairs : List (String × Alloc)) :
    ∀ aid0, ((mk_attendees rid aid0 pairs).map (fun a => a.aid)).Nodup := by
  induction pairs with
  | nil => intro aid0; simp [mk_attendees]
  | cons p rest ih =>
    obtain ⟨nm, al⟩ := p
    intro aid0
    simp only [mk_attendees, List.map_cons, List.nodup_cons]
    refine ⟨?_, ih (aid0 + 1)⟩
    intro hmem
    obtain ⟨a, hmem2, haid⟩ := List.mem_map.mp hmem
    have := (mk_attendees_aid_bounds rid rest (aid0 + 1) a hmem2).1
    omega

theorem filter_gender_length (G : Gender) (l : List Alloc) :
    (l.filter (fun al => al.gender = G)).length
      = ((l.map (fun al => al.gender)).filter (fun x => x = G)).length := by
  induction l with
  | nil => rfl
  | cons a l ih =>
    by_cases h : a.gender = G <;> simp [List.filter, h, ih]

theorem create_cases (st : St) (u b g : Nat) (names : List String) :
    (create_pending_reservation st u b g names).1 = st ∨
    ∃ rid st1, create_pending_reservation st u b g names = (st1, Except.ok rid) := by
  unfold create_pending_reservation
  rcases allocate_tier_plan st.ev b g with er | plan
  · left; rfl
  · dsimp only
    by_cases hn : names.length ≠ plan.quantity
    · rw [if_pos hn]; left; rfl
    · rw [if_neg hn]
      rcases apply_hold_counts st.ev (hold_counts_list plan.attendee_allocations)
        with _ | ev2
      · left; rfl
      · right; exact ⟨st.next_rid, _, rfl⟩

theorem approve_cases (st : St) (rid admin now : Nat) :
    (approve_reservation st rid admin now).1 = st ∨
    ∃ r, findRes st rid = some r ∧ r.status = STATUS_PENDING ∧
      (approve_reservation st rid admin now).1
        = updateRes st rid (fun _ => { r with status := STATUS_APPROVED, reviewed_at := some now, reviewed_by_tg_id := some admin }) := by
  unfold approve_reservation
  rcases hf : findRes st rid with _ | r
  · left; rfl
  · dsimp only
    by_cases h : r.status ≠ STATUS_PENDING
    · rw [if_pos h]; left; rfl
    · rw [if_neg h]
      push_neg at h
      right
      exact ⟨r, rfl, h, rfl⟩

theorem reject_cases (st : St) (rid admin : Nat) (note : String) (now : Nat) :
    (reject_reservation st rid admin note now).1 = st ∨
    ∃ r, findRes st rid = some r ∧ r.status = STATUS_PENDING ∧
      (reject_reservation st rid admin note now).1
        = updateRes (release_hold st r) rid (fun _ => { r with status := STATUS_REJECTED, admin_note := note, reviewed_at := some now, reviewed_by_tg_id := some admin, hold_applied := false }) := by
  unfold reject_reservation
  rcases hf : findRes st rid with _ | r
  · left; rfl
  · dsimp only
    by_cases h : r.status ≠ STATUS_PENDING
    · rw [if_pos h]; left; rfl
    · rw [if_neg h]
      push_neg at h
      right
      exact ⟨r, rfl, h, rfl⟩


theorem cancel_cases (st : St) (u rid : Nat) :
    (cancel_reservation_for_user st u rid).1 = st ∨
    ∃ r, st.ress.find? (fun x => x.rid = rid && x.user_id = u) = some r ∧
      r.status ≠ STATUS_CANCELLED ∧ r.status ≠ STATUS_REJECTED ∧
      (cancel_reservation_for_user st u rid).1
        = updateRes (release_hold st r) rid (fun _ => { r with status := STATUS_CANCELLED, hold_applied := false }) := by
  unfold cancel_reservation_for_user
  rcases hf : st.ress.find? (fun x : Reservation => x.rid = rid && x.user_id = u) with _ | r
  · left
    rfl
  · dsimp only
    by_cases h : r.status = STATUS_CANCELLED ∨ r.status = STATUS_REJECTED
    · rw [if_pos (by rcases h with h | h <;> simp [h])]
      left; rfl
    · push_neg at h
      rw [if_neg (by simp [h.1, h.2])]
      right
      exact ⟨r, rfl, h.1, h.2, rfl⟩

theorem ownerHold_eq_of_ress (st1 st2 : St) (h : st1.ress = st2.ress)
    (a : Attendee) : ownerHoldApplied st1 a = ownerHoldApplied st2 a := by
  unfold ownerHoldApplied
  rw [h]

theorem find?_rid_map (ress : List Reservation) (rid : Nat) (r2 : Reservation)
    (hr2 : r2.rid = rid) (k : Nat) :
    (ress.map (fun x => if x.rid = rid then r2 else x)).find?
        (fun x => x.rid = k)
      = (ress.find? (fun x => x.rid = k)).map
          (fun x => if x.rid = rid then r2 else x) :=
  find?_map_pred _ _ (fun x => by
    by_cases h : x.rid = rid <;> simp [h, hr2]) ress

theorem ownerHold_of_find (st : St) (rid : Nat) (r : Reservation)
    (hfind : findRes st rid = some r) (a : Attendee)
    (ha : a.reservation_id = rid) : ownerHoldApplied st a = r.hold_applied := by
  unfold findRes at hfind
  unfold ownerHoldApplied
  rw [ha, hfind]

theorem ownerHold_mapped (st st2 : St) (rid : Nat) (r r2 : Reservation)
    (hress : st2.ress = st.ress.map (fun x => if x.rid = rid then r2 else x))
    (hfind : findRes st rid = some r) (hr2 : r2.rid = rid) (a : Attendee) :
    ownerHoldApplied st2 a
      = if a.reservation_id = rid then r2.hold_applied
        else ownerHoldApplied st a := by
  unfold findRes at hfind
  unfold ownerHoldApplied
  rw [hress, find?_rid_map st.ress rid r2 hr2 a.reservation_id]
  by_cases hq : a.reservation_id = rid
  · rw [hq, if_pos rfl, hfind]
    have hr : r.rid = rid := by simpa using List.find?_some hfind
    simp [hr]
  · rw [if_neg hq]
    cases hfd : st.ress.find? (fun x => x.rid = a.reservation_id) with
    | none => rfl
    | some r' =>
      have hr' : r'.rid = a.reservation_id := by simpa using List.find?_some hfd
      dsimp only [Option.map_some']
      rw [if_neg (by rw [hr']; exact hq)]

theorem length_filter_triple {α : Type} (p1 p2 pr q : α → Bool)
    (hp : ∀ a, p2 a = (!(q a) && p1 a)) (hr : ∀ a, pr a = (q a && p1 a))
    (l : List α) :
    (l.filter p2).length + (l.filter pr).length = (l.filter p1).length := by
  induction l with
  | nil => rfl
  | cons a l ih =>
    by_cases hq : q a = true <;> by_cases h1 : p1 a = true <;>
      simp [List.filter, hp, hr, hq, h1] <;> omega

theorem eq_singleton_of_length_mem {α : Type} (l : List α) (a : α)
    (h1 : l.length = 1) (h2 : a ∈ l) : l = [a] := by
  cases l with
  | nil => simp at h2
  | cons x t =>
    cases t with
    | nil =>
      have : a = x := by simpa using h2
      rw [this]
    | cons y u => simp at h1

theorem find?_rid_of_mem (l : List Reservation) (rid : Nat) (r : Reservation)
    (hnd : (l.map (fun x => x.rid)).Nodup) (hmem : r ∈ l) (hr : r.rid = rid) :
    l.find? (fun x => x.rid = rid) = some r := by
  induction l with
  | nil => simp at hmem
  | cons b l ih =>
    rw [List.map_cons, List.nodup_cons] at hnd
    by_cases hb : b.rid = rid
    · rw [List.find?_cons_of_pos _ (by simp [hb])]
      rcases List.mem_cons.mp hmem with h | h
      · rw [h]
      · exact absurd (by
          rw [hb, ← hr]
          exact List.mem_map_of_mem (fun x => x.rid) h) hnd.1
    · rw [List.find?_cons_of_neg _ (by simp [hb])]
      refine ih hnd.2 ?_
      rcases List.mem_cons.mp hmem with h | h
      · exact absurd (h ▸ hr) hb
      · exact h

theorem length_split_gender (l : List Attendee)
    (hg : ∀ a ∈ l, a.gender ≠ Gender.unknown) :
    l.length = (l.filter (fun a => a.gender = Gender.boy)).length
      + (l.filter (fun a => a.gender = Gender.girl)).length := by
  induction l with
  | nil => rfl
  | cons a l ih =>
    have ha := hg a (by simp)
    have ih' := ih (fun x hx => hg x (by simp [hx]))
    cases hga : a.gender with
    | unknown => exact absurd hga ha
    | boy =>
      simp [List.filter, hga, ih']
      omega
    | girl =>
      simp [List.filter, hga, ih']
      omega

theorem count_append_single (l : List Attendee) (na : Attendee)
    (p : Attendee → Bool) :
    ((l ++ [na]).filter p).length
      = (l.filter p).length + (if p na = true then 1 else 0) := by
  rw [List.filter_append]
  by_cases h : p na = true <;> simp [List.filter, h]

theorem atts_of_append (st st2 : St) (na : Attendee)
    (hatts : st2.atts = st.atts ++ [na]) (k : Nat) :
    atts_of st2 k
      = atts_of st k
        ++ (if (na.reservation_id = k : Bool) then [na] else []) := by
  unfold atts_of
  rw [hatts, List.filter_append]
  by_cases h : na.reservation_id = k <;> simp [List.filter, h]

theorem filter_replicate_count (G H : Gender) (n : Nat) :
    ((List.replicate n G).filter (fun x => x = H)).length
      = if G = H then n else 0 := by
  induction n with
  | zero => simp
  | succ n ih =>
    by_cases h : G = H <;> simp [List.replicate_succ, List.filter, h, ih]

theorem map_rid_update (l : List Reservation) (rid : Nat) (r2 : Reservation)
    (h : r2.rid = rid) :
    (l.map (fun x => if x.rid = rid then r2 else x)).map (fun x => x.rid)
      = l.map (fun x => x.rid) := by
  rw [List.map_map]
  exact List.map_congr_left (fun x hx => by
    by_cases hh : x.rid = rid <;> simp [Function.comp, hh, h])

theorem mem_update_elim (l : List Reservation) (rid : Nat) (r2 : Reservation)
    (r' : Reservation)
    (h : r' ∈ l.map (fun x => if x.rid = rid then r2 else x)) :
    r' = r2 ∨ (r' ∈ l ∧ r'.rid ≠ rid) := by
  obtain ⟨x, hx, hgx⟩ := List.mem_map.mp h
  by_cases hxr : x.rid = rid
  · left
    rw [← hgx, if_pos hxr]
  · right
    rw [← hgx, if_neg hxr]
    exact ⟨hx, hxr⟩

theorem mem_update_of_mem (l : List Reservation) (rid : Nat) (r2 : Reservation)
    (x : Reservation) (hx : x ∈ l) :
    (if x.rid = rid then r2 else x) ∈ l.map (fun x => if x.rid = rid then r2 else x) :=
  List.mem_map_of_mem _ hx

theorem release_counts_eq (st : St) (r : Reservation)
    (hh : r.hold_applied = true)
    (hne : 1 ≤ (atts_of st r.rid).length)
    (htier : ∀ a ∈ st.atts, (a.ticket_tier).isSome) :
    release_hold st r
      = { st with ev := add_to_tiers st.ev (reservation_hold_counts st r.rid) } := by
  obtain ⟨a, hamem⟩ := List.exists_mem_of_length_pos (by omega :
    0 < (atts_of st r.rid).length)
  have hmem : a ∈ st.atts := List.mem_of_mem_filter hamem
  have hra : a.reservation_id = r.rid := by
    simpa using List.of_mem_filter hamem
  obtain ⟨t0, ht0⟩ := Option.isSome_iff_exists.mp (htier a hmem)
  have hcount : 0 < reservation_hold_counts st r.rid t0 := by
    unfold reservation_hold_counts
    exact List.length_pos.mpr (List.ne_nil_of_mem
      (List.mem_filter.mpr ⟨hmem, by simp [hra, ht0]⟩))
  have hce : hold_counts_empty st r.rid = false := by
    cases hb : hold_counts_empty st r.rid with
    | false => rfl
    | true =>
      exfalso
      unfold hold_counts_empty at hb
      rw [List.all_eq_true] at hb
      have hz := hb t0 (by cases t0 <;> simp [tier_order])
      simp at hz
      omega
  unfold release_hold
  rw [hh, if_neg (by simp)]
  dsimp only
  rw [hce, if_neg (by simp)]

theorem filter_comm_fuse {α : Type} (p q : α → Bool) (l : List α) :
    (l.filter q).filter p = l.filter (fun a => q a && p a) := by
  induction l with
  | nil => rfl
  | cons a l ih =>
    by_cases hq : q a = true <;> by_cases hp : p a = true <;>
      simp [List.filter, hq, hp, ih]

theorem count_of_erase (st st2 : St) (a0 : Attendee)
    (hatts : st2.atts = st.atts.filter (fun x => x.aid ≠ a0.aid))
    (hmem : a0 ∈ st.atts)
    (hnodup : (st.atts.map (fun a => a.aid)).Nodup)
    (p : Attendee → Bool) (k : Nat) :
    ((atts_of st2 k).filter p).length
        + (if ((a0.reservation_id = k : Bool) && p a0) = true then 1 else 0)
      = ((atts_of st k).filter p).length := by
  unfold atts_of
  rw [hatts,
    filter_comm_fuse p (fun a => decide (a.reservation_id = k))
      (st.atts.filter (fun x => x.aid ≠ a0.aid)),
    filter_comm_fuse p (fun a => decide (a.reservation_id = k)) st.atts]
  exact length_filter_erase st.atts a0
    (fun a => decide (a.reservation_id = k) && p a) hmem hnodup

theorem held_sum_mapped_preserve (st st2 : St) (rid : Nat) (r r2 : Reservation)
    (hress : st2.ress = st.ress.map (fun x => if x.rid = rid then r2 else x))
    (hatts : st2.atts = st.atts)
    (hfind : findRes st rid = some r)
    (hr2 : r2.rid = rid) (hh : r2.hold_applied = r.hold_applied) (t : Tier) :
    held_sum st2 t = held_sum st t := by
  unfold held_sum
  rw [hatts]
  refine congrArg List.length (List.filter_congr (fun a _ => ?_))
  rw [ownerHold_mapped st st2 rid r r2 hress hfind hr2 a]
  by_cases hq : a.reservation_id = rid
  · rw [if_pos hq, hh, ownerHold_of_find st rid r hfind a hq]
  · rw [if_neg hq]

theorem held_sum_flip_off (st st2 : St) (rid : Nat) (r r2 : Reservation)
    (hress : st2.ress = st.ress.map (fun x => if x.rid = rid then r2 else x))
    (hatts : st2.atts = st.atts)
    (hfind : findRes st rid = some r)
    (hh : r.hold_applied = true)
    (hr2 : r2.rid = rid) (hr2h : r2.hold_applied = false) (t : Tier) :
    held_sum st2 t + reservation_hold_counts st rid t = held_sum st t := by
  unfold held_sum reservation_hold_counts
  rw [hatts]
  refine length_filter_triple
    (fun a => ownerHoldApplied st a && decide (a.ticket_tier = some t))
    (fun a => ownerHoldApplied st2 a && decide (a.ticket_tier = some t))
    (fun a => decide (a.reservation_id = rid) && decide (a.ticket_tier = some t))
    (fun a => decide (a.reservation_id = rid)) ?_ ?_ st.atts
  · intro a
    dsimp only
    rw [ownerHold_mapped st st2 rid r r2 hress hfind hr2 a]
    by_cases hq : a.reservation_id = rid
    · simp [hq, hr2h]
    · simp [hq]
  · intro a
    dsimp only
    by_cases hq : a.reservation_id = rid
    · rw [ownerHold_of_find st rid r hfind a hq, hh]
      simp [hq]
    · simp [hq]

theorem held_sum_add (st st2 : St) (rid : Nat) (r r2 : Reservation)
    (na : Attendee) (t0 : Tier)
    (hress : st2.ress = st.ress.map (fun x => if x.rid = rid then r2 else x))
    (hatts : st2.atts = st.atts ++ [na])
    (hfind : findRes st rid = some r)
    (hr2 : r2.rid = rid) (hr2h : r2.hold_applied = true)
    (hhold : r.hold_applied = true)
    (hna : na.reservation_id = rid) (ht0 : na.ticket_tier = some t0)
    (u : Tier) :
    held_sum st2 u = held_sum st u + (if u = t0 then 1 else 0) := by
  unfold held_sum
  rw [hatts, List.filter_append, List.length_append]
  have hold_eq : (st.atts.filter
        (fun a => ownerHoldApplied st2 a && decide (a.ticket_tier = some u)))
      = (st.atts.filter
        (fun a => ownerHoldApplied st a && decide (a.ticket_tier = some u))) :=
    List.filter_congr (fun a _ => by
      rw [ownerHold_mapped st st2 rid r r2 hress hfind hr2 a]
      by_cases hq : a.reservation_id = rid
      · rw [if_pos hq, hr2h, ownerHold_of_find st rid r hfind a hq, hhold]
      · rw [if_neg hq])
  rw [hold_eq]
  have howner : ownerHoldApplied st2 na = true := by
    rw [ownerHold_mapped st st2 rid r r2 hress hfind hr2 na, if_pos hna, hr2h]
  by_cases hu : u = t0
  · simp [List.filter, howner, ht0, hu]
  · have hd : decide (t0 = u) = false := decide_eq_false (fun hc => hu hc.symm)
    simp [List.filter, howner, ht0, hu, hd]

theorem held_sum_erase (st st2 : St) (r : Reservation) (a0 : Attendee)
    (t0 : Tier)
    (hatts : st2.atts = st.atts.filter (fun x => x.aid ≠ a0.aid))
    (hfind : findRes st a0.reservation_id = some r)
    (hh : r.hold_applied = true)
    (ht0 : a0.ticket_tier = some t0)
    (hmem : a0 ∈ st.atts)
    (hnodup : (st.atts.map (fun a => a.aid)).Nodup)
    (howner : ∀ a ∈ st.atts, a.aid ≠ a0.aid →
      ownerHoldApplied st2 a = ownerHoldApplied st a) (u : Tier) :
    held_sum st2 u + (if u = t0 then 1 else 0) = held_sum st u := by
  unfold held_sum
  rw [hatts]
  have hcg : (st.atts.filter (fun x => x.aid ≠ a0.aid)).filter
        (fun a => ownerHoldApplied st2 a && decide (a.ticket_tier = some u))
      = (st.atts.filter (fun x => x.aid ≠ a0.aid)).filter
        (fun a => ownerHoldApplied st a && decide (a.ticket_tier = some u)) :=
    List.filter_congr (fun a ha => by
      have hmem' := List.mem_of_mem_filter ha
      have hne : a.aid ≠ a0.aid := by simpa using List.of_mem_filter ha
      rw [howner a hmem' hne])
  rw [hcg]
  have hkey := length_filter_erase st.atts a0
    (fun a => ownerHoldApplied st a && decide (a.ticket_tier = some u))
    hmem hnodup
  dsimp only at hkey
  rw [ownerHold_of_find st a0.reservation_id r hfind a0 rfl, hh, ht0] at hkey
  simp only [Bool.true_and, Option.some.injEq, decide_eq_true_eq] at hkey
  by_cases hu : u = t0
  · subst hu
    rw [if_pos rfl] at hkey
    rw [if_pos rfl]
    exact hkey
  · rw [if_neg hu]
    rw [if_neg (fun hc : t0 = u => hu hc.symm)] at hkey
    exact hkey

theorem storeInv_initial (init : Event) : StoreInv init (initial_st init) := by
  refine ⟨?_, ?_, ?_, ?_, ?_, ?_, ?_, ?_, ?_, ?_, ?_, ?_, ?_, ?_, ?_⟩
  · intro r hr; exact absurd hr (List.not_mem_nil r)
  · intro r hr; exact absurd hr (List.not_mem_nil r)
  · intro r hr; exact absurd hr (List.not_mem_nil r)
  · intro r hr; exact absurd hr (List.not_mem_nil r)
  · intro r hr; exact absurd hr (List.not_mem_nil r)
  · intro r hr; exact absurd hr (List.not_mem_nil r)
  · intro r hr; exact absurd hr (List.not_mem_nil r)
  · intro r hr; exact absurd hr (List.not_mem_nil r)
  · exact List.nodup_nil
  · intro a ha; exact absurd ha (List.not_mem_nil a)
  · intro a ha; exact absurd ha (List.not_mem_nil a)
  · intro a ha; exact absurd ha (List.not_mem_nil a)
  · intro a ha; exact absurd ha (List.not_mem_nil a)
  · exact List.nodup_nil
  · intro t
    show init.tierQty t = init.tierQty t - ((held_sum (initial_st init) t : Nat) : Int)
    have : held_sum (initial_st init) t = 0 := rfl
    rw [this]
    simp

theorem storeInv_approve (init : Event) (st : St) (rid admin now : Nat)
    (h : StoreInv init st) :
    StoreInv init (approve_reservation st rid admin now).1 := by
  rcases approve_cases st rid admin now with hsame | ⟨r, hfind, hstat, heq⟩
  · rw [hsame]; exact h
  · rw [heq]
    set r2 : Reservation := { r with status := STATUS_APPROVED, reviewed_at := some now, reviewed_by_tg_id := some admin } with hr2def
    have hrrid : r.rid = rid := findRes_rid st rid r hfind
    have hmemr : r ∈ st.ress := List.mem_of_find?_eq_some hfind
    have hhold : r.hold_applied = true :=
      (h.hold_mut r hmemr).mpr (Or.inl hstat)
    have hr2rid : r2.rid = rid := hrrid
    have hress : (updateRes st rid (fun _ => r2)).ress
        = st.ress.map (fun x => if x.rid = rid then r2 else x) := rfl
    have hev : (updateRes st rid (fun _ => r2)).ev = st.ev := rfl
    refine ⟨?_, ?_, ?_, ?_, ?_, ?_, ?_, ?_, ?_, ?_, ?_, ?_, ?_, ?_, ?_⟩
    · intro r' hr'
      rcases mem_update_elim st.ress rid r2 r' (hress ▸ hr') with he | ⟨hm, _⟩
      · rw [he]; exact Or.inr (Or.inl rfl)
      · exact h.res_status r' hm
    · intro r' hr'
      rw [boys_of_updateRes]
      rcases mem_update_elim st.ress rid r2 r' (hress ▸ hr') with he | ⟨hm, _⟩
      · rw [he]; exact h.res_boys r hmemr
      · exact h.res_boys r' hm
    · intro r' hr'
      rw [girls_of_updateRes]
      rcases mem_update_elim st.ress rid r2 r' (hress ▸ hr') with he | ⟨hm, _⟩
      · rw [he]; exact h.res_girls r hmemr
      · exact h.res_girls r' hm
    · intro r' hr'
      rw [atts_of_updateRes]
      rcases mem_update_elim st.ress rid r2 r' (hress ▸ hr') with he | ⟨hm, _⟩
      · rw [he]; exact h.res_quantity r hmemr
      · exact h.res_quantity r' hm
    · intro r' hr'
      rcases mem_update_elim st.ress rid r2 r' (hress ▸ hr') with he | ⟨hm, _⟩
      · rw [he]
        intro hc
        exact absurd hc (show ¬STATUS_APPROVED = STATUS_CANCELLED by decide)
      · exact h.cz_total r' hm
    · intro r' hr'
      rcases mem_update_elim st.ress rid r2 r' (hress ▸ hr') with he | ⟨hm, _⟩
      · rw [he]
        constructor
        · intro _; exact Or.inr rfl
        · intro _; exact hhold
      · exact h.hold_mut r' hm
    · intro r' hr'
      rcases mem_update_elim st.ress rid r2 r' (hress ▸ hr') with he | ⟨hm, _⟩
      · rw [he]
        intro _
        exact h.res_pos r hmemr (Or.inl hstat)
      · exact h.res_pos r' hm
    · intro r' hr'
      rcases mem_update_elim st.ress rid r2 r' (hress ▸ hr') with he | ⟨hm, _⟩
      · rw [he]; exact h.res_rid_lt r hmemr
      · exact h.res_rid_lt r' hm
    · rw [hress, map_rid_update st.ress rid r2 hr2rid]
      exact h.res_nodup
    · intro a ha; exact h.att_gender a ha
    · intro a ha; exact h.att_tier a ha
    · intro a ha
      obtain ⟨r', hr'mem, hr'rid⟩ := h.att_owner a ha
      refine ⟨if r'.rid = rid then r2 else r', hress ▸
        mem_update_of_mem st.ress rid r2 r' hr'mem, ?_⟩
      by_cases hc : r'.rid = rid
      · rw [if_pos hc, hr2rid, ← hc]
        exact hr'rid
      · rw [if_neg hc]; exact hr'rid
    · intro a ha; exact h.att_aid_lt a ha
    · exact h.att_nodup
    · intro t
      rw [hev,
        held_sum_mapped_preserve st (updateRes st rid (fun _ => r2))
          rid r r2 hress rfl hfind hr2rid rfl t]
      exact h.ev_acct t

theorem storeInv_reject (init : Event) (st : St) (rid admin : Nat)
    (note : String) (now : Nat) (h : StoreInv init st) :
    StoreInv init (reject_reservation st rid admin note now).1 := by
  rcases reject_cases st rid admin note now with hsame | ⟨r, hfind, hstat, heq⟩
  · rw [hsame]; exact h
  · have hrrid : r.rid = rid := findRes_rid st rid r hfind
    have hmemr : r ∈ st.ress := List.mem_of_find?_eq_some hfind
    have hhold : r.hold_applied = true :=
      (h.hold_mut r hmemr).mpr (Or.inl hstat)
    have hqpos : 1 ≤ r.quantity := h.res_pos r hmemr (Or.inl hstat)
    have hqe := h.res_quantity r hmemr
    have hlen : 1 ≤ (atts_of st r.rid).length := by omega
    rw [heq, release_counts_eq st r hhold hlen h.att_tier]
    set r2 : Reservation := { r with status := STATUS_REJECTED, admin_note := note, reviewed_at := some now, reviewed_by_tg_id := some admin, hold_applied := false } with hr2def
    set E : Event := add_to_tiers st.ev (reservation_hold_counts st r.rid) with hEdef
    have hr2rid : r2.rid = rid := hrrid
    have hress : (updateRes { st with ev := E } rid (fun _ => r2)).ress
        = st.ress.map (fun x => if x.rid = rid then r2 else x) := rfl
    have hatts : (updateRes { st with ev := E } rid (fun _ => r2)).atts
        = st.atts := rfl
    have hev : (updateRes { st with ev := E } rid (fun _ => r2)).ev = E := rfl
    refine ⟨?_, ?_, ?_, ?_, ?_, ?_, ?_, ?_, ?_, ?_, ?_, ?_, ?_, ?_, ?_⟩
    · intro r' hr'
      rcases mem_update_elim st.ress rid r2 r' (hress ▸ hr') with he | ⟨hm, _⟩
      · rw [he]; exact Or.inr (Or.inr (Or.inl rfl))
      · exact h.res_status r' hm
    · intro r' hr'
      rw [boys_of_updateRes]
      rcases mem_update_elim st.ress rid r2 r' (hress ▸ hr') with he | ⟨hm, _⟩
      · rw [he]; exact h.res_boys r hmemr
      · exact h.res_boys r' hm
    · intro r' hr'
      rw [girls_of_updateRes]
      rcases mem_update_elim st.ress rid r2 r' (hress ▸ hr') with he | ⟨hm, _⟩
      · rw [he]; exact h.res_girls r hmemr
      · exact h.res_girls r' hm
    · intro r' hr'
      rw [atts_of_updateRes]
      rcases mem_update_elim st.ress rid r2 r' (hress ▸ hr') with he | ⟨hm, _⟩
      · rw [he]; exact h.res_quantity r hmemr
      · exact h.res_quantity r' hm
    · intro r' hr'
      rcases mem_update_elim st.ress rid r2 r' (hress ▸ hr') with he | ⟨hm, _⟩
      · rw [he]
        intro hc
        exact absurd hc (show ¬STATUS_REJECTED = STATUS_CANCELLED by decide)
      · exact h.cz_total r' hm
    · intro r' hr'
      rcases mem_update_elim st.ress rid r2 r' (hress ▸ hr') with he | ⟨hm, _⟩
      · rw [he]
        constructor
        · intro hc
          exact absurd hc (show ¬(false = true) by decide)
        · intro hPA
          rcases hPA with hp | hp
          · exact absurd hp (show ¬STATUS_REJECTED = STATUS_PENDING by decide)
          · exact absurd hp (show ¬STATUS_REJECTED = STATUS_APPROVED by decide)
      · exact h.hold_mut r' hm
    · intro r' hr'
      rcases mem_update_elim st.ress rid r2 r' (hress ▸ hr') with he | ⟨hm, _⟩
      · rw [he]
        intro hPA
        rcases hPA with hp | hp
        · exact absurd hp (show ¬STATUS_REJECTED = STATUS_PENDING by decide)
        · exact absurd hp (show ¬STATUS_REJECTED = STATUS_APPROVED by decide)
      · exact h.res_pos r' hm
    · intro r' hr'
      rcases mem_update_elim st.ress rid r2 r' (hress ▸ hr') with he | ⟨hm, _⟩
      · rw [he]; exact h.res_rid_lt r hmemr
      · exact h.res_rid_lt r' hm
    · rw [hress, map_rid_update st.ress rid r2 hr2rid]
      exact h.res_nodup
    · intro a ha; exact h.att_gender a ha
    · intro a ha; exact h.att_tier a ha
    · intro a ha
      obtain ⟨r', hr'mem, hr'rid⟩ := h.att_owner a ha
      refine ⟨if r'.rid = rid then r2 else r', hress ▸
        mem_update_of_mem st.ress rid r2 r' hr'mem, ?_⟩
      by_cases hc : r'.rid = rid
      · rw [if_pos hc, hr2rid, ← hc]
        exact hr'rid
      · rw [if_neg hc]; exact hr'rid
    · intro a ha; exact h.att_aid_lt a ha
    · exact h.att_nodup
    · intro t
      have hflip := held_sum_flip_off st
        (updateRes { st with ev := E } rid (fun _ => r2)) rid r r2
        hress hatts hfind hhold hr2rid rfl t
      have hacct := h.ev_acct t
      have hEq : E.tierQty t = st.ev.tierQty t
          + (reservation_hold_counts st r.rid t : Int) := by
        rw [hEdef, tierQty_add_to_tiers]
      rw [hrrid] at hEq
      rw [hev, hEq]
      omega

theorem storeInv_cancel (init : Event) (st : St) (u rid : Nat)
    (h : StoreInv init st) :
    StoreInv init (cancel_reservation_for_user st u rid).1 := by
  rcases cancel_cases st u rid with hsame | ⟨r, hfindU, hnc, hnr, heq⟩
  · rw [hsame]; exact h
  · have hmemr : r ∈ st.ress := List.mem_of_find?_eq_some hfindU
    have hpred := List.find?_some hfindU
    have hrrid : r.rid = rid := by
      simp only [Bool.and_eq_true, decide_eq_true_eq] at hpred
      exact hpred.1
    have hfind : findRes st rid = some r :=
      find?_rid_of_mem st.ress rid r h.res_nodup hmemr hrrid
    have hPA : r.status = STATUS_PENDING ∨ r.status = STATUS_APPROVED := by
      rcases h.res_status r hmemr with hs | hs | hs | hs
      · exact Or.inl hs
      · exact Or.inr hs
      · exact absurd hs hnr
      · exact absurd hs hnc
    have hhold : r.hold_applied = true := (h.hold_mut r hmemr).mpr hPA
    have hqpos : 1 ≤ r.quantity := h.res_pos r hmemr hPA
    have hqe := h.res_quantity r hmemr
    have hlen : 1 ≤ (atts_of st r.rid).length := by omega
    rw [heq, release_counts_eq st r hhold hlen h.att_tier]
    set r2 : Reservation := { r with status := STATUS_CANCELLED, hold_applied := false } with hr2def
    set E : Event := add_to_tiers st.ev (reservation_hold_counts st r.rid) with hEdef
    have hr2rid : r2.rid = rid := hrrid
    have hress : (updateRes { st with ev := E } rid (fun _ => r2)).ress
        = st.ress.map (fun x => if x.rid = rid then r2 else x) := rfl
    have hatts : (updateRes { st with ev := E } rid (fun _ => r2)).atts
        = st.atts := rfl
    have hev : (updateRes { st with ev := E } rid (fun _ => r2)).ev = E := rfl
    refine ⟨?_, ?_, ?_, ?_, ?_, ?_, ?_, ?_, ?_, ?_, ?_, ?_, ?_, ?_, ?_⟩
    · intro r' hr'
      rcases mem_update_elim st.ress rid r2 r' (hress ▸ hr') with he | ⟨hm, _⟩
      · rw [he]; exact Or.inr (Or.inr (Or.inr rfl))
      · exact h.res_status r' hm
    · intro r' hr'
      rw [boys_of_updateRes]
      rcases mem_update_elim st.ress rid r2 r' (hress ▸ hr') with he | ⟨hm, _⟩
      · rw [he]; exact h.res_boys r hmemr
      · exact h.res_boys r' hm
    · intro r' hr'
      rw [girls_of_updateRes]
      rcases mem_update_elim st.ress rid r2 r' (hress ▸ hr') with he | ⟨hm, _⟩
      · rw [he]; exact h.res_girls r hmemr
      · exact h.res_girls r' hm
    · intro r' hr'
      rw [atts_of_updateRes]
      rcases mem_update_elim st.ress rid r2 r' (hress ▸ hr') with he | ⟨hm, _⟩
      · rw [he]; exact h.res_quantity r hmemr
      · exact h.res_quantity r' hm
    · intro r' hr'
      rcases mem_update_elim st.ress rid r2 r' (hress ▸ hr') with he | ⟨hm, _⟩
      · rw [he]
        intro _ hq
        have hq' : r.quantity = 0 := hq
        omega
      · exact h.cz_total r' hm
    · intro r' hr'
      rcases mem_update_elim st.ress rid r2 r' (hress ▸ hr') with he | ⟨hm, _⟩
      · rw [he]
        constructor
        · intro hc
          exact absurd hc (show ¬(false = true) by decide)
        · intro hPA2
          rcases hPA2 with hp | hp
          · exact absurd hp (show ¬STATUS_CANCELLED = STATUS_PENDING by decide)
          · exact absurd hp (show ¬STATUS_CANCELLED = STATUS_APPROVED by decide)
      · exact h.hold_mut r' hm
    · intro r' hr'
      rcases mem_update_elim st.ress rid r2 r' (hress ▸ hr') with he | ⟨hm, _⟩
      · rw [he]
        intro hPA2
        rcases hPA2 with hp | hp
        · exact absurd hp (show ¬STATUS_CANCELLED = STATUS_PENDING by decide)
        · exact absurd hp (show ¬STATUS_CANCELLED = STATUS_APPROVED by decide)
      · exact h.res_pos r' hm
    · intro r' hr'
      rcases mem_update_elim st.ress rid r2 r' (hress ▸ hr') with he | ⟨hm, _⟩
      · rw [he]; exact h.res_rid_lt r hmemr
      · exact h.res_rid_lt r' hm
    · rw [hress, map_rid_update st.ress rid r2 hr2rid]
      exact h.res_nodup
    · intro a ha; exact h.att_gender a ha
    · intro a ha; exact h.att_tier a ha
    · intro a ha
      obtain ⟨r', hr'mem, hr'rid⟩ := h.att_owner a ha
      refine ⟨if r'.rid = rid then r2 else r', hress ▸
        mem_update_of_mem st.ress rid r2 r' hr'mem, ?_⟩
      by_cases hc : r'.rid = rid
      · rw [if_pos hc, hr2rid, ← hc]
        exact hr'rid
      · rw [if_neg hc]; exact hr'rid
    · intro a ha; exact h.att_aid_lt a ha
    · exact h.att_nodup
    · intro t
      have hflip := held_sum_flip_off st
        (updateRes { st with ev := E } rid (fun _ => r2)) rid r r2
        hress hatts hfind hhold hr2rid rfl t
      have hacct := h.ev_acct t
      have hEq : E.tierQty t = st.ev.tierQty t
          + (reservation_hold_counts st r.rid t : Int) := by
        rw [hEdef, tierQty_add_to_tiers]
      rw [hrrid] at hEq
      rw [hev, hEq]
      omega

theorem len_atts_append (st st2 : St) (na : Attendee)
    (hatts : st2.atts = st.atts ++ [na]) (k : Nat) :
    (atts_of st2 k).length
      = (atts_of st k).length + (if na.reservation_id = k then 1 else 0) := by
  rw [atts_of_append st st2 na hatts k]
  by_cases h1 : na.reservation_id = k <;> simp [h1]

theorem boys_of_append (st st2 : St) (na : Attendee)
    (hatts : st2.atts = st.atts ++ [na]) (k : Nat) :
    boys_of st2 k
      = boys_of st k
        + (if na.reservation_id = k ∧ na.gender = Gender.boy then 1 else 0) := by
  unfold boys_of
  rw [atts_of_append st st2 na hatts k]
  by_cases h1 : na.reservation_id = k <;>
    by_cases h2 : na.gender = Gender.boy <;>
    simp [h1, h2, List.filter_append, List.filter]

theorem girls_of_append (st st2 : St) (na : Attendee)
    (hatts : st2.atts = st.atts ++ [na]) (k : Nat) :
    girls_of st2 k
      = girls_of st k
        + (if na.reservation_id = k ∧ na.gender = Gender.girl then 1 else 0) := by
  unfold girls_of
  rw [atts_of_append st st2 na hatts k]
  by_cases h1 : na.reservation_id = k <;>
    by_cases h2 : na.gender = Gender.girl <;>
    simp [h1, h2, List.filter_append, List.filter]

theorem len_of_erase (st st2 : St) (a0 : Attendee)
    (hatts : st2.atts = st.atts.filter (fun x => x.aid ≠ a0.aid))
    (hmem : a0 ∈ st.atts)
    (hnodup : (st.atts.map (fun a => a.aid)).Nodup) (k : Nat) :
    (atts_of st2 k).length + (if a0.reservation_id = k then 1 else 0)
      = (atts_of st k).length := by
  have hc := count_of_erase st st2 a0 hatts hmem hnodup (fun _ => true) k
  simpa using hc

theorem boys_of_erase (st st2 : St) (a0 : Attendee)
    (hatts : st2.atts = st.atts.filter (fun x => x.aid ≠ a0.aid))
    (hmem : a0 ∈ st.atts)
    (hnodup : (st.atts.map (fun a => a.aid)).Nodup) (k : Nat) :
    boys_of st2 k
        + (if a0.reservation_id = k ∧ a0.gender = Gender.boy then 1 else 0)
      = boys_of st k := by
  have hc := count_of_erase st st2 a0 hatts hmem hnodup
    (fun a => a.gender = Gender.boy) k
  unfold boys_of
  by_cases h1 : a0.reservation_id = k <;>
    by_cases h2 : a0.gender = Gender.boy <;>
    simpa [h1, h2] using hc

theorem girls_of_erase (st st2 : St) (a0 : Attendee)
    (hatts : st2.atts = st.atts.filter (fun x => x.aid ≠ a0.aid))
    (hmem : a0 ∈ st.atts)
    (hnodup : (st.atts.map (fun a => a.aid)).Nodup) (k : Nat) :
    girls_of st2 k
        + (if a0.reservation_id = k ∧ a0.gender = Gender.girl then 1 else 0)
      = girls_of st k := by
  have hc := count_of_erase st st2 a0 hatts hmem hnodup
    (fun a => a.gender = Gender.girl) k
  unfold girls_of
  by_cases h1 : a0.reservation_id = k <;>
    by_cases h2 : a0.gender = Gender.girl <;>
    simpa [h1, h2] using hc

theorem add_desc (st : St) (rid : Nat) (nm : String) (g : Gender)
    (r : Reservation)
    (hg : g ≠ Gender.unknown)
    (hfind : findRes st rid = some r)
    (hmut : is_admin_mutable_reservation_status r.status = true)
    (hhold : r.hold_applied = true) :
    (admin_add_guest st rid nm g).1 = st ∨
    ∃ t, first_available st.ev.tierQty = some t ∧ 0 < st.ev.tierQty t ∧
      (admin_add_guest st rid nm g).1
        = { st with ev := st.ev.setTierQty t (st.ev.tierQty t - 1), ress := st.ress.map (fun x => if x.rid = rid then { r with quantity := r.quantity + 1, boys := r.boys + (if g = Gender.boy then 1 else 0), girls := r.girls + (if g = Gender.girl then 1 else 0), total_price := r.total_price + unit_price_for st.ev t g } else x), atts := st.atts ++ [{ aid := st.next_aid, reservation_id := rid, full_name := nm, gender := g, ticket_tier := some t }], next_aid := st.next_aid + 1 } := by
  unfold admin_add_guest
  rw [if_neg hg, hfind]
  dsimp only
  rw [if_neg (by simp [hmut])]
  rcases halloc : allocate_tier_plan st.ev (if g = Gender.boy then 1 else 0)
      (if g = Gender.girl then 1 else 0) with er | plan
  · left; rfl
  · dsimp only
    obtain ⟨hq, hgo⟩ := allocate_ok_shape _ _ _ _ halloc
    have hlist : (List.replicate (if g = Gender.boy then 1 else 0) Gender.boy
        ++ List.replicate (if g = Gender.girl then 1 else 0) Gender.girl)
          = [g] := by
      cases g with
      | boy => rfl
      | girl => rfl
      | unknown => exact absurd rfl hg
    rw [hlist] at hgo
    obtain ⟨t, rest, hfa, hrest, hshape⟩ :=
      alloc_go_cons st.ev g [] st.ev.tierQty _ hgo
    have hrest0 : rest = [] := alloc_go_nil _ _ _ hrest
    subst hrest0
    right
    refine ⟨t, hfa, first_available_pos hfa, ?_⟩
    simp only [hshape]
    dsimp only [List.headD]
    simp only [hhold]
    try dsimp only
    rw [if_pos (first_available_pos hfa)]
    rfl

theorem remove_guard_cases (st : St) (aid : Nat) :
    (admin_remove_guest st aid).1 = st ∨
    ∃ a r, st.atts.find? (fun x => x.aid = aid) = some a ∧
      st.ress.find? (fun x => x.rid = a.reservation_id) = some r ∧
      is_admin_mutable_reservation_status r.status = true := by
  rcases hfa : st.atts.find? (fun x => x.aid = aid) with _ | a
  · left
    unfold admin_remove_guest
    rw [hfa]
  · rcases hfr : st.ress.find? (fun x => x.rid = a.reservation_id) with _ | r
    · left
      unfold admin_remove_guest
      rw [hfa]
      dsimp only
      rw [hfr]
    · by_cases hmut : is_admin_mutable_reservation_status r.status = false
      · left
        unfold admin_remove_guest
        rw [hfa]
        dsimp only
        rw [hfr]
        dsimp only
        rw [if_pos hmut]
      · right
        have hmut2 : is_admin_mutable_reservation_status r.status = true := by
          cases hb : is_admin_mutable_reservation_status r.status
          · exact absurd hb hmut
          · rfl
        exact ⟨a, r, hfa, hfr, hmut2⟩

theorem remove_desc (st : St) (aid : Nat) (a : Attendee) (r : Reservation)
    (t0 : Tier)
    (hfindA : st.atts.find? (fun x => x.aid = aid) = some a)
    (hfindR : st.ress.find? (fun x => x.rid = a.reservation_id) = some r)
    (hmut : is_admin_mutable_reservation_status r.status = true)
    (htier : a.ticket_tier = some t0)
    (hhold : r.hold_applied = true)
    (hgbg : a.gender = Gender.boy ∨ a.gender = Gender.girl) :
    (r.quantity - 1 ≤ 0 ∧
      (admin_remove_guest st aid).1
        = { st with ev := st.ev.setTierQty t0 (st.ev.tierQty t0 + 1), ress := st.ress.map (fun x => if x.rid = r.rid then { r with quantity := 0, boys := 0, girls := 0, total_price := 0, status := STATUS_CANCELLED, hold_applied := false } else x), atts := st.atts.filter (fun x => x.aid ≠ aid) }) ∨
    (¬(r.quantity - 1 ≤ 0) ∧
      (admin_remove_guest st aid).1
        = { st with ev := st.ev.setTierQty t0 (st.ev.tierQty t0 + 1), ress := st.ress.map (fun x => if x.rid = r.rid then { r with quantity := r.quantity - 1, boys := (if a.gender = Gender.boy then max 0 (r.boys - 1) else r.boys), girls := (if a.gender = Gender.girl then max 0 (r.girls - 1) else r.girls), total_price := max 0 (r.total_price - reservation_unit_price r st.ev a.gender (some t0)) } else x), atts := st.atts.filter (fun x => x.aid ≠ aid) }) := by
  unfold admin_remove_guest
  rw [hfindA]
  dsimp only
  rw [hfindR]
  dsimp only
  rw [if_neg (by simp [hmut])]
  simp only [htier, hhold]
  rcases hgbg with hgb | hgg
  · simp only [hgb, decide_True, decide_False, Bool.true_or,
      show ((true : Bool) = true) = True from by simp, if_true]
    try dsimp only
    by_cases hc : r.quantity - 1 ≤ 0
    · left
      refine ⟨hc, ?_⟩
      rw [if_pos hc]
    · right
      refine ⟨hc, ?_⟩
      rw [if_neg hc]
      simp only [show (Gender.boy = Gender.boy) = True from by simp,
        show (Gender.boy = Gender.girl) = False from by simp, if_true, if_false]
  · simp only [hgg, decide_True, decide_False, Bool.or_true,
      show ((true : Bool) = true) = True from by simp, if_true]
    try dsimp only
    by_cases hc : r.quantity - 1 ≤ 0
    · left
      refine ⟨hc, ?_⟩
      rw [if_pos hc]
    · right
      refine ⟨hc, ?_⟩
      rw [if_neg hc]
      simp only [show (Gender.girl = Gender.boy) = False from by simp,
        show (Gender.girl = Gender.girl) = True from by simp, if_true, if_false]

theorem add_guard_cases (st : St) (rid : Nat) (nm : String) (g : Gender) :
    (admin_add_guest st rid nm g).1 = st ∨
    (g ≠ Gender.unknown ∧ ∃ r, findRes st rid = some r ∧
      is_admin_mutable_reservation_status r.status = true) := by
  by_cases hg : g = Gender.unknown
  · left
    unfold admin_add_guest
    rw [if_pos hg]
  · rcases hfind : findRes st rid with _ | r
    · left
      unfold admin_add_guest
      rw [if_neg hg, hfind]
    · by_cases hmut : is_admin_mutable_reservation_status r.status = false
      · left
        unfold admin_add_guest
        rw [if_neg hg, hfind]
        dsimp only
        rw [if_pos hmut]
      · right
        refine ⟨hg, r, rfl, ?_⟩
        cases hb : is_admin_mutable_reservation_status r.status
        · exact absurd hb hmut
        · rfl

theorem storeInv_add (init : Event) (st : St) (rid : Nat) (nm : String)
    (g : Gender) (h : StoreInv init st) :
    StoreInv init (admin_add_guest st rid nm g).1 := by
  rcases add_guard_cases st rid nm g with hsame | ⟨hg, r, hfind, hmut⟩
  · rw [hsame]; exact h
  · have hrrid : r.rid = rid := findRes_rid st rid r hfind
    have hmemr : r ∈ st.ress := List.mem_of_find?_eq_some hfind
    have hPA : r.status = STATUS_PENDING ∨ r.status = STATUS_APPROVED := by
      rcases h.res_status r hmemr with hs | hs | hs | hs
      · exact Or.inl hs
      · exact Or.inr hs
      · rw [hs] at hmut; exact absurd hmut (by decide)
      · rw [hs] at hmut; exact absurd hmut (by decide)
    have hhold : r.hold_applied = true := (h.hold_mut r hmemr).mpr hPA
    rcases add_desc st rid nm g r hg hfind hmut hhold with hsame | ⟨t, hfa, hqt, heq⟩
    · rw [hsame]; exact h
    · set S : St := (admin_add_guest st rid nm g).1 with hS
      set r2 : Reservation := { r with quantity := r.quantity + 1, boys := r.boys + (if g = Gender.boy then 1 else 0), girls := r.girls + (if g = Gender.girl then 1 else 0), total_price := r.total_price + unit_price_for st.ev t g } with hr2
      set na : Attendee := { aid := st.next_aid, reservation_id := rid, full_name := nm, gender := g, ticket_tier := some t } with hnadef
      have hress : S.ress = st.ress.map (fun x => if x.rid = rid then r2 else x) := by
        rw [heq]
      have hatts : S.atts = st.atts ++ [na] := by rw [heq]
      have hev : S.ev = st.ev.setTierQty t (st.ev.tierQty t - 1) := by rw [heq]
      have hnrid : S.next_rid = st.next_rid := by rw [heq]
      have hnaid : S.next_aid = st.next_aid + 1 := by rw [heq]
      have hr2rid : r2.rid = rid := hrrid
      have hr2hold : r2.hold_applied = true := hhold
      have hnares : na.reservation_id = rid := rfl
      have hnatier : na.ticket_tier = some t := rfl
      refine ⟨?_, ?_, ?_, ?_, ?_, ?_, ?_, ?_, ?_, ?_, ?_, ?_, ?_, ?_, ?_⟩
      · intro r' hr'
        rw [hress] at hr'
        rcases mem_update_elim st.ress rid r2 r' hr' with he | ⟨hm, _⟩
        · rw [he]; exact h.res_status r hmemr
        · exact h.res_status r' hm
      · intro r' hr'
        rw [hress] at hr'
        rcases mem_update_elim st.ress rid r2 r' hr' with he | ⟨hm, hne⟩
        · rw [he]
          have hrb := h.res_boys r hmemr
          rw [hrrid] at hrb
          have hb2 := boys_of_append st S na hatts rid
          rw [show r2.rid = rid from hrrid, hb2,
            show r2.boys = r.boys + (if g = Gender.boy then (1:Int) else 0)
              from rfl, hrb]
          by_cases hgb : g = Gender.boy <;> simp [hgb, hnadef]
        · have hb2 := boys_of_append st S na hatts r'.rid
          rw [hb2, if_neg (by
            intro hc
            exact hne ((show na.reservation_id = rid from rfl) ▸ hc.1).symm)]
          simpa using h.res_boys r' hm
      · intro r' hr'
        rw [hress] at hr'
        rcases mem_update_elim st.ress rid r2 r' hr' with he | ⟨hm, hne⟩
        · rw [he]
          have hrb := h.res_girls r hmemr
          rw [hrrid] at hrb
          have hb2 := girls_of_append st S na hatts rid
          rw [show r2.rid = rid from hrrid, hb2,
            show r2.girls = r.girls + (if g = Gender.girl then (1:Int) else 0)
              from rfl, hrb]
          by_cases hgb : g = Gender.girl <;> simp [hgb, hnadef]
        · have hb2 := girls_of_append st S na hatts r'.rid
          rw [hb2, if_neg (by
            intro hc
            exact hne ((show na.reservation_id = rid from rfl) ▸ hc.1).symm)]
          simpa using h.res_girls r' hm
      · intro r' hr'
        rw [hress] at hr'
        rcases mem_update_elim st.ress rid r2 r' hr' with he | ⟨hm, hne⟩
        · rw [he]
          have hrq := h.res_quantity r hmemr
          rw [hrrid] at hrq
          have hb2 := len_atts_append st S na hatts rid
          rw [show r2.rid = rid from hrrid, hb2,
            show r2.quantity = r.quantity + 1 from rfl, hrq,
            if_pos (show na.reservation_id = rid from rfl)]
          push_cast
          ring
        · have hb2 := len_atts_append st S na hatts r'.rid
          rw [hb2, if_neg (by
            intro hc
            exact hne ((show na.reservation_id = rid from rfl) ▸ hc).symm)]
          simpa using h.res_quantity r' hm
      · intro r' hr'
        rw [hress] at hr'
        rcases mem_update_elim st.ress rid r2 r' hr' with he | ⟨hm, _⟩
        · rw [he]
          intro hc _
          have hc' : r.status = STATUS_CANCELLED := hc
          rcases hPA with hp | hp <;> rw [hp] at hc' <;>
            exact absurd hc' (by decide)
        · exact h.cz_total r' hm
      · intro r' hr'
        rw [hress] at hr'
        rcases mem_update_elim st.ress rid r2 r' hr' with he | ⟨hm, _⟩
        · rw [he]; exact h.hold_mut r hmemr
        · exact h.hold_mut r' hm
      · intro r' hr'
        rw [hress] at hr'
        rcases mem_update_elim st.ress rid r2 r' hr' with he | ⟨hm, _⟩
        · rw [he]
          intro _
          have hp := h.res_pos r hmemr hPA
          show (1:Int) ≤ r.quantity + 1
          omega
        · exact h.res_pos r' hm
      · intro r' hr'
        rw [hnrid, hress] at *
        rw [hress] at hr'
        rcases mem_update_elim st.ress rid r2 r' hr' with he | ⟨hm, _⟩
        · rw [he]; exact h.res_rid_lt r hmemr
        · exact h.res_rid_lt r' hm
      · rw [hress, map_rid_update st.ress rid r2 hr2rid]
        exact h.res_nodup
      · intro a2 ha2
        rw [hatts] at ha2
        rcases List.mem_append.mp ha2 with hm | hm
        · exact h.att_gender a2 hm
        · have he : a2 = na := by simpa using hm
          rw [he]; exact hg
      · intro a2 ha2
        rw [hatts] at ha2
        rcases List.mem_append.mp ha2 with hm | hm
        · exact h.att_tier a2 hm
        · have he : a2 = na := by simpa using hm
          rw [he]; rfl
      · intro a2 ha2
        rw [hatts] at ha2
        rcases List.mem_append.mp ha2 with hm | hm
        · obtain ⟨r', hr'mem, hr'rid⟩ := h.att_owner a2 hm
          refine ⟨if r'.rid = rid then r2 else r', ?_, ?_⟩
          · rw [hress]
            exact mem_update_of_mem st.ress rid r2 r' hr'mem
          · by_cases hc : r'.rid = rid
            · rw [if_pos hc, hr2rid, ← hc]
              exact hr'rid
            · rw [if_neg hc]; exact hr'rid
        · have he : a2 = na := by simpa using hm
          refine ⟨r2, ?_, ?_⟩
          · rw [hress]
            have hmm := mem_update_of_mem st.ress rid r2 r hmemr
            rw [if_pos hrrid] at hmm
            exact hmm
          · rw [he]
            exact hr2rid
      · intro a2 ha2
        rw [hnaid]
        rw [hatts] at ha2
        rcases List.mem_append.mp ha2 with hm | hm
        · have := h.att_aid_lt a2 hm
          omega
        · have he : a2 = na := by simpa using hm
          rw [he]
          show st.next_aid < st.next_aid + 1
          omega
      · rw [hatts, List.map_append]
        rw [List.nodup_append]
        refine ⟨h.att_nodup, by simp, ?_⟩
        intro x hx hx2
        obtain ⟨a3, ha3, hax⟩ := List.mem_map.mp hx
        have hlt := h.att_aid_lt a3 ha3
        have hx2' : x = st.next_aid := by simpa using hx2
        omega
      · intro u
        have haddu := held_sum_add st S rid r r2 na t hress hatts hfind
          hr2rid hr2hold hhold hnares hnatier u
        have hacct := h.ev_acct u
        rw [hev, tierQty_setTierQty, haddu]
        by_cases hu : u = t
        · subst hu
          rw [if_pos rfl, if_pos rfl]
          have hacct2 := h.ev_acct u
          push_cast
          omega
        · rw [if_neg hu, if_neg hu]
          push_cast
          omega

theorem storeInv_remove (init : Event) (st : St) (aid : Nat)
    (h : StoreInv init st) : StoreInv init (admin_remove_guest st aid).1 := by
  rcases remove_guard_cases st aid with hsame | ⟨a, r, hfA, hfR, hmut⟩
  · rw [hsame]; exact h
  · have hamem : a ∈ st.atts := List.mem_of_find?_eq_some hfA
    have haaid : a.aid = aid := by simpa using List.find?_some hfA
    have hrmem : r ∈ st.ress := List.mem_of_find?_eq_some hfR
    have hrrid : r.rid = a.reservation_id := by simpa using List.find?_some hfR
    have hPA : r.status = STATUS_PENDING ∨ r.status = STATUS_APPROVED := by
      rcases h.res_status r hrmem with hs | hs | hs | hs
      · exact Or.inl hs
      · exact Or.inr hs
      · rw [hs] at hmut; exact absurd hmut (by decide)
      · rw [hs] at hmut; exact absurd hmut (by decide)
    have hhold : r.hold_applied = true := (h.hold_mut r hrmem).mpr hPA
    have hgbg : a.gender = Gender.boy ∨ a.gender = Gender.girl := by
      cases hga : a.gender
      · left; rfl
      · right; rfl
      · exact absurd hga (h.att_gender a hamem)
    obtain ⟨t0, ht0⟩ := Option.isSome_iff_exists.mp (h.att_tier a hamem)
    have hfindA2 : findRes st a.reservation_id = some r := hfR
    have hfindRid : findRes st r.rid = some r :=
      find?_rid_of_mem st.ress r.rid r h.res_nodup hrmem rfl
    have hq1 : 1 ≤ r.quantity := h.res_pos r hrmem hPA
    have hqe := h.res_quantity r hrmem
    rcases remove_desc st aid a r t0 hfA hfR hmut ht0 hhold hgbg with
      ⟨hc, heq⟩ | ⟨hc, heq⟩
    · -- cascade to cancelled
      have hqone : r.quantity = 1 := by omega
      have hlen1 : (atts_of st r.rid).length = 1 := by omega
      set S : St := (admin_remove_guest st aid).1 with hS
      set r2 : Reservation := { r with quantity := 0, boys := 0, girls := 0, total_price := 0, status := STATUS_CANCELLED, hold_applied := false } with hr2def
      have hress : S.ress = st.ress.map (fun x => if x.rid = r.rid then r2 else x) := by
        rw [heq]
      have hatts : S.atts = st.atts.filter (fun x => x.aid ≠ aid) := by rw [heq]
      have hattsA : S.atts = st.atts.filter (fun x => x.aid ≠ a.aid) := by
        rw [hatts, haaid]
      have hev : S.ev = st.ev.setTierQty t0 (st.ev.tierQty t0 + 1) := by rw [heq]
      have hnrid : S.next_rid = st.next_rid := by rw [heq]
      have hnaid : S.next_aid = st.next_aid := by rw [heq]
      have hamem2 : a ∈ atts_of st r.rid :=
        List.mem_filter.mpr ⟨hamem, by simp [hrrid.symm]⟩
      have hsingle : atts_of st r.rid = [a] :=
        eq_singleton_of_length_mem _ a hlen1 hamem2
      have hlenS : (atts_of S r.rid).length = 0 := by
        have hle := len_of_erase st S a hattsA hamem h.att_nodup r.rid
        rw [if_pos hrrid.symm] at hle
        omega
      have hgroupS : ∀ a2 ∈ st.atts, a2.aid ≠ a.aid →
          a2.reservation_id ≠ r.rid := by
        intro a2 hm2 hne2 hceq
        have hm3 : a2 ∈ atts_of st r.rid :=
          List.mem_filter.mpr ⟨hm2, by simp [hceq]⟩
        rw [hsingle] at hm3
        have : a2 = a := by simpa using hm3
        exact hne2 (by rw [this])
      refine ⟨?_, ?_, ?_, ?_, ?_, ?_, ?_, ?_, ?_, ?_, ?_, ?_, ?_, ?_, ?_⟩
      · intro r' hr'
        rw [hress] at hr'
        rcases mem_update_elim st.ress r.rid r2 r' hr' with he | ⟨hm, _⟩
        · rw [he]; exact Or.inr (Or.inr (Or.inr rfl))
        · exact h.res_status r' hm
      · intro r' hr'
        rw [hress] at hr'
        rcases mem_update_elim st.ress r.rid r2 r' hr' with he | ⟨hm, hne⟩
        · rw [he]
          have hboyS : boys_of S r.rid = 0 := by
            have hle := List.length_filter_le
              (fun x => decide (x.gender = Gender.boy)) (atts_of S r.rid)
            unfold boys_of
            omega
          show (0 : Int) = ((boys_of S r2.rid : Nat) : Int)
          rw [show r2.rid = r.rid from rfl, hboyS]
          simp
        · have hb2 := boys_of_erase st S a hattsA hamem h.att_nodup r'.rid
          rw [if_neg (by
            intro hcc
            exact hne (by rw [← hrrid] at hcc; exact hcc.1.symm)), Nat.add_zero]
            at hb2
          rw [hb2]
          exact h.res_boys r' hm
      · intro r' hr'
        rw [hress] at hr'
        rcases mem_update_elim st.ress r.rid r2 r' hr' with he | ⟨hm, hne⟩
        · rw [he]
          have hgirlS : girls_of S r.rid = 0 := by
            have hle := List.length_filter_le
              (fun x => decide (x.gender = Gender.girl)) (atts_of S r.rid)
            unfold girls_of
            omega
          show (0 : Int) = ((girls_of S r2.rid : Nat) : Int)
          rw [show r2.rid = r.rid from rfl, hgirlS]
          simp
        · have hb2 := girls_of_erase st S a hattsA hamem h.att_nodup r'.rid
          rw [if_neg (by
            intro hcc
            exact hne (by rw [← hrrid] at hcc; exact hcc.1.symm)), Nat.add_zero]
            at hb2
          rw [hb2]
          exact h.res_girls r' hm
      · intro r' hr'
        rw [hress] at hr'
        rcases mem_update_elim st.ress r.rid r2 r' hr' with he | ⟨hm, hne⟩
        · rw [he]
          show (0 : Int) = (((atts_of S r2.rid).length : Nat) : Int)
          rw [show r2.rid = r.rid from rfl, hlenS]
          simp
        · have hb2 := len_of_erase st S a hattsA hamem h.att_nodup r'.rid
          rw [if_neg (by
            intro hcc
            exact hne (by rw [← hrrid] at hcc; exact hcc.symm)), Nat.add_zero]
            at hb2
          rw [hb2]
          exact h.res_quantity r' hm
      · intro r' hr'
        rw [hress] at hr'
        rcases mem_update_elim st.ress r.rid r2 r' hr' with he | ⟨hm, _⟩
        · rw [he]
          intro _ _
          rfl
        · exact h.cz_total r' hm
      · intro r' hr'
        rw [hress] at hr'
        rcases mem_update_elim st.ress r.rid r2 r' hr' with he | ⟨hm, _⟩
        · rw [he]
          constructor
          · intro hcb
            exact absurd hcb (show ¬(false = true) by decide)
          · intro hp
            rcases hp with hp | hp
            · exact absurd hp (show ¬STATUS_CANCELLED = STATUS_PENDING by decide)
            · exact absurd hp (show ¬STATUS_CANCELLED = STATUS_APPROVED by decide)
        · exact h.hold_mut r' hm
      · intro r' hr'
        rw [hress] at hr'
        rcases mem_update_elim st.ress r.rid r2 r' hr' with he | ⟨hm, _⟩
        · rw [he]
          intro hp
          rcases hp with hp | hp
          · exact absurd hp (show ¬STATUS_CANCELLED = STATUS_PENDING by decide)
          · exact absurd hp (show ¬STATUS_CANCELLED = STATUS_APPROVED by decide)
        · exact h.res_pos r' hm
      · intro r' hr'
        rw [hnrid]
        rw [hress] at hr'
        rcases mem_update_elim st.ress r.rid r2 r' hr' with he | ⟨hm, _⟩
        · rw [he]; exact h.res_rid_lt r hrmem
        · exact h.res_rid_lt r' hm
      · rw [hress, map_rid_update st.ress r.rid r2 rfl]
        exact h.res_nodup
      · intro a2 ha2
        rw [hatts] at ha2
        exact h.att_gender a2 (List.mem_of_mem_filter ha2)
      · intro a2 ha2
        rw [hatts] at ha2
        exact h.att_tier a2 (List.mem_of_mem_filter ha2)
      · intro a2 ha2
        rw [hatts] at ha2
        obtain ⟨r', hr'mem, hr'rid⟩ :=
          h.att_owner a2 (List.mem_of_mem_filter ha2)
        refine ⟨if r'.rid = r.rid then r2 else r', ?_, ?_⟩
        · rw [hress]
          exact mem_update_of_mem st.ress r.rid r2 r' hr'mem
        · by_cases hcc : r'.rid = r.rid
          · rw [if_pos hcc, show r2.rid = r.rid from rfl, ← hcc]
            exact hr'rid
          · rw [if_neg hcc]; exact hr'rid
      · intro a2 ha2
        rw [hnaid]
        rw [hatts] at ha2
        exact h.att_aid_lt a2 (List.mem_of_mem_filter ha2)
      · rw [hatts]
        exact h.att_nodup.sublist
          (List.Sublist.map _ (List.filter_sublist _))
      · intro u
        have howner : ∀ a2 ∈ st.atts, a2.aid ≠ a.aid →
            ownerHoldApplied S a2 = ownerHoldApplied st a2 := by
          intro a2 hm2 hne2
          rw [ownerHold_mapped st S r.rid r r2 hress hfindRid rfl a2,
            if_neg (hgroupS a2 hm2 hne2)]
        have herase := held_sum_erase st S r a t0 hattsA hfindA2 hhold ht0
          hamem h.att_nodup howner u
        have hacct := h.ev_acct u
        rw [hev, tierQty_setTierQty]
        by_cases hu : u = t0
        · rw [if_pos hu]
          rw [if_pos hu] at herase
          subst hu
          omega
        · rw [if_neg hu]
          rw [if_neg hu] at herase
          omega
    · -- normal removal
      have hq2 : 2 ≤ r.quantity := by omega
      set S : St := (admin_remove_guest st aid).1 with hS
      set r2 : Reservation := { r with quantity := r.quantity - 1, boys := (if a.gender = Gender.boy then max 0 (r.boys - 1) else r.boys), girls := (if a.gender = Gender.girl then max 0 (r.girls - 1) else r.girls), total_price := max 0 (r.total_price - reservation_unit_price r st.ev a.gender (some t0)) } with hr2def
      have hress : S.ress = st.ress.map (fun x => if x.rid = r.rid then r2 else x) := by
        rw [heq]
      have hatts : S.atts = st.atts.filter (fun x => x.aid ≠ aid) := by rw [heq]
      have hattsA : S.atts = st.atts.filter (fun x => x.aid ≠ a.aid) := by
        rw [hatts, haaid]
      have hev : S.ev = st.ev.setTierQty t0 (st.ev.tierQty t0 + 1) := by rw [heq]
      have hnrid : S.next_rid = st.next_rid := by rw [heq]
      have hnaid : S.next_aid = st.next_aid := by rw [heq]
      refine ⟨?_, ?_, ?_, ?_, ?_, ?_, ?_, ?_, ?_, ?_, ?_, ?_, ?_, ?_, ?_⟩
      · intro r' hr'
        rw [hress] at hr'
        rcases mem_update_elim st.ress r.rid r2 r' hr' with he | ⟨hm, _⟩
        · rw [he]; exact h.res_status r hrmem
        · exact h.res_status r' hm
      · intro r' hr'
        rw [hress] at hr'
        rcases mem_update_elim st.ress r.rid r2 r' hr' with he | ⟨hm, hne⟩
        · rw [he]
          have hrb := h.res_boys r hrmem
          have hb2 := boys_of_erase st S a hattsA hamem h.att_nodup r.rid
          show (if a.gender = Gender.boy then max 0 (r.boys - 1) else r.boys)
            = ((boys_of S r2.rid : Nat) : Int)
          rw [show r2.rid = r.rid from rfl]
          by_cases hab : a.gender = Gender.boy
          · have hbpos : 1 ≤ boys_of st r.rid := by
              have : a ∈ (atts_of st r.rid).filter
                  (fun x => x.gender = Gender.boy) :=
                List.mem_filter.mpr ⟨List.mem_filter.mpr
                  ⟨hamem, by simp [hrrid.symm]⟩, by simp [hab]⟩
              unfold boys_of
              exact List.length_pos.mpr (List.ne_nil_of_mem this)
            rw [if_pos ⟨hrrid.symm, hab⟩] at hb2
            rw [if_pos hab, hrb]
            have hmx : max 0 ((boys_of st r.rid : Int) - 1)
                = (boys_of st r.rid : Int) - 1 := max_eq_right (by omega)
            rw [hmx]
            omega
          · rw [if_neg (by
              intro hcc
              exact hab hcc.2), Nat.add_zero] at hb2
            rw [if_neg hab, hrb, hb2]
        · have hb2 := boys_of_erase st S a hattsA hamem h.att_nodup r'.rid
          rw [if_neg (by
            intro hcc
            exact hne (by rw [← hrrid] at hcc; exact hcc.1.symm)), Nat.add_zero]
            at hb2
          rw [hb2]
          exact h.res_boys r' hm
      · intro r' hr'
        rw [hress] at hr'
        rcases mem_update_elim st.ress r.rid r2 r' hr' with he | ⟨hm, hne⟩
        · rw [he]
          have hrg := h.res_girls r hrmem
          have hb2 := girls_of_erase st S a hattsA hamem h.att_nodup r.rid
          show (if a.gender = Gender.girl then max 0 (r.girls - 1) else r.girls)
            = ((girls_of S r2.rid : Nat) : Int)
          rw [show r2.rid = r.rid from rfl]
          by_cases hab : a.gender = Gender.girl
          · have hgpos : 1 ≤ girls_of st r.rid := by
              have : a ∈ (atts_of st r.rid).filter
                  (fun x => x.gender = Gender.girl) :=
                List.mem_filter.mpr ⟨List.mem_filter.mpr
                  ⟨hamem, by simp [hrrid.symm]⟩, by simp [hab]⟩
              unfold girls_of
              exact List.length_pos.mpr (List.ne_nil_of_mem this)
            rw [if_pos ⟨hrrid.symm, hab⟩] at hb2
            rw [if_pos hab, hrg]
            have hmx : max 0 ((girls_of st r.rid : Int) - 1)
                = (girls_of st r.rid : Int) - 1 := max_eq_right (by omega)
            rw [hmx]
            omega
          · rw [if_neg (by
              intro hcc
              exact hab hcc.2), Nat.add_zero] at hb2
            rw [if_neg hab, hrg, hb2]
        · have hb2 := girls_of_erase st S a hattsA hamem h.att_nodup r'.rid
          rw [if_neg (by
            intro hcc
            exact hne (by rw [← hrrid] at hcc; exact hcc.1.symm)), Nat.add_zero]
            at hb2
          rw [hb2]
          exact h.res_girls r' hm
      · intro r' hr'
        rw [hress] at hr'
        rcases mem_update_elim st.ress r.rid r2 r' hr' with he | ⟨hm, hne⟩
        · rw [he]
          have hb2 := len_of_erase st S a hattsA hamem h.att_nodup r.rid
          rw [if_pos hrrid.symm] at hb2
          show r.quantity - 1 = (((atts_of S r2.rid).length : Nat) : Int)
          rw [show r2.rid = r.rid from rfl]
          omega
        · have hb2 := len_of_erase st S a hattsA hamem h.att_nodup r'.rid
          rw [if_neg (by
            intro hcc
            exact hne (by rw [← hrrid] at hcc; exact hcc.symm)), Nat.add_zero]
            at hb2
          rw [hb2]
          exact h.res_quantity r' hm
      · intro r' hr'
        rw [hress] at hr'
        rcases mem_update_elim st.ress r.rid r2 r' hr' with he | ⟨hm, _⟩
        · rw [he]
          intro hcs _
          have hcs' : r.status = STATUS_CANCELLED := hcs
          rcases hPA with hp | hp <;> rw [hp] at hcs' <;>
            exact absurd hcs' (by decide)
        · exact h.cz_total r' hm
      · intro r' hr'
        rw [hress] at hr'
        rcases mem_update_elim st.ress r.rid r2 r' hr' with he | ⟨hm, _⟩
        · rw [he]; exact h.hold_mut r hrmem
        · exact h.hold_mut r' hm
      · intro r' hr'
        rw [hress] at hr'
        rcases mem_update_elim st.ress r.rid r2 r' hr' with he | ⟨hm, _⟩
        · rw [he]
          intro _
          show (1 : Int) ≤ r.quantity - 1
          omega
        · exact h.res_pos r' hm
      · intro r' hr'
        rw [hnrid]
        rw [hress] at hr'
        rcases mem_update_elim st.ress r.rid r2 r' hr' with he | ⟨hm, _⟩
        · rw [he]; exact h.res_rid_lt r hrmem
        · exact h.res_rid_lt r' hm
      · rw [hress, map_rid_update st.ress r.rid r2 rfl]
        exact h.res_nodup
      · intro a2 ha2
        rw [hatts] at ha2
        exact h.att_gender a2 (List.mem_of_mem_filter ha2)
      · intro a2 ha2
        rw [hatts] at ha2
        exact h.att_tier a2 (List.mem_of_mem_filter ha2)
      · intro a2 ha2
        rw [hatts] at ha2
        obtain ⟨r', hr'mem, hr'rid⟩ :=
          h.att_owner a2 (List.mem_of_mem_filter ha2)
        refine ⟨if r'.rid = r.rid then r2 else r', ?_, ?_⟩
        · rw [hress]
          exact mem_update_of_mem st.ress r.rid r2 r' hr'mem
        · by_cases hcc : r'.rid = r.rid
          · rw [if_pos hcc, show r2.rid = r.rid from rfl, ← hcc]
            exact hr'rid
          · rw [if_neg hcc]; exact hr'rid
      · intro a2 ha2
        rw [hnaid]
        rw [hatts] at ha2
        exact h.att_aid_lt a2 (List.mem_of_mem_filter ha2)
      · rw [hatts]
        exact h.att_nodup.sublist
          (List.Sublist.map _ (List.filter_sublist _))
      · intro u
        have howner : ∀ a2 ∈ st.atts, a2.aid ≠ a.aid →
            ownerHoldApplied S a2 = ownerHoldApplied st a2 := by
          intro a2 hm2 _
          rw [ownerHold_mapped st S r.rid r r2 hress hfindRid rfl a2]
          by_cases hq3 : a2.reservation_id = r.rid
          · rw [if_pos hq3,
              ownerHold_of_find st r.rid r hfindRid a2 hq3]
          · rw [if_neg hq3]
        have herase := held_sum_erase st S r a t0 hattsA hfindA2 hhold ht0
          hamem h.att_nodup howner u
        have hacct := h.ev_acct u
        rw [hev, tierQty_setTierQty]
        by_cases hu : u = t0
        · rw [if_pos hu]
          rw [if_pos hu] at herase
          subst hu
          omega
        · rw [if_neg hu]
          rw [if_neg hu] at herase
          omega

theorem storeInv_create (init : Event) (st : St) (u b g : Nat)
    (names : List String) (h : StoreInv init st) :
    StoreInv init (create_pending_reservation st u b g names).1 := by
  rcases create_cases st u b g names with hsame | ⟨rid0, st1, heq⟩
  · rw [hsame]; exact h
  · obtain ⟨plan, ev2, halloc, hnames, happ, hrid0, hst1⟩ :=
      create_ok_inv st u b g names st1 rid0 heq
    set S : St := (create_pending_reservation st u b g names).1 with hSdef
    have hSrec : S = st1 := by rw [hSdef, heq]
    rw [hst1] at hSrec
    set pairs : List (String × Alloc) := names.zip plan.attendee_allocations
      with hpairs
    set newAtts : List Attendee :=
      mk_attendees st.next_rid st.next_aid pairs with hNA
    set res : Reservation := pending_res_row st u b g plan with hresdef
    have hress : S.ress = st.ress ++ [res] := by rw [hSrec]
    have hatts : S.atts = st.atts ++ newAtts := by rw [hSrec]
    have hev : S.ev = ev2 := by rw [hSrec]
    have hnrid : S.next_rid = st.next_rid + 1 := by rw [hSrec]
    have hnaid : S.next_aid = st.next_aid + newAtts.length := by rw [hSrec]
    obtain ⟨hqty, hgo⟩ := allocate_ok_shape st.ev b g plan halloc
    have hlenallocs : plan.attendee_allocations.length = b + g := by
      have := alloc_go_length st.ev _ st.ev.tierQty _ hgo
      simpa using this
    have hgenders : plan.attendee_allocations.map (fun a => a.gender)
        = List.replicate b Gender.boy ++ List.replicate g Gender.girl :=
      alloc_go_genders st.ev _ st.ev.tierQty _ hgo
    have hnames2 : names.length = b + g := by rw [hnames, hqty]
    have hsnd : pairs.map (fun p => p.2) = plan.attendee_allocations := by
      rw [hpairs]
      exact List.map_snd_zip names plan.attendee_allocations (by omega)
    have hlenpairs : pairs.length = b + g := by
      rw [hpairs]
      simp [List.length_zip, hnames2, hlenallocs]
    have hlenNA : newAtts.length = b + g := by
      rw [hNA, mk_attendees_length]
      exact hlenpairs
    have hfreshR : ∀ a ∈ st.atts, a.reservation_id ≠ st.next_rid := by
      intro a ha hcontra
      obtain ⟨r', hr'mem, hr'rid⟩ := h.att_owner a ha
      have hlt := h.res_rid_lt r' hr'mem
      rw [hcontra] at hr'rid
      omega
    have hresrid : res.rid = st.next_rid := rfl
    have hattsold : ∀ k, k ≠ st.next_rid → atts_of S k = atts_of st k := by
      intro k hk
      unfold atts_of
      rw [hatts, List.filter_append]
      have hnil : newAtts.filter (fun a => a.reservation_id = k) = [] := by
        rw [List.filter_eq_nil_iff]
        intro a ha
        have hrk := mk_attendees_resId st.next_rid pairs st.next_aid a ha
        simp only [hrk, decide_eq_true_eq]
        exact fun hc => hk hc.symm
      rw [hnil, List.append_nil]
    have hattsnew : atts_of S st.next_rid = newAtts := by
      unfold atts_of
      rw [hatts, List.filter_append]
      have h1 : st.atts.filter (fun a => a.reservation_id = st.next_rid)
          = [] := by
        rw [List.filter_eq_nil_iff]
        intro a ha
        simp [hfreshR a ha]
      have h2 : newAtts.filter (fun a => a.reservation_id = st.next_rid)
          = newAtts := by
        rw [List.filter_eq_self]
        intro a ha
        simp [mk_attendees_resId st.next_rid pairs st.next_aid a ha]
      rw [h1, h2, List.nil_append]
    have hcountb : (plan.attendee_allocations.filter
        (fun al => al.gender = Gender.boy)).length = b := by
      rw [filter_gender_length, hgenders, List.filter_append,
        List.length_append, filter_replicate_count, filter_replicate_count]
      simp
    have hcountg : (plan.attendee_allocations.filter
        (fun al => al.gender = Gender.girl)).length = g := by
      rw [filter_gender_length, hgenders, List.filter_append,
        List.length_append, filter_replicate_count, filter_replicate_count]
      simp
    have hboysS : boys_of S st.next_rid = b := by
      unfold boys_of
      rw [hattsnew, hNA, mk_attendees_filter_gender, hsnd]
      exact hcountb
    have hgirlsS : girls_of S st.next_rid = g := by
      unfold girls_of
      rw [hattsnew, hNA, mk_attendees_filter_gender, hsnd]
      exact hcountg
    have howner : ∀ a2 ∈ st.atts,
        ownerHoldApplied S a2 = ownerHoldApplied st a2 := by
      intro a2 ha2
      obtain ⟨r', hr'mem, hr'rid⟩ := h.att_owner a2 ha2
      unfold ownerHoldApplied
      rcases hfd : st.ress.find? (fun x => x.rid = a2.reservation_id)
        with _ | r''
      · exfalso
        rw [List.find?_eq_none] at hfd
        exact hfd r' hr'mem (by simp [hr'rid])
      · rw [hress, List.find?_append, hfd]
        rfl
    have hownernew : ∀ a2 ∈ newAtts, ownerHoldApplied S a2 = true := by
      intro a2 ha2
      unfold ownerHoldApplied
      rw [hress, find?_append_of_none _ _ _ (by
        rw [List.find?_eq_none]
        intro x hx
        have := h.res_rid_lt x hx
        have hrk := mk_attendees_resId st.next_rid pairs st.next_aid a2 ha2
        simp only [decide_eq_true_eq]
        omega)]
      rw [List.find?_cons_of_pos _ (by
        have hrk := mk_attendees_resId st.next_rid pairs st.next_aid a2 ha2
        simp [hresrid, hrk])]
      rfl
    have hheld : ∀ t, held_sum S t
        = held_sum st t + tier_count plan.attendee_allocations t := by
      intro t
      unfold held_sum
      rw [hatts, List.filter_append, List.length_append]
      have hpart1 : (st.atts.filter (fun a =>
            ownerHoldApplied S a && decide (a.ticket_tier = some t)))
          = (st.atts.filter (fun a =>
            ownerHoldApplied st a && decide (a.ticket_tier = some t))) :=
        List.filter_congr (fun a2 ha2 => by rw [howner a2 ha2])
      have hpart2 : (newAtts.filter (fun a =>
            ownerHoldApplied S a && decide (a.ticket_tier = some t)))
          = (newAtts.filter (fun a =>
            decide (a.reservation_id = st.next_rid)
              && decide (a.ticket_tier = some t))) :=
        List.filter_congr (fun a2 ha2 => by
          rw [hownernew a2 ha2]
          have hrk := mk_attendees_resId st.next_rid pairs st.next_aid a2 ha2
          simp [hrk])
      rw [hpart1, hpart2, hNA, mk_attendees_filter_tier, hsnd]
    refine ⟨?_, ?_, ?_, ?_, ?_, ?_, ?_, ?_, ?_, ?_, ?_, ?_, ?_, ?_, ?_⟩
    · intro r' hr'
      rw [hress] at hr'
      rcases List.mem_append.mp hr' with hm | hm
      · exact h.res_status r' hm
      · have he : r' = res := by simpa using hm
        rw [he]
        exact Or.inl rfl
    · intro r' hr'
      rw [hress] at hr'
      rcases List.mem_append.mp hr' with hm | hm
      · have hkne : r'.rid ≠ st.next_rid := by
          have := h.res_rid_lt r' hm
          omega
        have hbo : boys_of S r'.rid = boys_of st r'.rid := by
          unfold boys_of
          rw [hattsold _ hkne]
        rw [hbo]
        exact h.res_boys r' hm
      · have he : r' = res := by simpa using hm
        rw [he]
        show ((b : Nat) : Int) = ((boys_of S res.rid : Nat) : Int)
        rw [show res.rid = st.next_rid from rfl, hboysS]
    · intro r' hr'
      rw [hress] at hr'
      rcases List.mem_append.mp hr' with hm | hm
      · have hkne : r'.rid ≠ st.next_rid := by
          have := h.res_rid_lt r' hm
          omega
        have hbo : girls_of S r'.rid = girls_of st r'.rid := by
          unfold girls_of
          rw [hattsold _ hkne]
        rw [hbo]
        exact h.res_girls r' hm
      · have he : r' = res := by simpa using hm
        rw [he]
        show ((g : Nat) : Int) = ((girls_of S res.rid : Nat) : Int)
        rw [show res.rid = st.next_rid from rfl, hgirlsS]
    · intro r' hr'
      rw [hress] at hr'
      rcases List.mem_append.mp hr' with hm | hm
      · have hkne : r'.rid ≠ st.next_rid := by
          have := h.res_rid_lt r' hm
          omega
        rw [hattsold _ hkne]
        exact h.res_quantity r' hm
      · have he : r' = res := by simpa using hm
        rw [he]
        show ((plan.quantity : Nat) : Int)
          = (((atts_of S res.rid).length : Nat) : Int)
        rw [show res.rid = st.next_rid from rfl, hattsnew, hlenNA, hqty]
    · intro r' hr'
      rw [hress] at hr'
      rcases List.mem_append.mp hr' with hm | hm
      · exact h.cz_total r' hm
      · have he : r' = res := by simpa using hm
        rw [he]
        intro hcs
        exact absurd hcs (show ¬STATUS_PENDING = STATUS_CANCELLED by decide)
    · intro r' hr'
      rw [hress] at hr'
      rcases List.mem_append.mp hr' with hm | hm
      · exact h.hold_mut r' hm
      · have he : r' = res := by simpa using hm
        rw [he]
        constructor
        · intro _
          exact Or.inl rfl
        · intro _
          rfl
    · intro r' hr'
      rw [hress] at hr'
      rcases List.mem_append.mp hr' with hm | hm
      · exact h.res_pos r' hm
      · have he : r' = res := by simpa using hm
        rw [he]
        intro _
        have hpos := allocate_ok_pos st.ev b g plan halloc
        show (1 : Int) ≤ (plan.quantity : Int)
        rw [hqty]
        omega
    · intro r' hr'
      rw [hnrid]
      rw [hress] at hr'
      rcases List.mem_append.mp hr' with hm | hm
      · have := h.res_rid_lt r' hm
        omega
      · have he : r' = res := by simpa using hm
        rw [he]
        show st.next_rid < st.next_rid + 1
        omega
    · rw [hress, List.map_append, List.nodup_append]
      refine ⟨h.res_nodup, by simp, ?_⟩
      intro x hx hx2
      obtain ⟨r3, hr3, hrx⟩ := List.mem_map.mp hx
      have hlt := h.res_rid_lt r3 hr3
      have hx2' : x = res.rid := by simpa using hx2
      rw [hresrid] at hx2'
      omega
    · intro a2 ha2
      rw [hatts] at ha2
      rcases List.mem_append.mp ha2 with hm | hm
      · exact h.att_gender a2 hm
      · obtain ⟨al, halmem, hag⟩ :=
          mk_attendees_gender_mem st.next_rid pairs st.next_aid a2 hm
        rw [hsnd] at halmem
        have hmemg : al.gender ∈ plan.attendee_allocations.map
            (fun a => a.gender) := List.mem_map_of_mem _ halmem
        rw [hgenders] at hmemg
        rcases List.mem_append.mp hmemg with hg2 | hg2
        · have := List.eq_of_mem_replicate hg2
          rw [hag, this]
          decide
        · have := List.eq_of_mem_replicate hg2
          rw [hag, this]
          decide
    · intro a2 ha2
      rw [hatts] at ha2
      rcases List.mem_append.mp ha2 with hm | hm
      · exact h.att_tier a2 hm
      · exact mk_attendees_tier_isSome st.next_rid pairs st.next_aid a2 hm
    · intro a2 ha2
      rw [hatts] at ha2
      rcases List.mem_append.mp ha2 with hm | hm
      · obtain ⟨r', hr'mem, hr'rid⟩ := h.att_owner a2 hm
        exact ⟨r', by rw [hress]; exact List.mem_append_left _ hr'mem, hr'rid⟩
      · refine ⟨res, by rw [hress]; exact List.mem_append_right _ (by simp), ?_⟩
        rw [hresrid]
        exact (mk_attendees_resId st.next_rid pairs st.next_aid a2 hm).symm
    · intro a2 ha2
      rw [hnaid]
      rw [hatts] at ha2
      rcases List.mem_append.mp ha2 with hm | hm
      · have := h.att_aid_lt a2 hm
        omega
      · have hbnd := mk_attendees_aid_bounds st.next_rid pairs st.next_aid a2 hm
        have hlp : pairs.length = newAtts.length := by
          rw [hNA, mk_attendees_length]
        omega
    · rw [hatts, List.map_append, List.nodup_append]
      refine ⟨h.att_nodup, ?_, ?_⟩
      · rw [hNA]
        exact mk_attendees_aid_nodup st.next_rid pairs st.next_aid
      · intro x hx hx2
        obtain ⟨a3, ha3, hax⟩ := List.mem_map.mp hx
        have hlt := h.att_aid_lt a3 ha3
        obtain ⟨a4, ha4, hax2⟩ := List.mem_map.mp hx2
        have hbnd := mk_attendees_aid_bounds st.next_rid pairs st.next_aid a4 ha4
        omega
    · intro t
      have htq := apply_hold_alloc_tierQty st.ev ev2
        plan.attendee_allocations happ t
      have hacct := h.ev_acct t
      have hheldt := hheld t
      rw [hev, htq]
      omega

theorem storeInv_reach (init : Event) (st : St) (h : Reach init st) :
    StoreInv init st := by
  induction h with
  | base => exact storeInv_initial init
  | create st u b g names _ ih => exact storeInv_create init st u b g names ih
  | approve st rid admin now _ ih =>
    exact storeInv_approve init st rid admin now ih
  | reject st rid admin note now _ ih =>
    exact storeInv_reject init st rid admin note now ih
  | cancel st u rid _ ih => exact storeInv_cancel init st u rid ih
  | addGuest st rid nm g _ ih => exact storeInv_add init st rid nm g ih
  | removeGuest st aid _ ih => exact storeInv_remove init st aid ih

/-- C3: in every store state reachable from a fresh event through the
reservation-lifecycle and guest-mutation operations, every reservation
row satisfies `quantity = boys + girls = number of its attendee rows`;
a reservation cancelled down to quantity zero has `boys`, `girls` and
`total_price` zero and no attendee rows left; and each tier counter of
the event equals its initial value minus the holds currently subtracted
on behalf of hold-applied reservations (`held_sum` groups exactly the
attendees of reservations whose `hold_applied` flag is set, so the flag
is true precisely while the reservation's attendee tier counts are
subtracted from the event's counters). -/
theorem claim_C3_reservation_invariant (init : Event) (st : St)
    (h : Reach init st) :
    (∀ r ∈ st.ress,
      r.quantity = r.boys + r.girls ∧
      r.quantity = ((atts_of st r.rid).length : Int) ∧
      (r.status = STATUS_CANCELLED → r.quantity = 0 →
        r.boys = 0 ∧ r.girls = 0 ∧ r.total_price = 0 ∧
          atts_of st r.rid = [])) ∧
    (∀ t, st.ev.tierQty t = init.tierQty t - (held_sum st t : Int)) := by
  have hinv := storeInv_reach init st h
  refine ⟨?_, hinv.ev_acct⟩
  intro r hr
  have hq := hinv.res_quantity r hr
  have hb := hinv.res_boys r hr
  have hg := hinv.res_girls r hr
  have hsplit := length_split_gender (atts_of st r.rid)
    (fun a ha => hinv.att_gender a (List.mem_of_mem_filter ha))
  have hbb : boys_of st r.rid
      = ((atts_of st r.rid).filter (fun a => a.gender = Gender.boy)).length :=
    rfl
  have hgg : girls_of st r.rid
      = ((atts_of st r.rid).filter (fun a => a.gender = Gender.girl)).length :=
    rfl
  refine ⟨by omega, hq, ?_⟩
  intro hst hq0
  have hlen0 : (atts_of st r.rid).length = 0 := by omega
  have hnil : atts_of st r.rid = [] := List.length_eq_zero.mp hlen0
  have hbz : boys_of st r.rid = 0 := by
    unfold boys_of
    rw [hnil]
    rfl
  have hgz : girls_of st r.rid = 0 := by
    unfold girls_of
    rw [hnil]
    rfl
  refine ⟨by rw [hb, hbz]; rfl, by rw [hg, hgz]; rfl,
    hinv.cz_total r hr hst hq0, hnil⟩

theorem claim_C3_reservation_invariant_witness :
    Reach sample_event (initial_st sample_event) ∧
    (∀ t, (initial_st sample_event).ev.tierQty t
      = sample_event.tierQty t
        - (held_sum (initial_st sample_event) t : Int)) :=
  ⟨Reach.base, (claim_C3_reservation_invariant sample_event
    (initial_st sample_event) Reach.base).2⟩

theorem ev_add_caption_id (x : EventsTbl) (h : x.has_caption = true) : ev_add_caption x = x := by
  unfold ev_add_caption
  rw [if_pos h]

theorem ev_add_caption_flag (x : EventsTbl) : (ev_add_caption x).has_caption = true := by
  unfold ev_add_caption
  split
  · next h => exact h
  · rfl

theorem pres_ev_add_caption_present (x : EventsTbl) : (ev_add_caption x).present = x.present := by
  unfold ev_add_caption
  split <;> rfl

theorem ev_add_photo_id (x : EventsTbl) (h : x.has_photo_file_id = true) : ev_add_photo x = x := by
  unfold ev_add_photo
  rw [if_pos h]

theorem ev_add_photo_flag (x : EventsTbl) : (ev_add_photo x).has_photo_file_id = true := by
  unfold ev_add_photo
  split
  · next h => exact h
  · rfl

theorem pres_ev_add_photo_has_caption (x : EventsTbl) : (ev_add_photo x).has_caption = x.has_caption := by
  unfold ev_add_photo
  split <;> rfl

theorem pres_ev_add_photo_present (x : EventsTbl) : (ev_add_photo x).present = x.present := by
  unfold ev_add_photo
  split <;> rfl

theorem ev_add_t1p_id (x : EventsTbl) (h : x.has_regular_tier1_price = true) : ev_add_t1p x = x := by
  unfold ev_add_t1p
  rw [if_pos h]

theorem ev_add_t1p_flag (x : EventsTbl) : (ev_add_t1p x).has_regular_tier1_price = true := by
  unfold ev_add_t1p
  split
  · next h => exact h
  · dsimp only
    split <;> rfl

theorem pres_ev_add_t1p_has_caption (x : EventsTbl) : (ev_add_t1p x).has_caption = x.has_caption := by
  unfold ev_add_t1p
  split
  · rfl
  · dsimp only
    split <;> rfl

theorem pres_ev_add_t1p_has_photo_file_id (x : EventsTbl) : (ev_add_t1p x).has_photo_file_id = x.has_photo_file_id := by
  unfold ev_add_t1p
  split
  · rfl
  · dsimp only
    split <;> rfl

theorem pres_ev_add_t1p_present (x : EventsTbl) : (ev_add_t1p x).present = x.present := by
  unfold ev_add_t1p
  split
  · rfl
  · dsimp only
    split <;> rfl

theorem ev_add_t1q_id (x : EventsTbl) (h : x.has_regular_tier1_qty = true) : ev_add_t1q x = x := by
  unfold ev_add_t1q
  rw [if_pos h]

theorem ev_add_t1q_flag (x : EventsTbl) : (ev_add_t1q x).has_regular_tier1_qty = true := by
  unfold ev_add_t1q
  split
  · next h => exact h
  · rfl

theorem pres_ev_add_t1q_has_caption (x : EventsTbl) : (ev_add_t1q x).has_caption = x.has_caption := by
  unfold ev_add_t1q
  split <;> rfl

theorem pres_ev_add_t1q_has_photo_file_id (x : EventsTbl) : (ev_add_t1q x).has_photo_file_id = x.has_photo_file_id := by
  unfold ev_add_t1q
  split <;> rfl

theorem pres_ev_add_t1q_has_regular_tier1_price (x : EventsTbl) : (ev_add_t1q x).has_regular_tier1_price = x.has_regular_tier1_price := by
  unfold ev_add_t1q
  split <;> rfl

theorem pres_ev_add_t1q_present (x : EventsTbl) : (ev_add_t1q x).present = x.present := by
  unfold ev_add_t1q
  split <;> rfl

theorem ev_add_t2p_id (x : EventsTbl) (h : x.has_regular_tier2_price = true) : ev_add_t2p x = x := by
  unfold ev_add_t2p
  rw [if_pos h]

theorem ev_add_t2p_flag (x : EventsTbl) : (ev_add_t2p x).has_regular_tier2_price = true := by
  unfold ev_add_t2p
  split
  · next h => exact h
  · rfl

theorem pres_ev_add_t2p_has_caption (x : EventsTbl) : (ev_add_t2p x).has_caption = x.has_caption := by
  unfold ev_add_t2p
  split <;> rfl

theorem pres_ev_add_t2p_has_photo_file_id (x : EventsTbl) : (ev_add_t2p x).has_photo_file_id = x.has_photo_file_id := by
  unfold ev_add_t2p
  split <;> rfl

theorem pres_ev_add_t2p_has_regular_tier1_price (x : EventsTbl) : (ev_add_t2p x).has_regular_tier1_price = x.has_regular_tier1_price := by
  unfold ev_add_t2p
  split <;> rfl

theorem pres_ev_add_t2p_has_regular_tier1_qty (x : EventsTbl) : (ev_add_t2p x).has_regular_tier1_qty = x.has_regular_tier1_qty := by
  unfold ev_add_t2p
  split <;> rfl

theorem pres_ev_add_t2p_present (x : EventsTbl) : (ev_add_t2p x).present = x.present := by
  unfold ev_add_t2p
  split <;> rfl

theorem ev_add_t2q_id (x : EventsTbl) (h : x.has_regular_tier2_qty = true) : ev_add_t2q x = x := by
  unfold ev_add_t2q
  rw [if_pos h]

theorem ev_add_t2q_flag (x : EventsTbl) : (ev_add_t2q x).has_regular_tier2_qty = true := by
  unfold ev_add_t2q
  split
  · next h => exact h
  · rfl

theorem pres_ev_add_t2q_has_caption (x : EventsTbl) : (ev_add_t2q x).has_caption = x.has_caption := by
  unfold ev_add_t2q
  split <;> rfl

theorem pres_ev_add_t2q_has_photo_file_id (x : EventsTbl) : (ev_add_t2q x).has_photo_file_id = x.has_photo_file_id := by
  unfold ev_add_t2q
  split <;> rfl

theorem pres_ev_add_t2q_has_regular_tier1_price (x : EventsTbl) : (ev_add_t2q x).has_regular_tier1_price = x.has_regular_tier1_price := by
  unfold ev_add_t2q
  split <;> rfl

theorem pres_ev_add_t2q_has_regular_tier1_qty (x : EventsTbl) : (ev_add_t2q x).has_regular_tier1_qty = x.has_regular_tier1_qty := by
  unfold ev_add_t2q
  split <;> rfl

theorem pres_ev_add_t2q_has_regular_tier2_price (x : EventsTbl) : (ev_add_t2q x).has_regular_tier2_price = x.has_regular_tier2_price := by
  unfold ev_add_t2q
  split <;> rfl

theorem pres_ev_add_t2q_present (x : EventsTbl) : (ev_add_t2q x).present = x.present := by
  unfold ev_add_t2q
  split <;> rfl

theorem ev_add_ebg_id (x : EventsTbl) (h : x.has_early_bird_price_girl = true) : ev_add_ebg x = x := by
  unfold ev_add_ebg
  rw [if_pos h]

theorem ev_add_ebg_flag (x : EventsTbl) : (ev_add_ebg x).has_early_bird_price_girl = true := by
  unfold ev_add_ebg
  split
  · next h => exact h
  · rfl

theorem pres_ev_add_ebg_has_caption (x : EventsTbl) : (ev_add_ebg x).has_caption = x.has_caption := by
  unfold ev_add_ebg
  split <;> rfl

theorem pres_ev_add_ebg_has_photo_file_id (x : EventsTbl) : (ev_add_ebg x).has_photo_file_id = x.has_photo_file_id := by
  unfold ev_add_ebg
  split <;> rfl

theorem pres_ev_add_ebg_has_regular_tier1_price (x : EventsTbl) : (ev_add_ebg x).has_regular_tier1_price = x.has_regular_tier1_price := by
  unfold ev_add_ebg
  split <;> rfl

theorem pres_ev_add_ebg_has_regular_tier1_qty (x : EventsTbl) : (ev_add_ebg x).has_regular_tier1_qty = x.has_regular_tier1_qty := by
  unfold ev_add_ebg
  split <;> rfl

theorem pres_ev_add_ebg_has_regular_tier2_price (x : EventsTbl) : (ev_add_ebg x).has_regular_tier2_price = x.has_regular_tier2_price := by
  unfold ev_add_ebg
  split <;> rfl

theorem pres_ev_add_ebg_has_regular_tier2_qty (x : EventsTbl) : (ev_add_ebg x).has_regular_tier2_qty = x.has_regular_tier2_qty := by
  unfold ev_add_ebg
  split <;> rfl

theorem pres_ev_add_ebg_present (x : EventsTbl) : (ev_add_ebg x).present = x.present := by
  unfold ev_add_ebg
  split <;> rfl

theorem ev_add_t1g_id (x : EventsTbl) (h : x.has_regular_tier1_price_girl = true) : ev_add_t1g x = x := by
  unfold ev_add_t1g
  rw [if_pos h]

theorem ev_add_t1g_flag (x : EventsTbl) : (ev_add_t1g x).has_regular_tier1_price_girl = true := by
  unfold ev_add_t1g
  split
  · next h => exact h
  · rfl

theorem pres_ev_add_t1g_has_caption (x : EventsTbl) : (ev_add_t1g x).has_caption = x.has_caption := by
  unfold ev_add_t1g
  split <;> rfl

theorem pres_ev_add_t1g_has_photo_file_id (x : EventsTbl) : (ev_add_t1g x).has_photo_file_id = x.has_photo_file_id := by
  unfold ev_add_t1g
  split <;> rfl

theorem pres_ev_add_t1g_has_regular_tier1_price (x : EventsTbl) : (ev_add_t1g x).has_regular_tier1_price = x.has_regular_tier1_price := by
  unfold ev_add_t1g
  split <;> rfl

theorem pres_ev_add_t1g_has_regular_tier1_qty (x : EventsTbl) : (ev_add_t1g x).has_regular_tier1_qty = x.has_regular_tier1_qty := by
  unfold ev_add_t1g
  split <;> rfl

theorem pres_ev_add_t1g_has_regular_tier2_price (x : EventsTbl) : (ev_add_t1g x).has_regular_tier2_price = x.has_regular_tier2_price := by
  unfold ev_add_t1g
  split <;> rfl

theorem pres_ev_add_t1g_has_regular_tier2_qty (x : EventsTbl) : (ev_add_t1g x).has_regular_tier2_qty = x.has_regular_tier2_qty := by
  unfold ev_add_t1g
  split <;> rfl

theorem pres_ev_add_t1g_has_early_bird_price_girl (x : EventsTbl) : (ev_add_t1g x).has_early_bird_price_girl = x.has_early_bird_price_girl := by
  unfold ev_add_t1g
  split <;> rfl

theorem pres_ev_add_t1g_present (x : EventsTbl) : (ev_add_t1g x).present = x.present := by
  unfold ev_add_t1g
  split <;> rfl

theorem ev_add_t2g_id (x : EventsTbl) (h : x.has_regular_tier2_price_girl = true) : ev_add_t2g x = x := by
  unfold ev_add_t2g
  rw [if_pos h]

theorem ev_add_t2g_flag (x : EventsTbl) : (ev_add_t2g x).has_regular_tier2_price_girl = true := by
  unfold ev_add_t2g
  split
  · next h => exact h
  · rfl

theorem pres_ev_add_t2g_has_caption (x : EventsTbl) : (ev_add_t2g x).has_caption = x.has_caption := by
  unfold ev_add_t2g
  split <;> rfl

theorem pres_ev_add_t2g_has_photo_file_id (x : EventsTbl) : (ev_add_t2g x).has_photo_file_id = x.has_photo_file_id := by
  unfold ev_add_t2g
  split <;> rfl

theorem pres_ev_add_t2g_has_regular_tier1_price (x : EventsTbl) : (ev_add_t2g x).has_regular_tier1_price = x.has_regular_tier1_price := by
  unfold ev_add_t2g
  split <;> rfl

theorem pres_ev_add_t2g_has_regular_tier1_qty (x : EventsTbl) : (ev_add_t2g x).has_regular_tier1_qty = x.has_regular_tier1_qty := by
  unfold ev_add_t2g
  split <;> rfl

theorem pres_ev_add_t2g_has_regular_tier2_price (x : EventsTbl) : (ev_add_t2g x).has_regular_tier2_price = x.has_regular_tier2_price := by
  unfold ev_add_t2g
  split <;> rfl

theorem pres_ev_add_t2g_has_regular_tier2_qty (x : EventsTbl) : (ev_add_t2g x).has_regular_tier2_qty = x.has_regular_tier2_qty := by
  unfold ev_add_t2g
  split <;> rfl

theorem pres_ev_add_t2g_has_early_bird_price_girl (x : EventsTbl) : (ev_add_t2g x).has_early_bird_price_girl = x.has_early_bird_price_girl := by
  unfold ev_add_t2g
  split <;> rfl

theorem pres_ev_add_t2g_has_regular_tier1_price_girl (x : EventsTbl) : (ev_add_t2g x).has_regular_tier1_price_girl = x.has_regular_tier1_price_girl := by
  unfold ev_add_t2g
  split <;> rfl

theorem pres_ev_add_t2g_present (x : EventsTbl) : (ev_add_t2g x).present = x.present := by
  unfold ev_add_t2g
  split <;> rfl

theorem rs_add_pfi_id (x : ResTbl) (h : x.has_payment_file_id = true) : rs_add_pfi x = x := by
  unfold rs_add_pfi
  rw [if_pos h]

theorem rs_add_pfi_flag (x : ResTbl) : (rs_add_pfi x).has_payment_file_id = true := by
  unfold rs_add_pfi
  split
  · next h => exact h
  · rfl

theorem pres_rs_add_pfi_present (x : ResTbl) : (rs_add_pfi x).present = x.present := by
  unfold rs_add_pfi
  split <;> rfl

theorem rs_add_pft_id (x : ResTbl) (h : x.has_payment_file_type = true) : rs_add_pft x = x := by
  unfold rs_add_pft
  rw [if_pos h]

theorem rs_add_pft_flag (x : ResTbl) : (rs_add_pft x).has_payment_file_type = true := by
  unfold rs_add_pft
  split
  · next h => exact h
  · rfl

theorem pres_rs_add_pft_has_payment_file_id (x : ResTbl) : (rs_add_pft x).has_payment_file_id = x.has_payment_file_id := by
  unfold rs_add_pft
  split <;> rfl

theorem pres_rs_add_pft_present (x : ResTbl) : (rs_add_pft x).present = x.present := by
  unfold rs_add_pft
  split <;> rfl

theorem rs_add_note_id (x : ResTbl) (h : x.has_admin_note = true) : rs_add_note x = x := by
  unfold rs_add_note
  rw [if_pos h]

theorem rs_add_note_flag (x : ResTbl) : (rs_add_note x).has_admin_note = true := by
  unfold rs_add_note
  split
  · next h => exact h
  · rfl

theorem pres_rs_add_note_has_payment_file_id (x : ResTbl) : (rs_add_note x).has_payment_file_id = x.has_payment_file_id := by
  unfold rs_add_note
  split <;> rfl

theorem pres_rs_add_note_has_payment_file_type (x : ResTbl) : (rs_add_note x).has_payment_file_type = x.has_payment_file_type := by
  unfold rs_add_note
  split <;> rfl

theorem pres_rs_add_note_present (x : ResTbl) : (rs_add_note x).present = x.present := by
  unfold rs_add_note
  split <;> rfl

theorem rs_add_rat_id (x : ResTbl) (h : x.has_reviewed_at = true) : rs_add_rat x = x := by
  unfold rs_add_rat
  rw [if_pos h]

theorem rs_add_rat_flag (x : ResTbl) : (rs_add_rat x).has_reviewed_at = true := by
  unfold rs_add_rat
  split
  · next h => exact h
  · rfl

theorem pres_rs_add_rat_has_payment_file_id (x : ResTbl) : (rs_add_rat x).has_payment_file_id = x.has_payment_file_id := by
  unfold rs_add_rat
  split <;> rfl

theorem pres_rs_add_rat_has_payment_file_type (x : ResTbl) : (rs_add_rat x).has_payment_file_type = x.has_payment_file_type := by
  unfold rs_add_rat
  split <;> rfl

theorem pres_rs_add_rat_has_admin_note (x : ResTbl) : (rs_add_rat x).has_admin_note = x.has_admin_note := by
  unfold rs_add_rat
  split <;> rfl

theorem pres_rs_add_rat_present (x : ResTbl) : (rs_add_rat x).present = x.present := by
  unfold rs_add_rat
  split <;> rfl

theorem rs_add_rby_id (x : ResTbl) (h : x.has_reviewed_by_tg_id = true) : rs_add_rby x = x := by
  unfold rs_add_rby
  rw [if_pos h]

theorem rs_add_rby_flag (x : ResTbl) : (rs_add_rby x).has_reviewed_by_tg_id = true := by
  unfold rs_add_rby
  split
  · next h => exact h
  · rfl

theorem pres_rs_add_rby_has_payment_file_id (x : ResTbl) : (rs_add_rby x).has_payment_file_id = x.has_payment_file_id := by
  unfold rs_add_rby
  split <;> rfl

theorem pres_rs_add_rby_has_payment_file_type (x : ResTbl) : (rs_add_rby x).has_payment_file_type = x.has_payment_file_type := by
  unfold rs_add_rby
  split <;> rfl

theorem pres_rs_add_rby_has_admin_note (x : ResTbl) : (rs_add_rby x).has_admin_note = x.has_admin_note := by
  unfold rs_add_rby
  split <;> rfl

theorem pres_rs_add_rby_has_reviewed_at (x : ResTbl) : (rs_add_rby x).has_reviewed_at = x.has_reviewed_at := by
  unfold rs_add_rby
  split <;> rfl

theorem pres_rs_add_rby_present (x : ResTbl) : (rs_add_rby x).present = x.present := by
  unfold rs_add_rby
  split <;> rfl

theorem rs_add_hold_id (x : ResTbl) (h : x.has_hold_applied = true) : rs_add_hold x = x := by
  unfold rs_add_hold
  rw [if_pos h]

theorem rs_add_hold_flag (x : ResTbl) : (rs_add_hold x).has_hold_applied = true := by
  unfold rs_add_hold
  split
  · next h => exact h
  · rfl

theorem pres_rs_add_hold_has_payment_file_id (x : ResTbl) : (rs_add_hold x).has_payment_file_id = x.has_payment_file_id := by
  unfold rs_add_hold
  split <;> rfl

theorem pres_rs_add_hold_has_payment_file_type (x : ResTbl) : (rs_add_hold x).has_payment_file_type = x.has_payment_file_type := by
  unfold rs_add_hold
  split <;> rfl

theorem pres_rs_add_hold_has_admin_note (x : ResTbl) : (rs_add_hold x).has_admin_note = x.has_admin_note := by
  unfold rs_add_hold
  split <;> rfl

theorem pres_rs_add_hold_has_reviewed_at (x : ResTbl) : (rs_add_hold x).has_reviewed_at = x.has_reviewed_at := by
  unfold rs_add_hold
  split <;> rfl

theorem pres_rs_add_hold_has_reviewed_by_tg_id (x : ResTbl) : (rs_add_hold x).has_reviewed_by_tg_id = x.has_reviewed_by_tg_id := by
  unfold rs_add_hold
  split <;> rfl

theorem pres_rs_add_hold_present (x : ResTbl) : (rs_add_hold x).present = x.present := by
  unfold rs_add_hold
  split <;> rfl

theorem at_add_full_id (x : AttTbl) (h : x.has_full_name = true) : at_add_full x = x := by
  unfold at_add_full
  rw [if_pos h]

theorem at_add_full_flag (x : AttTbl) : (at_add_full x).has_full_name = true := by
  unfold at_add_full
  split
  · next h => exact h
  · rfl

theorem pres_at_add_full_present (x : AttTbl) : (at_add_full x).present = x.present := by
  unfold at_add_full
  split <;> rfl

theorem at_add_gender_id (x : AttTbl) (h : x.has_gender = true) : at_add_gender x = x := by
  unfold at_add_gender
  rw [if_pos h]

theorem at_add_gender_flag (x : AttTbl) : (at_add_gender x).has_gender = true := by
  unfold at_add_gender
  split
  · next h => exact h
  · rfl

theorem pres_at_add_gender_has_full_name (x : AttTbl) : (at_add_gender x).has_full_name = x.has_full_name := by
  unfold at_add_gender
  split <;> rfl

theorem pres_at_add_gender_present (x : AttTbl) : (at_add_gender x).present = x.present := by
  unfold at_add_gender
  split <;> rfl

theorem at_add_tier_id (x : AttTbl) (h : x.has_ticket_tier = true) : at_add_tier x = x := by
  unfold at_add_tier
  rw [if_pos h]

theorem at_add_tier_flag (x : AttTbl) : (at_add_tier x).has_ticket_tier = true := by
  unfold at_add_tier
  split
  · next h => exact h
  · rfl

theorem pres_at_add_tier_has_full_name (x : AttTbl) : (at_add_tier x).has_full_name = x.has_full_name := by
  unfold at_add_tier
  split <;> rfl

theorem pres_at_add_tier_has_gender (x : AttTbl) : (at_add_tier x).has_gender = x.has_gender := by
  unfold at_add_tier
  split <;> rfl

theorem pres_at_add_tier_present (x : AttTbl) : (at_add_tier x).present = x.present := by
  unfold at_add_tier
  split <;> rfl

theorem migrate_events_has_caption (x : EventsTbl) : (migrate_events x).has_caption = true := by
  unfold migrate_events
  rw [pres_ev_add_t2g_has_caption, pres_ev_add_t1g_has_caption, pres_ev_add_ebg_has_caption, pres_ev_add_t2q_has_caption, pres_ev_add_t2p_has_caption, pres_ev_add_t1q_has_caption, pres_ev_add_t1p_has_caption, pres_ev_add_photo_has_caption]
  exact ev_add_caption_flag _

theorem migrate_events_has_photo_file_id (x : EventsTbl) : (migrate_events x).has_photo_file_id = true := by
  unfold migrate_events
  rw [pres_ev_add_t2g_has_photo_file_id, pres_ev_add_t1g_has_photo_file_id, pres_ev_add_ebg_has_photo_file_id, pres_ev_add_t2q_has_photo_file_id, pres_ev_add_t2p_has_photo_file_id, pres_ev_add_t1q_has_photo_file_id, pres_ev_add_t1p_has_photo_file_id]
  exact ev_add_photo_flag _

theorem migrate_events_has_regular_tier1_price (x : EventsTbl) : (migrate_events x).has_regular_tier1_price = true := by
  unfold migrate_events
  rw [pres_ev_add_t2g_has_regular_tier1_price, pres_ev_add_t1g_has_regular_tier1_price, pres_ev_add_ebg_has_regular_tier1_price, pres_ev_add_t2q_has_regular_tier1_price, pres_ev_add_t2p_has_regular_tier1_price, pres_ev_add_t1q_has_regular_tier1_price]
  exact ev_add_t1p_flag _

theorem migrate_events_has_regular_tier1_qty (x : EventsTbl) : (migrate_events x).has_regular_tier1_qty = true := by
  unfold migrate_events
  rw [pres_ev_add_t2g_has_regular_tier1_qty, pres_ev_add_t1g_has_regular_tier1_qty, pres_ev_add_ebg_has_regular_tier1_qty, pres_ev_add_t2q_has_regular_tier1_qty, pres_ev_add_t2p_has_regular_tier1_qty]
  exact ev_add_t1q_flag _

theorem migrate_events_has_regular_tier2_price (x : EventsTbl) : (migrate_events x).has_regular_tier2_price = true := by
  unfold migrate_events
  rw [pres_ev_add_t2g_has_regular_tier2_price, pres_ev_add_t1g_has_regular_tier2_price, pres_ev_add_ebg_has_regular_tier2_price, pres_ev_add_t2q_has_regular_tier2_price]
  exact ev_add_t2p_flag _

theorem migrate_events_has_regular_tier2_qty (x : EventsTbl) : (migrate_events x).has_regular_tier2_qty = true := by
  unfold migrate_events
  rw [pres_ev_add_t2g_has_regular_tier2_qty, pres_ev_add_t1g_has_regular_tier2_qty, pres_ev_add_ebg_has_regular_tier2_qty]
  exact ev_add_t2q_flag _

theorem migrate_events_has_early_bird_price_girl (x : EventsTbl) : (migrate_events x).has_early_bird_price_girl = true := by
  unfold migrate_events
  rw [pres_ev_add_t2g_has_early_bird_price_girl, pres_ev_add_t1g_has_early_bird_price_girl]
  exact ev_add_ebg_flag _

theorem migrate_events_has_regular_tier1_price_girl (x : EventsTbl) : (migrate_events x).has_regular_tier1_price_girl = true := by
  unfold migrate_events
  rw [pres_ev_add_t2g_has_regular_tier1_price_girl]
  exact ev_add_t1g_flag _

theorem migrate_events_has_regular_tier2_price_girl (x : EventsTbl) : (migrate_events x).has_regular_tier2_price_girl = true := by
  unfold migrate_events
  exact ev_add_t2g_flag _

theorem rs_chain_has_payment_file_id (x : ResTbl) :
    (rs_add_hold (rs_add_rby (rs_add_rat (rs_add_note (rs_add_pft (rs_add_pfi x)))))).has_payment_file_id = true := by
  rw [pres_rs_add_hold_has_payment_file_id, pres_rs_add_rby_has_payment_file_id, pres_rs_add_rat_has_payment_file_id, pres_rs_add_note_has_payment_file_id, pres_rs_add_pft_has_payment_file_id]
  exact rs_add_pfi_flag _

theorem rs_chain_has_payment_file_type (x : ResTbl) :
    (rs_add_hold (rs_add_rby (rs_add_rat (rs_add_note (rs_add_pft (rs_add_pfi x)))))).has_payment_file_type = true := by
  rw [pres_rs_add_hold_has_payment_file_type, pres_rs_add_rby_has_payment_file_type, pres_rs_add_rat_has_payment_file_type, pres_rs_add_note_has_payment_file_type]
  exact rs_add_pft_flag _

theorem rs_chain_has_admin_note (x : ResTbl) :
    (rs_add_hold (rs_add_rby (rs_add_rat (rs_add_note (rs_add_pft (rs_add_pfi x)))))).has_admin_note = true := by
  rw [pres_rs_add_hold_has_admin_note, pres_rs_add_rby_has_admin_note, pres_rs_add_rat_has_admin_note]
  exact rs_add_note_flag _

theorem rs_chain_has_reviewed_at (x : ResTbl) :
    (rs_add_hold (rs_add_rby (rs_add_rat (rs_add_note (rs_add_pft (rs_add_pfi x)))))).has_reviewed_at = true := by
  rw [pres_rs_add_hold_has_reviewed_at, pres_rs_add_rby_has_reviewed_at]
  exact rs_add_rat_flag _

theorem rs_chain_has_reviewed_by_tg_id (x : ResTbl) :
    (rs_add_hold (rs_add_rby (rs_add_rat (rs_add_note (rs_add_pft (rs_add_pfi x)))))).has_reviewed_by_tg_id = true := by
  rw [pres_rs_add_hold_has_reviewed_by_tg_id]
  exact rs_add_rby_flag _

theorem rs_chain_has_hold_applied (x : ResTbl) :
    (rs_add_hold (rs_add_rby (rs_add_rat (rs_add_note (rs_add_pft (rs_add_pfi x)))))).has_hold_applied = true := by
  exact rs_add_hold_flag _

theorem migrate_reservations_has_payment_file_id (x : ResTbl) :
    (migrate_reservations x).has_payment_file_id = true := by
  unfold migrate_reservations
  exact rs_chain_has_payment_file_id x

theorem migrate_reservations_has_payment_file_type (x : ResTbl) :
    (migrate_reservations x).has_payment_file_type = true := by
  unfold migrate_reservations
  exact rs_chain_has_payment_file_type x

theorem migrate_reservations_has_admin_note (x : ResTbl) :
    (migrate_reservations x).has_admin_note = true := by
  unfold migrate_reservations
  exact rs_chain_has_admin_note x

theorem migrate_reservations_has_reviewed_at (x : ResTbl) :
    (migrate_reservations x).has_reviewed_at = true := by
  unfold migrate_reservations
  exact rs_chain_has_reviewed_at x

theorem migrate_reservations_has_reviewed_by_tg_id (x : ResTbl) :
    (migrate_reservations x).has_reviewed_by_tg_id = true := by
  unfold migrate_reservations
  exact rs_chain_has_reviewed_by_tg_id x

theorem migrate_reservations_has_hold_applied (x : ResTbl) :
    (migrate_reservations x).has_hold_applied = true := by
  unfold migrate_reservations
  exact rs_chain_has_hold_applied x

theorem map_idem {α : Type} (f : α → α) (hf : ∀ x, f (f x) = f x)
    (l : List α) : (l.map f).map f = l.map f := by
  rw [List.map_map]
  exact List.map_congr_left (fun x _ => hf x)

theorem migrate_events_idem (e : EventsTbl) :
    migrate_events (migrate_events e) = migrate_events e := by
  set E : EventsTbl := migrate_events e with hE
  have h1 : E.has_caption = true := by rw [hE]; exact migrate_events_has_caption e
  have h2 : E.has_photo_file_id = true := by
    rw [hE]; exact migrate_events_has_photo_file_id e
  have h3 : E.has_regular_tier1_price = true := by
    rw [hE]; exact migrate_events_has_regular_tier1_price e
  have h4 : E.has_regular_tier1_qty = true := by
    rw [hE]; exact migrate_events_has_regular_tier1_qty e
  have h5 : E.has_regular_tier2_price = true := by
    rw [hE]; exact migrate_events_has_regular_tier2_price e
  have h6 : E.has_regular_tier2_qty = true := by
    rw [hE]; exact migrate_events_has_regular_tier2_qty e
  have h7 : E.has_early_bird_price_girl = true := by
    rw [hE]; exact migrate_events_has_early_bird_price_girl e
  have h8 : E.has_regular_tier1_price_girl = true := by
    rw [hE]; exact migrate_events_has_regular_tier1_price_girl e
  have h9 : E.has_regular_tier2_price_girl = true := by
    rw [hE]; exact migrate_events_has_regular_tier2_price_girl e
  show migrate_events E = E
  unfold migrate_events
  rw [ev_add_caption_id E h1, ev_add_photo_id E h2, ev_add_t1p_id E h3,
    ev_add_t1q_id E h4, ev_add_t2p_id E h5, ev_add_t2q_id E h6,
    ev_add_ebg_id E h7, ev_add_t1g_id E h8, ev_add_t2g_id E h9]

theorem rs_status_row_idem (r : ResRow) :
    rs_status_row (rs_status_row r) = rs_status_row r := by
  unfold rs_status_row
  by_cases h : r.status = "reserved"
  · simp only [if_pos h]
    rw [if_neg (show ¬(("approved" : String) = "reserved") from by decide)]
  · rw [if_neg h, if_neg h]

theorem migrate_reservations_idem (t : ResTbl) :
    migrate_reservations (migrate_reservations t) = migrate_reservations t := by
  set T : ResTbl := migrate_reservations t with hT
  have h1 : T.has_payment_file_id = true := by
    rw [hT]; exact migrate_reservations_has_payment_file_id t
  have h2 : T.has_payment_file_type = true := by
    rw [hT]; exact migrate_reservations_has_payment_file_type t
  have h3 : T.has_admin_note = true := by
    rw [hT]; exact migrate_reservations_has_admin_note t
  have h4 : T.has_reviewed_at = true := by
    rw [hT]; exact migrate_reservations_has_reviewed_at t
  have h5 : T.has_reviewed_by_tg_id = true := by
    rw [hT]; exact migrate_reservations_has_reviewed_by_tg_id t
  have h6 : T.has_hold_applied = true := by
    rw [hT]; exact migrate_reservations_has_hold_applied t
  have hrows : T.rows.map rs_status_row = T.rows := by
    have : T.rows = (rs_add_hold (rs_add_rby (rs_add_rat (rs_add_note
        (rs_add_pft (rs_add_pfi t)))))).rows.map rs_status_row := by
      rw [hT]
      rfl
    rw [this, map_idem rs_status_row rs_status_row_idem]
  show migrate_reservations T = T
  unfold migrate_reservations
  rw [rs_add_pfi_id T h1, rs_add_pft_id T h2, rs_add_note_id T h3,
    rs_add_rat_id T h4, rs_add_rby_id T h5, rs_add_hold_id T h6]
  dsimp only
  rw [hrows]

theorem pres_full_name_row_id (a : AttRow) :
    (full_name_row a).id = a.id := by
  unfold full_name_row
  split <;> rfl

theorem pres_full_name_row_reservation_id (a : AttRow) :
    (full_name_row a).reservation_id = a.reservation_id := by
  unfold full_name_row
  split <;> rfl

theorem pres_full_name_row_gender (a : AttRow) :
    (full_name_row a).gender = a.gender := by
  unfold full_name_row
  split <;> rfl

theorem pres_full_name_row_ticket_tier (a : AttRow) :
    (full_name_row a).ticket_tier = a.ticket_tier := by
  unfold full_name_row
  split <;> rfl

theorem pres_full_name_row_name (a : AttRow) :
    (full_name_row a).name = a.name := by
  unfold full_name_row
  split <;> rfl

theorem pres_full_name_row_surname (a : AttRow) :
    (full_name_row a).surname = a.surname := by
  unfold full_name_row
  split <;> rfl

theorem pres_ticket_tier_row_id (ress : List ResRow) (a : AttRow) :
    (ticket_tier_row ress a).id = a.id := by
  unfold ticket_tier_row
  split <;> rfl

theorem pres_ticket_tier_row_reservation_id (ress : List ResRow) (a : AttRow) :
    (ticket_tier_row ress a).reservation_id = a.reservation_id := by
  unfold ticket_tier_row
  split <;> rfl

theorem pres_ticket_tier_row_gender (ress : List ResRow) (a : AttRow) :
    (ticket_tier_row ress a).gender = a.gender := by
  unfold ticket_tier_row
  split <;> rfl

theorem pres_ticket_tier_row_full_name (ress : List ResRow) (a : AttRow) :
    (ticket_tier_row ress a).full_name = a.full_name := by
  unfold ticket_tier_row
  split <;> rfl

theorem pres_ticket_tier_row_name (ress : List ResRow) (a : AttRow) :
    (ticket_tier_row ress a).name = a.name := by
  unfold ticket_tier_row
  split <;> rfl

theorem pres_ticket_tier_row_surname (ress : List ResRow) (a : AttRow) :
    (ticket_tier_row ress a).surname = a.surname := by
  unfold ticket_tier_row
  split <;> rfl

theorem pres_backfill_gender_row_id (ress : List ResRow)
    (atts : List AttRow) (a : AttRow) :
    (backfill_gender_row ress atts a).id = a.id := by
  unfold backfill_gender_row
  split
  · rfl
  · split <;> rfl

theorem pres_backfill_gender_row_reservation_id (ress : List ResRow)
    (atts : List AttRow) (a : AttRow) :
    (backfill_gender_row ress atts a).reservation_id = a.reservation_id := by
  unfold backfill_gender_row
  split
  · rfl
  · split <;> rfl

theorem pres_backfill_gender_row_full_name (ress : List ResRow)
    (atts : List AttRow) (a : AttRow) :
    (backfill_gender_row ress atts a).full_name = a.full_name := by
  unfold backfill_gender_row
  split
  · rfl
  · split <;> rfl

theorem pres_backfill_gender_row_name (ress : List ResRow)
    (atts : List AttRow) (a : AttRow) :
    (backfill_gender_row ress atts a).name = a.name := by
  unfold backfill_gender_row
  split
  · rfl
  · split <;> rfl

theorem pres_backfill_gender_row_surname (ress : List ResRow)
    (atts : List AttRow) (a : AttRow) :
    (backfill_gender_row ress atts a).surname = a.surname := by
  unfold backfill_gender_row
  split
  · rfl
  · split <;> rfl

theorem pres_backfill_gender_row_ticket_tier (ress : List ResRow)
    (atts : List AttRow) (a : AttRow) :
    (backfill_gender_row ress atts a).ticket_tier = a.ticket_tier := by
  unfold backfill_gender_row
  split
  · rfl
  · split <;> rfl

theorem map_fixed {α : Type} (f : α → α) (l : List α)
    (h : ∀ y ∈ l, f y = y) : l.map f = l := by
  induction l with
  | nil => rfl
  | cons x l ih =>
    rw [List.map_cons, h x (by simp), ih (fun y hy => h y (by simp [hy]))]

theorem gender_for_cases (b g : Int) (i : Nat) :
    gender_for b g i = "boy" ∨ gender_for b g i = "girl" ∨
      gender_for b g i = "unknown" := by
  unfold gender_for
  split
  · exact Or.inl rfl
  · split
    · exact Or.inr (Or.inl rfl)
    · exact Or.inr (Or.inr rfl)

theorem full_name_row_idem (a : AttRow) :
    full_name_row (full_name_row a) = full_name_row a := by
  unfold full_name_row
  by_cases h : a.full_name = ""
  · rw [if_pos h]
    dsimp only
    by_cases hT : String.mk (strip_chars (a.name ++ " " ++ a.surname).data) = ""
    · rw [if_pos hT]
    · rw [if_neg hT]
  · rw [if_neg h, if_neg h]

theorem full_name_row_fixed_of (a b : AttRow)
    (h1 : a.full_name = b.full_name) (h2 : a.name = b.name)
    (h3 : a.surname = b.surname) (hb : full_name_row b = b) :
    full_name_row a = a := by
  unfold full_name_row at *
  by_cases hfb : b.full_name = ""
  · rw [if_pos hfb] at hb
    have hTb : String.mk (strip_chars (b.name ++ " " ++ b.surname).data)
        = b.full_name := congrArg (fun x => x.full_name) hb
    rw [if_pos (h1.trans hfb)]
    have hTa : String.mk (strip_chars (a.name ++ " " ++ a.surname).data)
        = a.full_name := by
      rw [h2, h3, hTb, h1]
    rw [hTa]
  · rw [if_neg (fun hc : a.full_name = "" => hfb (h1.symm.trans hc))]

theorem ticket_tier_row_idem (ress : List ResRow) (a : AttRow) :
    ticket_tier_row ress (ticket_tier_row ress a) = ticket_tier_row ress a := by
  unfold ticket_tier_row
  by_cases h : a.ticket_tier = ""
  · rw [if_pos h]
    dsimp only
    by_cases hv : (match ress.find? (fun r => r.id = a.reservation_id) with
        | some r => r.ticket_type
        | none => "") = ""
    · rw [if_pos hv]
    · rw [if_neg hv]
  · rw [if_neg h, if_neg h]

theorem att_idx_keys (l : List AttRow) (a : AttRow) :
    att_idx l a = ((l.map (fun x => (x.id, x.reservation_id))).filter
      (fun k => k.2 = a.reservation_id && k.1 < a.id)).length := by
  unfold att_idx
  induction l with
  | nil => rfl
  | cons x l ih =>
    by_cases h1 : x.reservation_id = a.reservation_id <;>
      by_cases h2 : x.id < a.id <;>
      simp [List.filter, h1, h2, ih]

theorem att_idx_eq_of (l1 l2 : List AttRow)
    (hk : l1.map (fun x => (x.id, x.reservation_id))
      = l2.map (fun x => (x.id, x.reservation_id)))
    (a b : AttRow) (hid : a.id = b.id)
    (hrid : a.reservation_id = b.reservation_id) :
    att_idx l1 a = att_idx l2 b := by
  rw [att_idx_keys, att_idx_keys, hk, hid, hrid]

theorem keys_map (f : AttRow → AttRow)
    (hf : ∀ x, (f x).id = x.id ∧ (f x).reservation_id = x.reservation_id)
    (l : List AttRow) :
    (l.map f).map (fun x => (x.id, x.reservation_id))
      = l.map (fun x => (x.id, x.reservation_id)) := by
  rw [List.map_map]
  exact List.map_congr_left (fun x _ => by
    simp [Function.comp, (hf x).1, (hf x).2])

theorem att_backfills_idem (R : List ResRow) (l : List AttRow) :
    att_backfills R (att_backfills R l) = att_backfills R l := by
  unfold att_backfills backfill_attendee_genders
  set L1 : List AttRow := l.map full_name_row with hL1
  set L2 : List AttRow := L1.map (backfill_gender_row R L1) with hL2
  set L3 : List AttRow := L2.map (ticket_tier_row R) with hL3
  have hffL1 : ∀ y ∈ L1, full_name_row y = y := by
    intro y hy
    rw [hL1] at hy
    obtain ⟨x, hx, hfx⟩ := List.mem_map.mp hy
    rw [← hfx]
    exact full_name_row_idem x
  have hdec : ∀ y ∈ L3, ∃ w ∈ L1,
      y = ticket_tier_row R (backfill_gender_row R L1 w) := by
    intro y hy
    rw [hL3] at hy
    obtain ⟨z, hz, hfz⟩ := List.mem_map.mp hy
    rw [hL2] at hz
    obtain ⟨w, hw, hfw⟩ := List.mem_map.mp hz
    exact ⟨w, hw, by rw [← hfz, ← hfw]⟩
  have hM1 : L3.map full_name_row = L3 := by
    apply map_fixed
    intro y hy
    obtain ⟨w, hw, hyw⟩ := hdec y hy
    refine full_name_row_fixed_of y w ?_ ?_ ?_ (hffL1 w hw)
    · rw [hyw, pres_ticket_tier_row_full_name,
        pres_backfill_gender_row_full_name]
    · rw [hyw, pres_ticket_tier_row_name, pres_backfill_gender_row_name]
    · rw [hyw, pres_ticket_tier_row_surname, pres_backfill_gender_row_surname]
  rw [hM1]
  have hkeys : L3.map (fun x => (x.id, x.reservation_id))
      = L1.map (fun x => (x.id, x.reservation_id)) := by
    rw [hL3, keys_map (ticket_tier_row R) (fun x =>
        ⟨pres_ticket_tier_row_id R x, pres_ticket_tier_row_reservation_id R x⟩)
      L2, hL2, keys_map _ (fun x =>
        ⟨pres_backfill_gender_row_id R L1 x,
         pres_backfill_gender_row_reservation_id R L1 x⟩) L1]
  have hBG : ∀ y ∈ L3, backfill_gender_row R L3 y = y := by
    intro y hy
    obtain ⟨w, hw, hyw⟩ := hdec y hy
    have hid : y.id = w.id := by
      rw [hyw, pres_ticket_tier_row_id, pres_backfill_gender_row_id]
    have hrid : y.reservation_id = w.reservation_id := by
      rw [hyw, pres_ticket_tier_row_reservation_id,
        pres_backfill_gender_row_reservation_id]
    have hidx : att_idx L3 y = att_idx L1 w :=
      att_idx_eq_of L3 L1 hkeys y w hid hrid
    have hyg : y.gender = (backfill_gender_row R L1 w).gender := by
      rw [hyw, pres_ticket_tier_row_gender]
    rcases hfy : R.find? (fun r => r.id = y.reservation_id) with _ | r
    · unfold backfill_gender_row
      rw [hfy]
    · have hfw : R.find? (fun r => r.id = w.reservation_id) = some r := by
        rw [← hrid]
        exact hfy
      by_cases hgw : w.gender = "" ∨ w.gender = "unknown"
      · have hzg : (backfill_gender_row R L1 w).gender
            = gender_for r.boys r.girls (att_idx L1 w) := by
          unfold backfill_gender_row
          rw [hfw]
          dsimp only
          rw [if_pos hgw]
        have hyg2 : y.gender = gender_for r.boys r.girls (att_idx L1 w) :=
          hyg.trans hzg
        rcases gender_for_cases r.boys r.girls (att_idx L1 w) with hG | hG | hG
        · unfold backfill_gender_row
          rw [hfy]
          dsimp only
          rw [if_neg (by
            intro hcon
            rcases hcon with hc | hc <;>
              · rw [hyg2, hG] at hc
                exact absurd hc (by decide))]
        · unfold backfill_gender_row
          rw [hfy]
          dsimp only
          rw [if_neg (by
            intro hcon
            rcases hcon with hc | hc <;>
              · rw [hyg2, hG] at hc
                exact absurd hc (by decide))]
        · unfold backfill_gender_row
          rw [hfy]
          dsimp only
          rw [if_pos (Or.inr (hyg2.trans hG)), hidx, hG,
            show ("unknown" : String) = y.gender from (hyg2.trans hG).symm]
      · have hzw : backfill_gender_row R L1 w = w := by
          unfold backfill_gender_row
          rw [hfw]
          dsimp only
          rw [if_neg hgw]
        have hyg2 : y.gender = w.gender := by rw [hyg, hzw]
        unfold backfill_gender_row
        rw [hfy]
        dsimp only
        rw [if_neg (by rw [hyg2]; exact hgw)]
  rw [map_fixed _ _ hBG]
  apply map_fixed
  intro y hy
  rw [hL3] at hy
  obtain ⟨z, hz, hfz⟩ := List.mem_map.mp hy
  rw [← hfz]
  exact ticket_tier_row_idem R z

theorem migrate_attendees_has_full_name (ress : List ResRow) (t : AttTbl) :
    (migrate_attendees ress t).has_full_name = true := by
  unfold migrate_attendees
  dsimp only
  rw [pres_at_add_tier_has_full_name, pres_at_add_gender_has_full_name]
  exact at_add_full_flag t

theorem migrate_attendees_has_gender (ress : List ResRow) (t : AttTbl) :
    (migrate_attendees ress t).has_gender = true := by
  unfold migrate_attendees
  dsimp only
  rw [pres_at_add_tier_has_gender]
  exact at_add_gender_flag _

theorem migrate_attendees_has_ticket_tier (ress : List ResRow) (t : AttTbl) :
    (migrate_attendees ress t).has_ticket_tier = true := by
  unfold migrate_attendees
  dsimp only
  exact at_add_tier_flag _

theorem migrate_attendees_idem (ress : List ResRow) (t : AttTbl) :
    migrate_attendees ress (migrate_attendees ress t)
      = migrate_attendees ress t := by
  set T : AttTbl := migrate_attendees ress t with hT
  have h1 : T.has_full_name = true := by
    rw [hT]; exact migrate_attendees_has_full_name ress t
  have h2 : T.has_gender = true := by
    rw [hT]; exact migrate_attendees_has_gender ress t
  have h3 : T.has_ticket_tier = true := by
    rw [hT]; exact migrate_attendees_has_ticket_tier ress t
  have hrows : att_backfills ress T.rows = T.rows := by
    have hTr : T.rows = att_backfills ress
        (at_add_tier (at_add_gender (at_add_full t))).rows := by
      rw [hT]
      rfl
    rw [hTr, att_backfills_idem]
  show migrate_attendees ress T = T
  unfold migrate_attendees
  rw [at_add_full_id T h1, at_add_gender_id T h2, at_add_tier_id T h3]
  dsimp only
  rw [hrows]

theorem migrate_events_present (e : EventsTbl) :
    (migrate_events e).present = e.present := by
  unfold migrate_events
  rw [pres_ev_add_t2g_present, pres_ev_add_t1g_present, pres_ev_add_ebg_present,
    pres_ev_add_t2q_present, pres_ev_add_t2p_present, pres_ev_add_t1q_present,
    pres_ev_add_t1p_present, pres_ev_add_photo_present,
    pres_ev_add_caption_present]

theorem migrate_reservations_present (t : ResTbl) :
    (migrate_reservations t).present = t.present := by
  unfold migrate_reservations
  dsimp only
  rw [pres_rs_add_hold_present, pres_rs_add_rby_present, pres_rs_add_rat_present,
    pres_rs_add_note_present, pres_rs_add_pft_present, pres_rs_add_pfi_present]

theorem migrate_attendees_present (ress : List ResRow) (t : AttTbl) :
    (migrate_attendees ress t).present = t.present := by
  unfold migrate_attendees
  dsimp only
  rw [pres_at_add_tier_present, pres_at_add_gender_present,
    pres_at_add_full_present]

theorem init_schema_events_present (s : DbState) :
    (init_schema s).events.present = true := by
  unfold init_schema
  dsimp only
  split
  · next h => exact h
  · rfl

theorem init_schema_reservations_present (s : DbState) :
    (init_schema s).reservations.present = true := by
  unfold init_schema
  dsimp only
  split
  · next h => exact h
  · rfl

theorem init_schema_attendees_present (s : DbState) :
    (init_schema s).attendees.present = true := by
  unfold init_schema
  dsimp only
  split
  · next h => exact h
  · rfl

theorem init_schema_open (s : DbState) :
    init_schema (open_store s) = open_store s := by
  have h1 : (open_store s).events.present = true := by
    show (migrate_schema (init_schema s)).events.present = true
    unfold migrate_schema
    dsimp only
    rw [migrate_events_present]
    exact init_schema_events_present s
  have h2 : (open_store s).reservations.present = true := by
    show (migrate_schema (init_schema s)).reservations.present = true
    unfold migrate_schema
    dsimp only
    rw [migrate_reservations_present]
    exact init_schema_reservations_present s
  have h3 : (open_store s).attendees.present = true := by
    show (migrate_schema (init_schema s)).attendees.present = true
    unfold migrate_schema
    dsimp only
    rw [migrate_attendees_present]
    exact init_schema_attendees_present s
  unfold init_schema
  rw [if_pos h1, if_pos h2, if_pos h3]

/-- C9: the schema pass run on store open (`_init_schema` then
`_migrate_schema`) is idempotent: opening a store that has already
been opened changes neither the schema flags nor any table row - no
column is added twice, the status rewrite, full-name, gender and
ticket-tier backfills never overwrite a value their first run
produced, and no row is created or lost. -/
theorem claim_C9_migration_idempotent (s : DbState) :
    open_store (open_store s) = open_store s := by
  show migrate_schema (init_schema (open_store s)) = open_store s
  rw [init_schema_open s]
  show migrate_schema (migrate_schema (init_schema s))
    = migrate_schema (init_schema s)
  set s0 : DbState := init_schema s with hs0
  unfold migrate_schema
  dsimp only
  rw [migrate_events_idem, migrate_reservations_idem, migrate_attendees_idem]
